import Mathlib

/-!
# Stella overlay menu (FrameBuffer.cxx) : a shallow embedding

The menu state machine, the remap-menu scroll window and the binding tables of
`src/stella/src/emucore/FrameBuffer.cxx`, as pure functions on an explicit state
record.  Member variables keep their source names.  32-bit integers are `Int`
(or `Nat` for unsigned values) with the wrap-around written out.
-/

namespace Stella

/-! ## Machine integers -/

/-- Value of a mathematical integer once stored in an `Int32` (two's complement wrap). -/
def toInt32 (x : Int) : Int := (x + 2147483648) % 4294967296 - 2147483648

/-- Value of a mathematical integer once stored in a `uInt32`. -/
def toUInt32 (x : Int) : Nat := (x % 4294967296).toNat

/-- A counted loop, `for(i = 0; i < n; ++i) body`, threading the loop state. -/
def forLoop {σ : Type} (n : Nat) (body : Nat → σ → σ) (init : σ) : σ :=
  (List.range n).foldl (fun st i => body i st) init

/-! ## Strings -/

/-- The character of a decimal digit. -/
def digitChar (d : Nat) : Char := Char.ofNat (48 + d)

/-- Decimal digits of `n`, most significant first; `fuel` bounds the number of digits. -/
def decimalAux : Nat → Nat → List Char
  | 0, _ => []
  | fuel + 1, n =>
    if n < 10 then [digitChar n] else decimalAux fuel (n / 10) ++ [digitChar (n % 10)]

/-- What `ostream << n` appends for a non-negative integer `n`. -/
def decimal (n : Nat) : String := String.mk (decimalAux (n + 1) n)

/-- The call `s.substr(pos, n)` of `std::string`, for `pos` within the string. -/
def substr (s : String) (pos n : Nat) : String := String.mk ((s.data.drop pos).take n)

/-! ## Enumerations -/

/-- The enumerators of `Event::Type` that FrameBuffer.cxx names.  Event.hxx is not among the
sources; `other k` stands for the enumerators it declares besides these. -/
inductive EventType where
  | NoType
  | ConsoleSelect | ConsoleReset | ConsoleColor | ConsoleBlackWhite
  | ConsoleLeftDifficultyB | ConsoleLeftDifficultyA
  | ConsoleRightDifficultyB | ConsoleRightDifficultyA
  | SaveState | ChangeState | LoadState | TakeSnapshot | Pause
  | JoystickZeroUp | JoystickZeroDown | JoystickZeroLeft | JoystickZeroRight | JoystickZeroFire
  | JoystickOneUp | JoystickOneDown | JoystickOneLeft | JoystickOneRight | JoystickOneFire
  | BoosterGripZeroTrigger | BoosterGripZeroBooster
  | BoosterGripOneTrigger | BoosterGripOneBooster
  | DrivingZeroCounterClockwise | DrivingZeroClockwise | DrivingZeroFire
  | DrivingOneCounterClockwise | DrivingOneClockwise | DrivingOneFire
  | KeyboardZero1 | KeyboardZero2 | KeyboardZero3 | KeyboardZero4 | KeyboardZero5
  | KeyboardZero6 | KeyboardZero7 | KeyboardZero8 | KeyboardZero9
  | KeyboardZeroStar | KeyboardZero0 | KeyboardZeroPound
  | KeyboardOne1 | KeyboardOne2 | KeyboardOne3 | KeyboardOne4 | KeyboardOne5
  | KeyboardOne6 | KeyboardOne7 | KeyboardOne8 | KeyboardOne9
  | KeyboardOneStar | KeyboardOne0 | KeyboardOnePound
  | other (k : Nat)

/-- The enumeration `FrameBuffer::Widget`, in the order of the `switch` of `update`.
`invalid id` is any other value of the underlying integer. -/
inductive Widget where
  | W_NONE | MAIN_MENU | REMAP_MENU | INFO_MENU
  | invalid (id : Nat)
  deriving DecidableEq

/-- Constants of StellaEvent.hxx and Event.hxx, which are not among the sources:
the number of joysticks, the number of joystick codes, and the integer that the
stream operator prints for an `Event::Type`. -/
structure Consts where
  LastJSTICK : Nat
  LastJCODE : Nat
  ord : EventType → Nat

/-- A row `FrameBuffer::RemapMenuItem`. -/
structure RemapMenuItem where
  event : EventType
  action : String
  key : String

/-- The table `FrameBuffer::ourMainMenu`. -/
def ourMainMenu : List (Widget × String) :=
  [ (Widget.REMAP_MENU, "Event Remapping"),
    (Widget.INFO_MENU, "Game Information") ]

/-- The table `FrameBuffer::ourRemapMenu` as initialised in the source. -/
def ourRemapMenu : List RemapMenuItem :=
  [ ⟨.ConsoleSelect, "Select", ""⟩,
    ⟨.ConsoleReset, "Reset", ""⟩,
    ⟨.ConsoleColor, "Color TV", ""⟩,
    ⟨.ConsoleBlackWhite, "B/W TV", ""⟩,
    ⟨.ConsoleLeftDifficultyB, "Left Diff. B", ""⟩,
    ⟨.ConsoleLeftDifficultyA, "Left Diff. A", ""⟩,
    ⟨.ConsoleRightDifficultyB, "Right Diff. B", ""⟩,
    ⟨.ConsoleRightDifficultyA, "Right Diff. A", ""⟩,
    ⟨.SaveState, "Save State", ""⟩,
    ⟨.ChangeState, "Change State", ""⟩,
    ⟨.LoadState, "Load State", ""⟩,
    ⟨.TakeSnapshot, "Snapshot", ""⟩,
    ⟨.Pause, "Pause", ""⟩,
    ⟨.JoystickZeroUp, "Left-Joy Up", ""⟩,
    ⟨.JoystickZeroDown, "Left-Joy Down", ""⟩,
    ⟨.JoystickZeroLeft, "Left-Joy Left", ""⟩,
    ⟨.JoystickZeroRight, "Left-Joy Right", ""⟩,
    ⟨.JoystickZeroFire, "Left-Joy Fire", ""⟩,
    ⟨.JoystickOneUp, "Right-Joy Up", ""⟩,
    ⟨.JoystickOneDown, "Right-Joy Down", ""⟩,
    ⟨.JoystickOneLeft, "Right-Joy Left", ""⟩,
    ⟨.JoystickOneRight, "Right-Joy Right", ""⟩,
    ⟨.JoystickOneFire, "Right-Joy Fire", ""⟩,
    ⟨.BoosterGripZeroTrigger, "Left-BGrip Trigger", ""⟩,
    ⟨.BoosterGripZeroBooster, "Left-BGrip Booster", ""⟩,
    ⟨.BoosterGripOneTrigger, "Right-BGrip Trigger", ""⟩,
    ⟨.BoosterGripOneBooster, "Right-BGrip Booster", ""⟩,
    ⟨.DrivingZeroCounterClockwise, "Left-Driving Left", ""⟩,
    ⟨.DrivingZeroClockwise, "Left-Driving Right", ""⟩,
    ⟨.DrivingZeroFire, "Left-Driving Fire", ""⟩,
    ⟨.DrivingOneCounterClockwise, "Right-Driving Left", ""⟩,
    ⟨.DrivingOneClockwise, "Right-Driving Right", ""⟩,
    ⟨.DrivingOneFire, "Right-Driving Fire", ""⟩,
    ⟨.KeyboardZero1, "Left-Pad 1", ""⟩,
    ⟨.KeyboardZero2, "Left-Pad 2", ""⟩,
    ⟨.KeyboardZero3, "Left-Pad 3", ""⟩,
    ⟨.KeyboardZero4, "Left-Pad 4", ""⟩,
    ⟨.KeyboardZero5, "Left-Pad 5", ""⟩,
    ⟨.KeyboardZero6, "Left-Pad 6", ""⟩,
    ⟨.KeyboardZero7, "Left-Pad 7", ""⟩,
    ⟨.KeyboardZero8, "Left-Pad 8", ""⟩,
    ⟨.KeyboardZero9, "Left-Pad 9", ""⟩,
    ⟨.KeyboardZeroStar, "Left-Pad *", ""⟩,
    ⟨.KeyboardZero0, "Left-Pad 0", ""⟩,
    ⟨.KeyboardZeroPound, "Left-Pad #", ""⟩,
    ⟨.KeyboardOne1, "Right-Pad 1", ""⟩,
    ⟨.KeyboardOne2, "Right-Pad 2", ""⟩,
    ⟨.KeyboardOne3, "Right-Pad 3", ""⟩,
    ⟨.KeyboardOne4, "Right-Pad 4", ""⟩,
    ⟨.KeyboardOne5, "Right-Pad 5", ""⟩,
    ⟨.KeyboardOne6, "Right-Pad 6", ""⟩,
    ⟨.KeyboardOne7, "Right-Pad 7", ""⟩,
    ⟨.KeyboardOne8, "Right-Pad 8", ""⟩,
    ⟨.KeyboardOne9, "Right-Pad 9", ""⟩,
    ⟨.KeyboardOneStar, "Right-Pad *", ""⟩,
    ⟨.KeyboardOne0, "Right-Pad 0", ""⟩,
    ⟨.KeyboardOnePound, "Right-Pad #", ""⟩ ]

/-- The position of an enumerator in the declaration of `EventType` above (the named
ones in order, then `other k` at 58 + k); two events are equal exactly when their
positions are.  It is not the ordinal that Event.hxx assigns. -/
def EventType.ctorIndex : EventType → Nat
  | EventType.NoType => 0
  | EventType.ConsoleSelect => 1
  | EventType.ConsoleReset => 2
  | EventType.ConsoleColor => 3
  | EventType.ConsoleBlackWhite => 4
  | EventType.ConsoleLeftDifficultyB => 5
  | EventType.ConsoleLeftDifficultyA => 6
  | EventType.ConsoleRightDifficultyB => 7
  | EventType.ConsoleRightDifficultyA => 8
  | EventType.SaveState => 9
  | EventType.ChangeState => 10
  | EventType.LoadState => 11
  | EventType.TakeSnapshot => 12
  | EventType.Pause => 13
  | EventType.JoystickZeroUp => 14
  | EventType.JoystickZeroDown => 15
  | EventType.JoystickZeroLeft => 16
  | EventType.JoystickZeroRight => 17
  | EventType.JoystickZeroFire => 18
  | EventType.JoystickOneUp => 19
  | EventType.JoystickOneDown => 20
  | EventType.JoystickOneLeft => 21
  | EventType.JoystickOneRight => 22
  | EventType.JoystickOneFire => 23
  | EventType.BoosterGripZeroTrigger => 24
  | EventType.BoosterGripZeroBooster => 25
  | EventType.BoosterGripOneTrigger => 26
  | EventType.BoosterGripOneBooster => 27
  | EventType.DrivingZeroCounterClockwise => 28
  | EventType.DrivingZeroClockwise => 29
  | EventType.DrivingZeroFire => 30
  | EventType.DrivingOneCounterClockwise => 31
  | EventType.DrivingOneClockwise => 32
  | EventType.DrivingOneFire => 33
  | EventType.KeyboardZero1 => 34
  | EventType.KeyboardZero2 => 35
  | EventType.KeyboardZero3 => 36
  | EventType.KeyboardZero4 => 37
  | EventType.KeyboardZero5 => 38
  | EventType.KeyboardZero6 => 39
  | EventType.KeyboardZero7 => 40
  | EventType.KeyboardZero8 => 41
  | EventType.KeyboardZero9 => 42
  | EventType.KeyboardZeroStar => 43
  | EventType.KeyboardZero0 => 44
  | EventType.KeyboardZeroPound => 45
  | EventType.KeyboardOne1 => 46
  | EventType.KeyboardOne2 => 47
  | EventType.KeyboardOne3 => 48
  | EventType.KeyboardOne4 => 49
  | EventType.KeyboardOne5 => 50
  | EventType.KeyboardOne6 => 51
  | EventType.KeyboardOne7 => 52
  | EventType.KeyboardOne8 => 53
  | EventType.KeyboardOne9 => 54
  | EventType.KeyboardOneStar => 55
  | EventType.KeyboardOne0 => 56
  | EventType.KeyboardOnePound => 57
  | EventType.other k => 58 + k

/-- The enumerator at a position: the inverse of `EventType.ctorIndex`. -/
def EventType.ofCtorIndex (n : Nat) : EventType :=
  if n < 58 then
    (EventType.NoType :: ourRemapMenu.map (fun it => it.event)).getD n EventType.NoType
  else EventType.other (n - 58)

/-- Equality of events is decided on their positions. -/
instance instDecidableEqEventType : DecidableEq EventType := fun a b =>
  if h : a.ctorIndex = b.ctorIndex then
    isTrue (by
      have back : ∀ e : EventType, EventType.ofCtorIndex e.ctorIndex = e := by
        intro e
        cases e
        case other k => simp [EventType.ctorIndex, EventType.ofCtorIndex]
        all_goals rfl
      have h1 := congrArg EventType.ofCtorIndex h
      rw [back a, back b] at h1
      exact h1)
  else
    isFalse (fun hab => h (by rw [hab]))

/-- The table `FrameBuffer::ourEventName`, one name per `StellaEvent::KeyCode`, in the
order of that enumeration. -/
def ourEventName : List String :=
  [ "A", "B", "C", "D", "E", "F", "G", "H", "I", "J", "K", "L", "M", "N", "O",
    "P", "Q", "R", "S", "T", "U", "V", "W", "X", "Y", "Z",
    "0", "1", "2", "3", "4", "5", "6", "7", "8", "9",
    "KP 0", "KP 1", "KP 2", "KP 3", "KP 4", "KP 5", "KP 6", "KP 7", "KP 8",
    "KP 9", "KP .", "KP /", "KP *", "KP -", "KP +", "KP ENTER", "KP =",
    "BACKSP", "TAB", "CLEAR", "ENTER", "ESC", "SPACE", ",", "-", ".",
    "/", "\\", ";", "=", "\"", "`", "[", "]",
    "PRT SCRN", "SCR LOCK", "PAUSE", "INS", "HOME", "PGUP",
    "DEL", "END", "PGDN",
    "LCTRL", "RCTRL", "LALT", "RALT", "LWIN", "RWIN", "MENU",
    "UP", "DOWN", "LEFT", "RIGHT",
    "F1", "F2", "F3", "F4", "F5", "F6", "F7", "F8", "F9", "F10",
    "F11", "F12", "F13", "F14", "F15" ]

/-- The bound `StellaEvent::LastKCODE`: the declared size of `ourEventName`, which the
source initialises in full. -/
def LastKCODE : Nat := 105

/-- Key code `StellaEvent::KCODE_RETURN`: the position of "ENTER" in `ourEventName`, which
follows the order of `StellaEvent::KeyCode` (StellaEvent.hxx is not among the sources). -/
def KCODE_RETURN : Nat := 56

/-- Key code `StellaEvent::KCODE_ESCAPE`, the position of "ESC" in `ourEventName`. -/
def KCODE_ESCAPE : Nat := 57

/-- Key code `StellaEvent::KCODE_PAGEUP`, the position of "PGUP" in `ourEventName`. -/
def KCODE_PAGEUP : Nat := 75

/-- Key code `StellaEvent::KCODE_PAGEDOWN`, the position of "PGDN" in `ourEventName`. -/
def KCODE_PAGEDOWN : Nat := 78

/-- Key code `StellaEvent::KCODE_UP`, the position of "UP" in `ourEventName`. -/
def KCODE_UP : Nat := 86

/-- Key code `StellaEvent::KCODE_DOWN`, the position of "DOWN" in `ourEventName`. -/
def KCODE_DOWN : Nat := 87

/-- Joystick code `StellaEvent::JAXIS_UP`.  StellaEvent.hxx is not among the sources;
`loadRemapMenu` numbers the buttons from code 4 on (`button-4`), so the four axis codes
are 0 to 3, in the order of its `switch`. -/
def JAXIS_UP : Nat := 0

/-- Joystick code `StellaEvent::JAXIS_DOWN`. -/
def JAXIS_DOWN : Nat := 1

/-- Joystick code `StellaEvent::JAXIS_LEFT`. -/
def JAXIS_LEFT : Nat := 2

/-- Joystick code `StellaEvent::JAXIS_RIGHT`. -/
def JAXIS_RIGHT : Nat := 3

/-! ## The state of a FrameBuffer -/

/-- The member variables of `FrameBuffer` that the menu code reads or writes, with the
objects it reaches through pointers: the key and joystick tables of the event handler
(arrays, as functions of the slot index, with their sizes), the `key` column of
`ourRemapMenu` (the only column written after construction), the properties strings and
the settings store. -/
structure FrameBuffer where
  myWidth : Nat
  myHeight : Nat
  theRedrawEntireFrameIndicator : Bool
  myFrameRate : Int
  myPauseStatus : Bool
  myCurrentWidget : Widget
  myRemapEventSelectedFlag : Bool
  mySelectedEvent : EventType
  myMenuMode : Bool
  theMenuChangedIndicator : Bool
  myMaxRows : Int
  myMaxColumns : Int
  myMainMenuIndex : Int
  myMainMenuItems : Int
  myRemapMenuIndex : Int
  myRemapMenuLowIndex : Int
  myRemapMenuHighIndex : Int
  myRemapMenuItems : Int
  myRemapMenuMaxLines : Int
  myMessageTime : Int
  myMessageText : String
  myInfoMenuWidth : Int
  myKeyTable : Nat → EventType
  myKeyTableSize : Nat
  myJoyTable : Nat → EventType
  myJoyTableSize : Nat
  ourRemapMenuKey : Nat → String
  ourPropertiesInfo : Nat → String
  settings : String → String

/-- The constructor `FrameBuffer::FrameBuffer()`.  The table pointers are not yet set. -/
def FrameBuffer.new : FrameBuffer where
  myWidth := 0
  myHeight := 0
  theRedrawEntireFrameIndicator := true
  myFrameRate := 0
  myPauseStatus := false
  myCurrentWidget := Widget.W_NONE
  myRemapEventSelectedFlag := false
  mySelectedEvent := EventType.NoType
  myMenuMode := false
  theMenuChangedIndicator := false
  myMaxRows := 0
  myMaxColumns := 0
  myMainMenuIndex := 0
  myMainMenuItems := ourMainMenu.length
  myRemapMenuIndex := 0
  myRemapMenuLowIndex := 0
  myRemapMenuHighIndex := 0
  myRemapMenuItems := ourRemapMenu.length
  myRemapMenuMaxLines := 0
  myMessageTime := 0
  myMessageText := ""
  myInfoMenuWidth := 0
  myKeyTable := fun _ => EventType.NoType
  myKeyTableSize := 0
  myJoyTable := fun _ => EventType.NoType
  myJoyTableSize := 0
  ourRemapMenuKey := fun i => (ourRemapMenu.getD i ⟨EventType.NoType, "", ""⟩).key
  ourPropertiesInfo := fun _ => ""
  settings := fun _ => ""

/-! ## Cursor movement -/

/-- The method `FrameBuffer::moveCursorUp(uInt32 amt)`. -/
def moveCursorUp (amt : Nat) (s : FrameBuffer) : FrameBuffer :=
  match s.myCurrentWidget with
  | Widget.MAIN_MENU =>
    if s.myMainMenuIndex > 0 then
      { s with myMainMenuIndex := toInt32 (s.myMainMenuIndex - 1) }
    else s
  | Widget.REMAP_MENU =>
    -- First move cursor up by the given amt
    let s : FrameBuffer := { s with myRemapMenuIndex := toInt32 (s.myRemapMenuIndex - amt) }
    -- Move up the boundaries
    let s : FrameBuffer :=
      if s.myRemapMenuIndex < s.myRemapMenuLowIndex then
        let x := toInt32 (s.myRemapMenuLowIndex - s.myRemapMenuIndex)
        { s with
          myRemapMenuLowIndex := toInt32 (s.myRemapMenuLowIndex - x)
          myRemapMenuHighIndex := toInt32 (s.myRemapMenuHighIndex - x) }
      else s
    -- Then scale back down, if necessary
    if s.myRemapMenuLowIndex < 0 then
      let x := toInt32 (0 - s.myRemapMenuLowIndex)
      { s with
        myRemapMenuIndex := toInt32 (s.myRemapMenuIndex + x)
        myRemapMenuLowIndex := toInt32 (s.myRemapMenuLowIndex + x)
        myRemapMenuHighIndex := toInt32 (s.myRemapMenuHighIndex + x) }
    else s
  | _ => s

/-- The method `FrameBuffer::moveCursorDown(uInt32 amt)`. -/
def moveCursorDown (amt : Nat) (s : FrameBuffer) : FrameBuffer :=
  match s.myCurrentWidget with
  | Widget.MAIN_MENU =>
    if s.myMainMenuIndex < toInt32 (s.myMainMenuItems - 1) then
      { s with myMainMenuIndex := toInt32 (s.myMainMenuIndex + 1) }
    else s
  | Widget.REMAP_MENU =>
    -- First move cursor down by the given amount
    let s : FrameBuffer := { s with myRemapMenuIndex := toInt32 (s.myRemapMenuIndex + amt) }
    -- Move down the boundaries
    let s : FrameBuffer :=
      if s.myRemapMenuIndex ≥ s.myRemapMenuHighIndex then
        let x := toInt32 (toInt32 (s.myRemapMenuIndex - s.myRemapMenuHighIndex) + 1)
        { s with
          myRemapMenuLowIndex := toInt32 (s.myRemapMenuLowIndex + x)
          myRemapMenuHighIndex := toInt32 (s.myRemapMenuHighIndex + x) }
      else s
    -- Then scale back up, if necessary
    if s.myRemapMenuHighIndex ≥ s.myRemapMenuItems then
      let x := toInt32 (s.myRemapMenuHighIndex - s.myRemapMenuItems)
      { s with
        myRemapMenuIndex := toInt32 (s.myRemapMenuIndex - x)
        myRemapMenuLowIndex := toInt32 (s.myRemapMenuLowIndex - x)
        myRemapMenuHighIndex := toInt32 (s.myRemapMenuHighIndex - x) }
    else s
  | _ => s

/-- One cursor move of the remap menu: the direction and the `amt` argument. -/
inductive Move where
  | up (amt : Nat)
  | down (amt : Nat)
  deriving DecidableEq

/-- The `amt` argument of a move. -/
def Move.amt : Move → Nat
  | Move.up a => a
  | Move.down a => a

/-- The call that a move stands for. -/
def applyMove (m : Move) (s : FrameBuffer) : FrameBuffer :=
  match m with
  | Move.up a => moveCursorUp a s
  | Move.down a => moveCursorDown a s

/-- A finite sequence of moves, first move first. -/
def runMoves (ms : List Move) (s : FrameBuffer) : FrameBuffer :=
  ms.foldl (fun st m => applyMove m st) s

/-- The window invariant of the remap menu for `N` items and page size `P`. -/
def WindowInv (N P : Int) (s : FrameBuffer) : Prop :=
  s.myRemapMenuLowIndex ≤ s.myRemapMenuIndex ∧
  s.myRemapMenuIndex < s.myRemapMenuHighIndex ∧
  s.myRemapMenuHighIndex - s.myRemapMenuLowIndex = min N P ∧
  0 ≤ s.myRemapMenuLowIndex ∧
  s.myRemapMenuHighIndex ≤ N

/-! ## The remap menu strings and the persisted tables -/

/-- The text that `loadRemapMenu` builds in `joyevent` for joystick slot `j`. -/
def joyEventName (c : Consts) (j : Nat) : String :=
  let stick := j / c.LastJCODE
  let button := j % c.LastJCODE
  if button = JAXIS_UP then "J" ++ decimal stick ++ " UP"
  else if button = JAXIS_DOWN then "J" ++ decimal stick ++ " DOWN"
  else if button = JAXIS_LEFT then "J" ++ decimal stick ++ " LEFT"
  else if button = JAXIS_RIGHT then "J" ++ decimal stick ++ " RIGHT"
  else "J" ++ decimal stick ++ " B" ++ decimal (toUInt32 ((button : Int) - 4))

/-- One step of the joining loops of `loadRemapMenu`: `name` is appended to `key`, after
a comma unless `key` is still empty. -/
def appendName (key name : String) : String :=
  if key = "" then key ++ name else key ++ ", " ++ name

/-- The local `key` of `loadRemapMenu` after its two inner loops, for one `event`. -/
def joinedKey (c : Consts) (s : FrameBuffer) (event : EventType) : String :=
  let key := ""
  let key := forLoop s.myKeyTableSize
    (fun j key => if s.myKeyTable j = event then appendName key (ourEventName.getD j "") else key)
    key
  forLoop s.myJoyTableSize
    (fun j key => if s.myJoyTable j = event then appendName key (joyEventName c j) else key)
    key

/-- The column budget `uInt32 len = myMaxColumns - 19 - 2` of `loadRemapMenu`. -/
def keyBudget (s : FrameBuffer) : Nat :=
  toUInt32 (toInt32 (toInt32 (s.myMaxColumns - 19) - 2))

/-- The value that one pass of the outer loop of `loadRemapMenu` stores in
`ourRemapMenu[i].key`, for the row whose event is `event`. -/
def remapKeyText (c : Consts) (s : FrameBuffer) (event : EventType) : String :=
  let key := joinedKey c s event
  if key ≠ "" then
    -- 19 is the max size of the event names, and 2 is for the space in between
    let len := keyBudget s
    if key.length > len then
      substr key 0 (toUInt32 ((len : Int) - 3)) ++ "..."
    else key
  else "None"

/-- The colon-separated list that `loadRemapMenu` streams into `keybuf` or `joybuf`
for the first `n` slots of `table`. -/
def mapBuffer (c : Consts) (table : Nat → EventType) (n : Nat) : String :=
  forLoop n (fun i buf => buf ++ decimal (c.ord (table i)) ++ ":") ""

/-- The method `FrameBuffer::loadRemapMenu()`. -/
def loadRemapMenu (c : Consts) (s : FrameBuffer) : FrameBuffer :=
  -- Fill the remap menu with the current key and joystick mappings
  let s : FrameBuffer := forLoop s.myRemapMenuItems.toNat
    (fun i st =>
      { st with
        ourRemapMenuKey := Function.update st.ourRemapMenuKey i
          (remapKeyText c st (ourRemapMenu.getD i ⟨EventType.NoType, "", ""⟩).event) })
    s
  -- Save the new bindings
  let s : FrameBuffer :=
    { s with settings := Function.update s.settings "keymap" (mapBuffer c s.myKeyTable LastKCODE) }
  { s with
    settings := Function.update s.settings "joymap"
      (mapBuffer c s.myJoyTable (c.LastJSTICK * c.LastJCODE)) }

/-- The method `FrameBuffer::addKeyBinding(event, key)`. -/
def addKeyBinding (c : Consts) (event : EventType) (key : Nat) (s : FrameBuffer) : FrameBuffer :=
  loadRemapMenu c { s with myKeyTable := Function.update s.myKeyTable key event }

/-- The method `FrameBuffer::addJoyBinding(event, stick, code)`. -/
def addJoyBinding (c : Consts) (event : EventType) (stick code : Nat) (s : FrameBuffer) :
    FrameBuffer :=
  loadRemapMenu c
    { s with myJoyTable := Function.update s.myJoyTable (stick * c.LastJCODE + code) event }

/-- The loops of `deleteBinding` over one table: every slot below `size` that holds
`event` is set to `Event::NoType`. -/
def clearEvent (event : EventType) (size : Nat) (table : Nat → EventType) : Nat → EventType :=
  forLoop size
    (fun i tbl => if tbl i = event then Function.update tbl i EventType.NoType else tbl)
    table

/-- The method `FrameBuffer::deleteBinding(event)`. -/
def deleteBinding (c : Consts) (event : EventType) (s : FrameBuffer) : FrameBuffer :=
  let s : FrameBuffer := { s with myKeyTable := clearEvent event s.myKeyTableSize s.myKeyTable }
  let s : FrameBuffer := { s with myJoyTable := clearEvent event s.myJoyTableSize s.myJoyTable }
  loadRemapMenu c s

/-! ## The menu state machine -/

/-- The method `FrameBuffer::showMenu(bool show)`; the parameter is `showFlag` here. -/
def showMenu (showFlag : Bool) (s : FrameBuffer) : FrameBuffer :=
  { s with
    myMenuMode := showFlag
    myCurrentWidget := if showFlag then Widget.MAIN_MENU else Widget.W_NONE
    myRemapEventSelectedFlag := false
    mySelectedEvent := EventType.NoType
    theRedrawEntireFrameIndicator := true }

/-- The method `FrameBuffer::currentSelectedWidget()`. -/
def currentSelectedWidget (s : FrameBuffer) : Widget :=
  if s.myMainMenuIndex ≥ 0 ∧ s.myMainMenuIndex < s.myMainMenuItems then
    (ourMainMenu.getD s.myMainMenuIndex.toNat (Widget.W_NONE, "")).1
  else Widget.W_NONE

/-- The method `FrameBuffer::currentSelectedEvent()`. -/
def currentSelectedEvent (s : FrameBuffer) : EventType :=
  if s.myRemapMenuIndex ≥ 0 ∧ s.myRemapMenuIndex < s.myRemapMenuItems then
    (ourRemapMenu.getD s.myRemapMenuIndex.toNat ⟨EventType.NoType, "", ""⟩).event
  else EventType.NoType

/-- The method `FrameBuffer::sendKeyEvent(key, state)`. -/
def sendKeyEvent (c : Consts) (key : Nat) (state : Int) (s : FrameBuffer) : FrameBuffer :=
  if s.myCurrentWidget = Widget.W_NONE ∨ state ≠ 1 then s
  else
    -- Redraw the menus whenever a key event is received
    let s : FrameBuffer := { s with theMenuChangedIndicator := true }
    -- Check which type of widget is pending
    match s.myCurrentWidget with
    | Widget.MAIN_MENU =>
      if key = KCODE_RETURN then { s with myCurrentWidget := currentSelectedWidget s }
      else if key = KCODE_UP then moveCursorUp 1 s
      else if key = KCODE_DOWN then moveCursorDown 1 s
      else s
    | Widget.REMAP_MENU =>
      if s.myRemapEventSelectedFlag then
        let s : FrameBuffer :=
          if key = KCODE_ESCAPE then deleteBinding c s.mySelectedEvent s
          else addKeyBinding c s.mySelectedEvent key s
        { s with myRemapEventSelectedFlag := false }
      else if key = KCODE_RETURN then
        { s with mySelectedEvent := currentSelectedEvent s, myRemapEventSelectedFlag := true }
      else if key = KCODE_UP then moveCursorUp 1 s
      else if key = KCODE_DOWN then moveCursorDown 1 s
      else if key = KCODE_PAGEUP then moveCursorUp 4 s
      else if key = KCODE_PAGEDOWN then moveCursorDown 4 s
      else if key = KCODE_ESCAPE then
        { s with myCurrentWidget := Widget.MAIN_MENU, theRedrawEntireFrameIndicator := true }
      else s
    | Widget.INFO_MENU =>
      if key = KCODE_ESCAPE then
        { s with myCurrentWidget := Widget.MAIN_MENU, theRedrawEntireFrameIndicator := true }
      else s
    | _ => s

/-- The method `FrameBuffer::sendJoyEvent(stick, code, state)`. -/
def sendJoyEvent (c : Consts) (stick code : Nat) (state : Int) (s : FrameBuffer) : FrameBuffer :=
  if s.myCurrentWidget = Widget.W_NONE ∨ state ≠ 1 then s
  else
    -- Redraw the menus whenever a joy event is received
    let s : FrameBuffer := { s with theMenuChangedIndicator := true }
    -- Check which type of widget is pending
    match s.myCurrentWidget with
    | Widget.MAIN_MENU =>
      if code = JAXIS_UP then moveCursorUp 1 s
      else if code = JAXIS_DOWN then moveCursorDown 1 s
      else s
    | Widget.REMAP_MENU =>
      if s.myRemapEventSelectedFlag then
        let s : FrameBuffer := addJoyBinding c s.mySelectedEvent stick code s
        { s with myRemapEventSelectedFlag := false }
      else if code = JAXIS_UP then moveCursorUp 1 s
      else if code = JAXIS_DOWN then moveCursorDown 1 s
      else s
    | _ => s

/-- The value of an `int` once converted to `size_t` (64 bits wide). -/
def toSizeT (x : Int) : Nat := (x % 18446744073709551616).toNat

/-- The method `FrameBuffer::initDisplay(console, mediasrc)`.  The console supplies the
cartridge properties `props`, the event handler's key and joystick arrays with their
sizes, and the frame rate; `init()` of the derived class sets `width` and `height`. -/
def initDisplay (c : Consts) (props : String → String)
    (keyTable : Nat → EventType) (keyTableSize : Nat)
    (joyTable : Nat → EventType) (joyTableSize : Nat)
    (frameRate : Int) (width height : Nat) (s : FrameBuffer) : FrameBuffer :=
  -- Fill the properties info array with game information
  let info : Nat → String := fun i =>
    if i = 0 then props "Cartridge.Name"
    else if i = 2 then "Manufacturer: " ++ props "Cartridge.Manufacturer"
    else if i = 3 then "Model:        " ++ props "Cartridge.ModelNo"
    else if i = 4 then "Rarity:       " ++ props "Cartridge.Rarity"
    else if i = 5 then "Type:         " ++ props "Cartridge.Type"
    else if i = 7 then "MD5SUM:"
    else if i = 8 then props "Cartridge.MD5"
    else if i < 9 then ""
    else s.ourPropertiesInfo i
  let s : FrameBuffer :=
    { s with
      ourPropertiesInfo := info
      -- Get the arrays containing key and joystick mappings
      myKeyTable := keyTable
      myKeyTableSize := keyTableSize
      myJoyTable := joyTable
      myJoyTableSize := joyTableSize
      myFrameRate := frameRate
      -- Now initialize the derived class
      myWidth := width
      myHeight := height }
  -- Determine the maximum number of characters that can be onscreen
  let s : FrameBuffer :=
    { s with
      myMaxColumns := toInt32 ((s.myWidth / 8 : Nat) - 3)
      myMaxRows := toInt32 ((s.myHeight / 10 : Nat) - 2) }
  -- Set up the correct bounds for the remap menu
  let s : FrameBuffer :=
    { s with
      myRemapMenuMaxLines :=
        if s.myRemapMenuItems > s.myMaxRows then s.myMaxRows else s.myRemapMenuItems }
  let s : FrameBuffer :=
    { s with
      myRemapMenuLowIndex := 0
      myRemapMenuHighIndex := s.myRemapMenuMaxLines }
  -- Figure out the longest properties string,
  -- and cut any string that is wider than the display
  let s : FrameBuffer := forLoop 9
    (fun i st =>
      if (st.ourPropertiesInfo i).length > toUInt32 st.myInfoMenuWidth then
        let st : FrameBuffer :=
          { st with myInfoMenuWidth := toInt32 (st.ourPropertiesInfo i).length }
        if st.myInfoMenuWidth > st.myMaxColumns then
          { st with
            myInfoMenuWidth := st.myMaxColumns
            ourPropertiesInfo := Function.update st.ourPropertiesInfo i
              (substr (st.ourPropertiesInfo i) 0 (toSizeT (toInt32 (st.myMaxColumns - 3)))
                ++ "...") }
        else st
      else st)
    s
  -- Finally, load the remap menu with strings,
  -- clipping any strings which are wider than the display
  loadRemapMenu c s

/-! ## Drawing and the per-frame update -/

/-- A call that `update` makes on the renderer, the media source, or the frame hooks of
the derived class (`preFrameUpdate`, `postFrameUpdate`), in the order made.  The hooks
and the renderer belong to the derived class, which is not among the sources; they are
recorded as calls and do not touch the members modelled in `FrameBuffer`. -/
inductive DrawOp where
  | preFrameUpdate
  | postFrameUpdate
  | mediaSourceUpdate
  | drawMediaSource
  | drawBoundedBox (x y w h : Nat)
  | drawText (x y : Nat) (message : String)
  | drawChar (x y c : Nat)
  deriving DecidableEq

/-- The macro `FONTWIDTH`. -/
def FONTWIDTH : Int := 8

/-- The macro `FONTHEIGHT`. -/
def FONTHEIGHT : Int := 8

/-- The macro `LINEOFFSET`: FONTHEIGHT + 1 pixel on top and bottom. -/
def LINEOFFSET : Int := 10

/-- The macro `XBOXOFFSET`: 4 pixels to the left and right of text. -/
def XBOXOFFSET : Int := 8

/-- The macro `YBOXOFFSET`: 4 pixels to the top and bottom of text. -/
def YBOXOFFSET : Int := 8

/-- The macro `UPARROW`: indicates more lines above. -/
def UPARROW : Nat := 24

/-- The macro `DOWNARROW`: indicates more lines below. -/
def DOWNARROW : Nat := 25

/-- The macro `LEFTARROW`: left arrow for indicating current line. -/
def LEFTARROW : Nat := 26

/-- The macro `RIGHTARROW`: right arrow for indicating current line. -/
def RIGHTARROW : Nat := 27

/-- The macro `LEFTMARKER`: indicates item being remapped. -/
def LEFTMARKER : Nat := 17

/-- The macro `RIGHTMARKER`: indicates item being remapped. -/
def RIGHTMARKER : Nat := 16

/-- The method `FrameBuffer::drawMainMenu()`; the locals are `uInt32`. -/
def drawMainMenu (s : FrameBuffer) : List DrawOp :=
  let width : Nat := toUInt32 (16 * FONTWIDTH + 16)
  let height : Nat := toUInt32 (toInt32 (toInt32 (s.myMainMenuItems * LINEOFFSET) + 16))
  let x : Nat := toUInt32 ((s.myWidth / 2 : Nat) - (width / 2 : Nat))
  let y : Nat := toUInt32 ((s.myHeight / 2 : Nat) - (height / 2 : Nat))
  -- Draw the bounded box and text, leaving a little room for arrows
  let xpos : Nat := toUInt32 (x + XBOXOFFSET)
  let box := [DrawOp.drawBoundedBox (toUInt32 (x - 2)) (toUInt32 (y - 2))
    (toUInt32 (width + 3)) (toUInt32 (height + 3))]
  let texts := (List.range (toUInt32 s.myMainMenuItems)).map (fun (i : Nat) =>
    DrawOp.drawText xpos (toUInt32 (LINEOFFSET * (i : Int) + y + YBOXOFFSET))
      (ourMainMenu.getD i (Widget.W_NONE, "")).2)
  -- Now draw the selection arrow around the currently selected item
  let ypos : Nat := toUInt32 (toInt32 (LINEOFFSET * s.myMainMenuIndex) + y + YBOXOFFSET)
  box ++ texts ++
    [DrawOp.drawChar x ypos LEFTARROW,
     DrawOp.drawChar (toUInt32 (x + width - FONTWIDTH)) ypos RIGHTARROW]

/-- The method `FrameBuffer::drawRemapMenu()`; the locals are `uInt32`, the loop
variable is an `Int32`. -/
def drawRemapMenu (s : FrameBuffer) : List DrawOp :=
  let width : Nat := toUInt32 ((s.myWidth / 8 : Nat) * FONTWIDTH - 16)
  let height : Nat := toUInt32 (toInt32 (toInt32 (s.myMaxRows * LINEOFFSET) + 16))
  let x : Nat := toUInt32 ((s.myWidth / 2 : Nat) - (width / 2 : Nat))
  let y : Nat := toUInt32 ((s.myHeight / 2 : Nat) - (height / 2 : Nat))
  -- Draw the bounded box and text, leaving a little room for arrows
  let box := [DrawOp.drawBoundedBox (toUInt32 (x - 2)) (toUInt32 (y - 2))
    (toUInt32 (width + 3)) (toUInt32 (height + 3))]
  let rows := (List.range (s.myRemapMenuHighIndex - s.myRemapMenuLowIndex).toNat).flatMap
    (fun n =>
      let i : Int := s.myRemapMenuLowIndex + n
      let ypos : Nat :=
        toUInt32 (toInt32 (LINEOFFSET * toInt32 (i - s.myRemapMenuLowIndex)) + y + YBOXOFFSET)
      let xpos : Nat :=
        toUInt32 (width - (s.ourRemapMenuKey i.toNat).length * FONTWIDTH)
      [DrawOp.drawText (toUInt32 (x + XBOXOFFSET)) ypos
         (ourRemapMenu.getD i.toNat ⟨EventType.NoType, "", ""⟩).action,
       DrawOp.drawText xpos ypos (s.ourRemapMenuKey i.toNat)])
  -- Normally draw an arrow indicating the current line,
  -- otherwise highlight the currently selected item for remapping
  let ypos : Nat :=
    toUInt32 (toInt32 (LINEOFFSET * toInt32 (s.myRemapMenuIndex - s.myRemapMenuLowIndex))
      + y + YBOXOFFSET)
  let marks :=
    if ¬ s.myRemapEventSelectedFlag then
      [DrawOp.drawChar x ypos LEFTARROW,
       DrawOp.drawChar (toUInt32 (x + width - FONTWIDTH)) ypos RIGHTARROW]
    else
      -- Left marker is at the beginning of event name text
      let xpos : Nat :=
        toUInt32 (width - (s.ourRemapMenuKey s.myRemapMenuIndex.toNat).length * FONTWIDTH
          - FONTWIDTH)
      [DrawOp.drawChar xpos ypos LEFTMARKER,
       -- Right marker is at the end of the line
       DrawOp.drawChar (toUInt32 (x + width - FONTWIDTH)) ypos RIGHTMARKER]
  -- Finally, indicate that there are more items to the top or bottom
  let xpos : Nat := toUInt32 ((width / 2 : Nat) - 4)
  let up :=
    if toInt32 (s.myRemapMenuHighIndex - s.myMaxRows) > 0 then [DrawOp.drawChar xpos y UPARROW]
    else []
  let down :=
    if toInt32 (s.myRemapMenuLowIndex + s.myMaxRows) < s.myRemapMenuItems then
      [DrawOp.drawChar xpos (toUInt32 (height - 4)) DOWNARROW]
    else []
  box ++ rows ++ marks ++ up ++ down

/-- The method `FrameBuffer::drawInfoMenu()`; the locals are `uInt32`. -/
def drawInfoMenu (s : FrameBuffer) : List DrawOp :=
  let width : Nat := toUInt32 (toInt32 (toInt32 (s.myInfoMenuWidth * FONTWIDTH) + 16))
  let height : Nat := toUInt32 (9 * LINEOFFSET + 16)
  let x : Nat := toUInt32 ((s.myWidth / 2 : Nat) - (width / 2 : Nat))
  let y : Nat := toUInt32 ((s.myHeight / 2 : Nat) - (height / 2 : Nat))
  -- Draw the bounded box and text
  let xpos : Nat := toUInt32 (x + XBOXOFFSET)
  [DrawOp.drawBoundedBox x y width height] ++
    (List.range 9).map (fun (i : Nat) =>
      DrawOp.drawText xpos (toUInt32 (LINEOFFSET * (i : Int) + y + YBOXOFFSET))
        (s.ourPropertiesInfo i))

/-- The `switch(myCurrentWidget)` of `update`: the menu overlaid on the media source. -/
def drawCurrentWidget (s : FrameBuffer) : List DrawOp :=
  match s.myCurrentWidget with
  | Widget.W_NONE => []
  | Widget.MAIN_MENU => drawMainMenu s
  | Widget.REMAP_MENU => drawRemapMenu s
  | Widget.INFO_MENU => drawInfoMenu s
  | _ => []

/-- The method `FrameBuffer::update()`: the state after the call and the calls made. -/
def update (s : FrameBuffer) : FrameBuffer × List DrawOp :=
  -- Do any pre-frame stuff
  let pre := [DrawOp.preFrameUpdate]
  let body : FrameBuffer × List DrawOp :=
    if ¬ s.myMenuMode then
      -- Draw changes to the mediasource
      let media := if ¬ s.myPauseStatus then [DrawOp.mediaSourceUpdate] else []
      -- We always draw the screen, even if the core is paused
      let media := media ++ [DrawOp.drawMediaSource]
      if ¬ s.myPauseStatus ∧ s.myMessageTime > 0 then
        -- Draw any pending messages
        let width : Nat := toUInt32 (s.myMessageText.length * FONTWIDTH + FONTWIDTH)
        let height : Nat := toUInt32 (LINEOFFSET + FONTHEIGHT)
        let x : Nat := toUInt32 ((s.myWidth / 2 : Nat) - (width / 2 : Nat))
        let y : Nat := toUInt32 (s.myHeight - height - LINEOFFSET / 2)
        -- Draw the bounded box and text
        let message :=
          [DrawOp.drawBoundedBox x (toUInt32 (y + 1)) width (toUInt32 (height - 2)),
           DrawOp.drawText (toUInt32 (x + XBOXOFFSET / 2)) (toUInt32 (LINEOFFSET / 2 + y))
             s.myMessageText]
        let s : FrameBuffer := { s with myMessageTime := toInt32 (s.myMessageTime - 1) }
        -- Erase this message on next update
        let s : FrameBuffer :=
          if s.myMessageTime = 0 then { s with theRedrawEntireFrameIndicator := true } else s
        (s, media ++ message)
      else (s, media)
    else
      -- Only update the screen if it's been invalidated
      -- or the menus have changed
      if s.theMenuChangedIndicator ∨ s.theRedrawEntireFrameIndicator then
        -- Then overlay any menu items; now the screen is up to date
        ({ s with theMenuChangedIndicator := false, theRedrawEntireFrameIndicator := false },
          [DrawOp.drawMediaSource] ++ drawCurrentWidget s)
      else (s, [])
  -- Do any post-frame stuff
  (body.1, pre ++ body.2 ++ [DrawOp.postFrameUpdate])

/-- One call on the overlay from the host: `showMenu`, `sendKeyEvent`, `sendJoyEvent`
or `update`. -/
inductive Input where
  | showMenu (showFlag : Bool)
  | key (key : Nat) (state : Int)
  | joy (stick code : Nat) (state : Int)
  | update

/-- The state after one call from the host. -/
def applyInput (c : Consts) (i : Input) (s : FrameBuffer) : FrameBuffer :=
  match i with
  | Input.showMenu b => showMenu b s
  | Input.key k st => sendKeyEvent c k st s
  | Input.joy stick code st => sendJoyEvent c stick code st s
  | Input.update => (update s).1

/-- The states of the overlay that the host can reach: a constructed FrameBuffer after
`initDisplay`, followed by any finite sequence of calls. -/
inductive Reachable (c : Consts) : FrameBuffer → Prop where
  | init (props : String → String) (keyTable : Nat → EventType) (keyTableSize : Nat)
      (joyTable : Nat → EventType) (joyTableSize : Nat) (frameRate : Int)
      (width height : Nat) :
      Reachable c (initDisplay c props keyTable keyTableSize joyTable joyTableSize frameRate
        width height FrameBuffer.new)
  | step (i : Input) (s : FrameBuffer) : Reachable c s → Reachable c (applyInput c i s)

/-! ## The dialog container (DialogContainer.cxx) -/

/-- A `Dialog` as the container uses it: its identity (the pointer), its position `_x`,
`_y`, and `surface().translateCoords`, which rewrites a coordinate pair.  Dialog.hxx is
not among the sources; the handlers of a dialog are recorded as calls (`Call`) and are
taken not to call back into the container. -/
structure Dialog where
  id : Nat
  _x : Int
  _y : Int
  translateCoords : Int → Int → Int × Int

/-- The enumerators of `MouseButton` that `handleMouseButtonEvent` names. -/
inductive MouseButton where
  | EVENT_LBUTTONDOWN | EVENT_LBUTTONUP
  | EVENT_RBUTTONDOWN | EVENT_RBUTTONUP
  | EVENT_WHEELUP | EVENT_WHEELDOWN
  deriving DecidableEq

/-- A call that the container makes on a dialog (named by its `id`) or on the frame
buffer (`refresh`), in the order made. -/
inductive Call where
  | refresh
  | openDialog (d : Nat)
  | center (d : Nat)
  | setDirty (d : Nat)
  | drawDialog (d : Nat)
  | handleKeyDown (d : Nat) (ascii key flags : Int)
  | handleKeyUp (d : Nat) (ascii key flags : Int)
  | handleMouseMoved (d : Nat) (x y button : Int)
  | handleMouseDown (d : Nat) (x y button count : Int)
  | handleMouseUp (d : Nat) (x y button count : Int)
  | handleMouseWheel (d : Nat) (x y direction : Int)
  | handleJoyDown (d : Nat) (stick button : Int)
  | handleJoyUp (d : Nat) (stick button : Int)
  | handleJoyAxis (d : Nat) (stick axis value : Int)
  | handleJoyHat (d : Nat) (stick hat value : Int)
  | handleResizeCmd (d : Nat)
  deriving DecidableEq

/-- The dialog that a call is made on; `none` for a call on the frame buffer. -/
def Call.receiver : Call → Option Nat
  | Call.refresh => none
  | Call.openDialog d => some d
  | Call.center d => some d
  | Call.setDirty d => some d
  | Call.drawDialog d => some d
  | Call.handleKeyDown d _ _ _ => some d
  | Call.handleKeyUp d _ _ _ => some d
  | Call.handleMouseMoved d _ _ _ => some d
  | Call.handleMouseDown d _ _ _ _ => some d
  | Call.handleMouseUp d _ _ _ _ => some d
  | Call.handleMouseWheel d _ _ _ => some d
  | Call.handleJoyDown d _ _ => some d
  | Call.handleJoyUp d _ _ => some d
  | Call.handleJoyAxis d _ _ _ => some d
  | Call.handleJoyHat d _ _ _ => some d
  | Call.handleResizeCmd d => some d

/-- The delays of DialogContainer.hxx, which is not among the sources. -/
structure GuiConsts where
  kDoubleClickDelay : Int
  kRepeatInitialDelay : Int
  kRepeatSustainDelay : Int

/-- The member `myCurrentKeyDown`. -/
structure KeyDown where
  ascii : Int
  flags : Int
  keycode : Int
  deriving DecidableEq

/-- The member `myCurrentMouseDown`. -/
structure MouseDown where
  x : Int
  y : Int
  button : Int
  deriving DecidableEq

/-- The member `myCurrentButtonDown`. -/
structure ButtonDown where
  stick : Int
  button : Int
  deriving DecidableEq

/-- The member `myCurrentAxisDown`. -/
structure AxisDown where
  stick : Int
  axis : Int
  value : Int
  deriving DecidableEq

/-- The member `myCurrentHatDown`. -/
structure HatDown where
  stick : Int
  hat : Int
  deriving DecidableEq

/-- The member `myLastClick`. -/
structure LastClick where
  x : Int
  y : Int
  time : Int
  count : Int
  deriving DecidableEq

/-- The member variables of `DialogContainer`, with the dialog stack as a list (top of
the stack first) and the calls made so far on dialogs and on the frame buffer. -/
structure DialogContainer where
  myBaseDialog : Dialog
  myDialogStack : List Dialog
  myTime : Int
  myRefreshFlag : Bool
  myCurrentKeyDown : KeyDown
  myKeyRepeatTime : Int
  myCurrentMouseDown : MouseDown
  myClickRepeatTime : Int
  myCurrentButtonDown : ButtonDown
  myButtonRepeatTime : Int
  myCurrentAxisDown : AxisDown
  myAxisRepeatTime : Int
  myCurrentHatDown : HatDown
  myLastClick : LastClick
  calls : List Call

/-- The call `myDialogStack.top()`: it has no value on an empty stack. -/
def stackTop (stack : List Dialog) : Option Dialog := stack.head?

/-- The macro `BSPF_abs` on an `int`. -/
def BSPF_abs (v : Int) : Int := if v < 0 then toInt32 (-v) else v

/-- The method `DialogContainer::reset()`. -/
def DialogContainer.reset (s : DialogContainer) : DialogContainer :=
  { s with
    myCurrentKeyDown := { s.myCurrentKeyDown with keycode := 0 }
    myCurrentMouseDown := { s.myCurrentMouseDown with button := -1 }
    myLastClick := { x := 0, y := 0, time := 0, count := 0 }
    myCurrentButtonDown := { stick := -1, button := -1 }
    myCurrentAxisDown := { s.myCurrentAxisDown with stick := -1, axis := -1 }
    myCurrentHatDown := { stick := -1, hat := -1 } }

/-- The constructor `DialogContainer::DialogContainer(osystem)`: `mem` supplies the
members that the constructor leaves uninitialised and the base dialog that the derived
class installs. -/
def DialogContainer.new (mem : DialogContainer) : DialogContainer :=
  DialogContainer.reset
    { mem with myDialogStack := [], myTime := 0, myRefreshFlag := false, calls := [] }

/-- The method `DialogContainer::updateTime(uInt32 time)`. -/
def updateTime (g : GuiConsts) (time : Nat) (s : DialogContainer) : Option DialogContainer :=
  -- We only need millisecond precision
  let s : DialogContainer := { s with myTime := toInt32 ((time / 1000 : Nat) : Int) }
  if s.myDialogStack.isEmpty then some s
  else do
    -- Check for pending continuous events and send them to the active dialog box
    let activeDialog ← stackTop s.myDialogStack
    -- Key still pressed
    let s : DialogContainer :=
      if s.myCurrentKeyDown.keycode ≠ 0 ∧ s.myKeyRepeatTime < s.myTime then
        { s with
          calls := s.calls ++ [Call.handleKeyDown activeDialog.id s.myCurrentKeyDown.ascii
            s.myCurrentKeyDown.keycode s.myCurrentKeyDown.flags]
          myKeyRepeatTime := toInt32 (s.myTime + g.kRepeatSustainDelay) }
      else s
    -- Mouse button still pressed
    let s : DialogContainer :=
      if s.myCurrentMouseDown.button ≠ -1 ∧ s.myClickRepeatTime < s.myTime then
        { s with
          calls := s.calls ++ [Call.handleMouseDown activeDialog.id
            (toInt32 (s.myCurrentMouseDown.x - activeDialog._x))
            (toInt32 (s.myCurrentMouseDown.y - activeDialog._y))
            s.myCurrentMouseDown.button 1]
          myClickRepeatTime := toInt32 (s.myTime + g.kRepeatSustainDelay) }
      else s
    -- Joystick button still pressed
    let s : DialogContainer :=
      if s.myCurrentButtonDown.stick ≠ -1 ∧ s.myButtonRepeatTime < s.myTime then
        { s with
          calls := s.calls ++ [Call.handleJoyDown activeDialog.id s.myCurrentButtonDown.stick
            s.myCurrentButtonDown.button]
          myButtonRepeatTime := toInt32 (s.myTime + g.kRepeatSustainDelay) }
      else s
    -- Joystick axis still pressed
    let s : DialogContainer :=
      if s.myCurrentAxisDown.stick ≠ -1 ∧ s.myAxisRepeatTime < s.myTime then
        { s with
          calls := s.calls ++ [Call.handleJoyAxis activeDialog.id s.myCurrentAxisDown.stick
            s.myCurrentAxisDown.axis s.myCurrentAxisDown.value]
          myAxisRepeatTime := toInt32 (s.myTime + g.kRepeatSustainDelay) }
      else s
    pure s

/-- The block `// Key still pressed` of `updateTime`, on its own, with `activeDialog`
the top of the stack. -/
def repeatKey (g : GuiConsts) (activeDialog : Dialog) (s : DialogContainer) : DialogContainer :=
  if s.myCurrentKeyDown.keycode ≠ 0 ∧ s.myKeyRepeatTime < s.myTime then
    { s with
      calls := s.calls ++ [Call.handleKeyDown activeDialog.id s.myCurrentKeyDown.ascii
        s.myCurrentKeyDown.keycode s.myCurrentKeyDown.flags]
      myKeyRepeatTime := toInt32 (s.myTime + g.kRepeatSustainDelay) }
  else s

/-- The block `// Mouse button still pressed` of `updateTime`, on its own. -/
def repeatMouse (g : GuiConsts) (activeDialog : Dialog) (s : DialogContainer) :
    DialogContainer :=
  if s.myCurrentMouseDown.button ≠ -1 ∧ s.myClickRepeatTime < s.myTime then
    { s with
      calls := s.calls ++ [Call.handleMouseDown activeDialog.id
        (toInt32 (s.myCurrentMouseDown.x - activeDialog._x))
        (toInt32 (s.myCurrentMouseDown.y - activeDialog._y))
        s.myCurrentMouseDown.button 1]
      myClickRepeatTime := toInt32 (s.myTime + g.kRepeatSustainDelay) }
  else s

/-- The block `// Joystick button still pressed` of `updateTime`, on its own. -/
def repeatButton (g : GuiConsts) (activeDialog : Dialog) (s : DialogContainer) :
    DialogContainer :=
  if s.myCurrentButtonDown.stick ≠ -1 ∧ s.myButtonRepeatTime < s.myTime then
    { s with
      calls := s.calls ++ [Call.handleJoyDown activeDialog.id s.myCurrentButtonDown.stick
        s.myCurrentButtonDown.button]
      myButtonRepeatTime := toInt32 (s.myTime + g.kRepeatSustainDelay) }
  else s

/-- The block `// Joystick axis still pressed` of `updateTime`, on its own. -/
def repeatAxis (g : GuiConsts) (activeDialog : Dialog) (s : DialogContainer) : DialogContainer :=
  if s.myCurrentAxisDown.stick ≠ -1 ∧ s.myAxisRepeatTime < s.myTime then
    { s with
      calls := s.calls ++ [Call.handleJoyAxis activeDialog.id s.myCurrentAxisDown.stick
        s.myCurrentAxisDown.axis s.myCurrentAxisDown.value]
      myAxisRepeatTime := toInt32 (s.myTime + g.kRepeatSustainDelay) }
  else s

/-- The method `DialogContainer::draw(bool full)`. -/
def DialogContainer.draw (full : Bool) (s : DialogContainer) : Option DialogContainer :=
  -- Draw all the dialogs on the stack when we want a full refresh
  if full then
    some { s with
      calls := s.calls ++ s.myDialogStack.reverse.flatMap (fun d =>
        [Call.center d.id, Call.setDirty d.id, Call.drawDialog d.id])
      myRefreshFlag := false }
  else if ¬ s.myDialogStack.isEmpty then do
    let top ← stackTop s.myDialogStack
    pure { s with calls := s.calls ++ [Call.drawDialog top.id] }
  else some s

/-- The method `DialogContainer::addDialog(Dialog* d)`; the line it prints on `cerr` is
left out. -/
def addDialog (d : Dialog) (s : DialogContainer) : DialogContainer :=
  { s with
    myDialogStack := d :: s.myDialogStack
    calls := s.calls ++ [Call.openDialog d.id, Call.refresh] }

/-- The method `DialogContainer::removeDialog()`. -/
def removeDialog (s : DialogContainer) : DialogContainer :=
  if ¬ s.myDialogStack.isEmpty then
    -- We need to redraw the entire screen contents, since we don't know
    -- what was obscured
    { s with myDialogStack := s.myDialogStack.tail, calls := s.calls ++ [Call.refresh] }
  else s

/-- The loop `while(!myDialogStack.empty()) myDialogStack.pop();` of `reStack`. -/
def popAll : List Dialog → List Dialog
  | [] => []
  | _ :: rest => popAll rest

/-- The method `DialogContainer::reStack()`. -/
def reStack (s : DialogContainer) : DialogContainer :=
  -- Pop all items from the stack, and then add the base menu
  let s : DialogContainer := { s with myDialogStack := popAll s.myDialogStack }
  let s : DialogContainer := addDialog s.myBaseDialog s
  -- Reset all continuous events
  DialogContainer.reset s

/-- The method `DialogContainer::handleKeyEvent(ascii, key, mod, state)`. -/
def handleKeyEvent (g : GuiConsts) (ascii key mod : Int) (state : Nat) (s : DialogContainer) :
    Option DialogContainer :=
  if s.myDialogStack.isEmpty then some s
  else do
    -- Send the event to the dialog box on the top of the stack
    let activeDialog ← stackTop s.myDialogStack
    if state = 1 then
      pure { s with
        myCurrentKeyDown := { ascii := ascii, keycode := key, flags := mod }
        myKeyRepeatTime := toInt32 (s.myTime + g.kRepeatInitialDelay)
        calls := s.calls ++ [Call.handleKeyDown activeDialog.id ascii key mod] }
    else
      let s : DialogContainer :=
        { s with calls := s.calls ++ [Call.handleKeyUp activeDialog.id ascii key mod] }
      -- Only stop firing events if it's the current key
      if key = s.myCurrentKeyDown.keycode then
        pure { s with myCurrentKeyDown := { s.myCurrentKeyDown with keycode := 0 } }
      else pure s

/-- The method `DialogContainer::handleMouseMotionEvent(x, y, button)`. -/
def handleMouseMotionEvent (x y button : Int) (s : DialogContainer) : Option DialogContainer :=
  if s.myDialogStack.isEmpty then some s
  else do
    -- Send the event to the dialog box on the top of the stack
    let activeDialog ← stackTop s.myDialogStack
    let (x, y) := activeDialog.translateCoords x y
    pure { s with
      calls := s.calls ++ [Call.handleMouseMoved activeDialog.id
        (toInt32 (x - activeDialog._x)) (toInt32 (y - activeDialog._y)) button]
      -- Turn off continuous click events as soon as the mouse moves
      myCurrentMouseDown := { s.myCurrentMouseDown with button := -1 } }

/-- The method `DialogContainer::handleMouseButtonEvent(b, x, y, state)`; the source
does not use `state`. -/
def handleMouseButtonEvent (g : GuiConsts) (b : MouseButton) (x y : Int) (_state : Nat)
    (s : DialogContainer) : Option DialogContainer :=
  if s.myDialogStack.isEmpty then some s
  else do
    -- Send the event to the dialog box on the top of the stack
    let activeDialog ← stackTop s.myDialogStack
    let (x, y) := activeDialog.translateCoords x y
    let button : Int :=
      if b = MouseButton.EVENT_LBUTTONDOWN ∨ b = MouseButton.EVENT_LBUTTONUP then 1 else 2
    if b = MouseButton.EVENT_LBUTTONDOWN ∨ b = MouseButton.EVENT_RBUTTONDOWN then
      -- If more than two clicks have been recorded, we start over
      let s : DialogContainer :=
        if s.myLastClick.count = 2 then
          { s with myLastClick := { x := 0, y := 0, time := 0, count := 0 } }
        else s
      let s : DialogContainer :=
        if s.myLastClick.count ≠ 0
            ∧ s.myTime < toInt32 (s.myLastClick.time + g.kDoubleClickDelay)
            ∧ BSPF_abs (toInt32 (s.myLastClick.x - x)) < 3
            ∧ BSPF_abs (toInt32 (s.myLastClick.y - y)) < 3 then
          { s with myLastClick := { s.myLastClick with count := toInt32 (s.myLastClick.count + 1) } }
        else
          { s with myLastClick := { s.myLastClick with x := x, y := y, count := 1 } }
      let s : DialogContainer := { s with myLastClick := { s.myLastClick with time := s.myTime } }
      -- Now account for repeated mouse events (click and hold)
      pure { s with
        myCurrentMouseDown := { x := x, y := y, button := button }
        myClickRepeatTime := toInt32 (s.myTime + g.kRepeatInitialDelay)
        calls := s.calls ++ [Call.handleMouseDown activeDialog.id
          (toInt32 (x - activeDialog._x)) (toInt32 (y - activeDialog._y)) button
          s.myLastClick.count] }
    else if b = MouseButton.EVENT_LBUTTONUP ∨ b = MouseButton.EVENT_RBUTTONUP then
      let s : DialogContainer :=
        { s with
          calls := s.calls ++ [Call.handleMouseUp activeDialog.id
            (toInt32 (x - activeDialog._x)) (toInt32 (y - activeDialog._y)) button
            s.myLastClick.count] }
      if button = s.myCurrentMouseDown.button then
        pure { s with myCurrentMouseDown := { s.myCurrentMouseDown with button := -1 } }
      else pure s
    else if b = MouseButton.EVENT_WHEELUP then
      pure { s with
        calls := s.calls ++ [Call.handleMouseWheel activeDialog.id
          (toInt32 (x - activeDialog._x)) (toInt32 (y - activeDialog._y)) (-1)] }
    else
      pure { s with
        calls := s.calls ++ [Call.handleMouseWheel activeDialog.id
          (toInt32 (x - activeDialog._x)) (toInt32 (y - activeDialog._y)) 1] }

/-- The click-count block of the button-down case of `handleMouseButtonEvent`, on its
own: from the time `now`, the translated point and the stored `myLastClick`, the new
`myLastClick`. -/
def clickUpdate (g : GuiConsts) (now x y : Int) (c : LastClick) : LastClick :=
  -- If more than two clicks have been recorded, we start over
  let c : LastClick := if c.count = 2 then { x := 0, y := 0, time := 0, count := 0 } else c
  let c : LastClick :=
    if c.count ≠ 0
        ∧ now < toInt32 (c.time + g.kDoubleClickDelay)
        ∧ BSPF_abs (toInt32 (c.x - x)) < 3
        ∧ BSPF_abs (toInt32 (c.y - y)) < 3 then
      { c with count := toInt32 (c.count + 1) }
    else
      { c with x := x, y := y, count := 1 }
  { c with time := now }

/-- The method `DialogContainer::handleJoyEvent(stick, button, state)`. -/
def handleJoyEvent (g : GuiConsts) (stick button : Int) (state : Nat) (s : DialogContainer) :
    Option DialogContainer :=
  if s.myDialogStack.isEmpty then some s
  else do
    -- Send the event to the dialog box on the top of the stack
    let activeDialog ← stackTop s.myDialogStack
    if state = 1 then
      pure { s with
        myCurrentButtonDown := { stick := stick, button := button }
        myButtonRepeatTime := toInt32 (s.myTime + g.kRepeatInitialDelay)
        calls := s.calls ++ [Call.handleJoyDown activeDialog.id stick button] }
    else
      -- Only stop firing events if it's the current button
      let s : DialogContainer :=
        if stick = s.myCurrentButtonDown.stick then
          { s with myCurrentButtonDown := { stick := -1, button := -1 } }
        else s
      pure { s with calls := s.calls ++ [Call.handleJoyUp activeDialog.id stick button] }

/-- The method `DialogContainer::handleJoyAxisEvent(stick, axis, value)`; `deadzone` is
the value of `Joystick::deadzone()` (Joystick.hxx is not among the sources). -/
def handleJoyAxisEvent (g : GuiConsts) (deadzone : Int) (stick axis value : Int)
    (s : DialogContainer) : Option DialogContainer :=
  if s.myDialogStack.isEmpty then some s
  else do
    -- Send the event to the dialog box on the top of the stack
    let activeDialog ← stackTop s.myDialogStack
    let value : Int :=
      if value > deadzone then toInt32 (value - deadzone)
      else if value < toInt32 (-deadzone) then toInt32 (value + deadzone)
      else 0
    -- Only stop firing events if it's the current stick
    let s : DialogContainer :=
      if s.myCurrentAxisDown.stick = stick ∧ value = 0 then
        { s with myCurrentAxisDown := { s.myCurrentAxisDown with stick := -1, axis := -1 } }
      else
        -- Now account for repeated axis events (press and hold)
        { s with
          myCurrentAxisDown := { stick := stick, axis := axis, value := value }
          myAxisRepeatTime := toInt32 (s.myTime + g.kRepeatInitialDelay) }
    pure { s with calls := s.calls ++ [Call.handleJoyAxis activeDialog.id stick axis value] }

/-- The deadzone filter of `handleJoyAxisEvent`, on its own: the value that the `if`
chain on `value` leaves in `value`. -/
def deadzoneFilter (deadzone value : Int) : Int :=
  if value > deadzone then toInt32 (value - deadzone)
  else if value < toInt32 (-deadzone) then toInt32 (value + deadzone)
  else 0

/-- The method `DialogContainer::handleJoyHatEvent(stick, hat, value)`. -/
def handleJoyHatEvent (stick hat value : Int) (s : DialogContainer) : Option DialogContainer :=
  if s.myDialogStack.isEmpty then some s
  else do
    -- Send the event to the dialog box on the top of the stack
    let activeDialog ← stackTop s.myDialogStack
    pure { s with calls := s.calls ++ [Call.handleJoyHat activeDialog.id stick hat value] }

/-- The method `DialogContainer::handleResizeEvent()`. -/
def handleResizeEvent (s : DialogContainer) : DialogContainer :=
  -- Send resize event to base dialog; it's up to the dialog to actually listen
  { s with calls := s.calls ++ [Call.handleResizeCmd s.myBaseDialog.id] }

/-- One call of a method of the container, with its arguments; for `handleJoyAxisEvent`
also the value that `Joystick::deadzone()` returns during the call. -/
inductive Op where
  | updateTime (time : Nat)
  | draw (full : Bool)
  | addDialog (d : Dialog)
  | removeDialog
  | reStack
  | handleKeyEvent (ascii key mod : Int) (state : Nat)
  | handleMouseMotionEvent (x y button : Int)
  | handleMouseButtonEvent (b : MouseButton) (x y : Int) (state : Nat)
  | handleJoyEvent (stick button : Int) (state : Nat)
  | handleJoyAxisEvent (deadzone stick axis value : Int)
  | handleJoyHatEvent (stick hat value : Int)
  | handleResizeEvent

/-- The method call that an `Op` stands for. -/
def applyOp (g : GuiConsts) (op : Op) (s : DialogContainer) : Option DialogContainer :=
  match op with
  | Op.updateTime time => updateTime g time s
  | Op.draw full => DialogContainer.draw full s
  | Op.addDialog d => some (addDialog d s)
  | Op.removeDialog => some (removeDialog s)
  | Op.reStack => some (reStack s)
  | Op.handleKeyEvent ascii key mod state => handleKeyEvent g ascii key mod state s
  | Op.handleMouseMotionEvent x y button => handleMouseMotionEvent x y button s
  | Op.handleMouseButtonEvent b x y state => handleMouseButtonEvent g b x y state s
  | Op.handleJoyEvent stick button state => handleJoyEvent g stick button state s
  | Op.handleJoyAxisEvent deadzone stick axis value =>
    handleJoyAxisEvent g deadzone stick axis value s
  | Op.handleJoyHatEvent stick hat value => handleJoyHatEvent stick hat value s
  | Op.handleResizeEvent => some (handleResizeEvent s)

/-- A finite sequence of method calls, first call first. -/
def runOps (g : GuiConsts) : List Op → DialogContainer → Option DialogContainer
  | [], s => some s
  | op :: rest, s => (applyOp g op s).bind (runOps g rest)

/-- The states of a container that can be reached from a state just after `reset()`,
with the call log started there, through any sequence of method calls. -/
inductive ReachableFromReset (g : GuiConsts) : DialogContainer → Prop where
  | start (s : DialogContainer) (hlog : s.calls = []) :
      ReachableFromReset g (DialogContainer.reset s)
  | step (op : Op) (s r : DialogContainer) (hs : ReachableFromReset g s)
      (hr : applyOp g op s = some r) : ReachableFromReset g r

/-! ## Reference definitions for the statements -/

/-- The names of the physical inputs bound to `event`: the key slots below
`myKeyTableSize` that hold it, in ascending order and named by `ourEventName`, then the
joystick slots below `myJoyTableSize` that hold it, in ascending order. -/
def boundNames (c : Consts) (s : FrameBuffer) (event : EventType) : List String :=
  ((List.range s.myKeyTableSize).filter (fun j => s.myKeyTable j = event)).map
      (fun j => ourEventName.getD j "")
    ++ ((List.range s.myJoyTableSize).filter (fun j => s.myJoyTable j = event)).map
      (fun j => joyEventName c j)

/-- The strings of a list joined by a comma and a blank. -/
def joinComma : List String → String
  | [] => ""
  | [a] => a
  | a :: b :: rest => a ++ ", " ++ joinComma (b :: rest)

/-- The colon-terminated decimal list of the first `n` slots of a table, as the
concatenation of one field per slot. -/
def colonList (c : Consts) (table : Nat → EventType) (n : Nat) : String :=
  String.join ((List.range n).map (fun i => decimal (c.ord (table i)) ++ ":"))

/-- Modelled from the spec: the value of one decimal field of a persisted table.  The
loader of the tables belongs to the event handler, which is not among the sources; the
spec (4.1 and 6) has each field hold an enumerated ordinal value in decimal. -/
def parseDecimal (field : List Char) : Nat :=
  field.foldl (fun acc ch => 10 * acc + (ch.toNat - 48)) 0

/-- Modelled from the spec: the fields of a colon-terminated sequence, in order; `cur`
holds the characters of the field being read, last character first.  The loader is not
among the sources; the spec (6) has the persisted value be a colon-terminated sequence
with one field per physical slot, in fixed slot order. -/
def colonFields : List Char → List Char → List (List Char)
  | _, [] => []
  | cur, ch :: rest =>
    if ch = ':' then cur.reverse :: colonFields [] rest else colonFields (ch :: cur) rest

/-- Modelled from the spec: `load` of `serialize()/load()` (spec 4.1), the loader of a
persisted table, which belongs to the event handler and is not among the sources.  Slot
`i` receives the event whose ordinal is the `i`-th field of the string (`ofOrd` is the
cast of an integer to `Event::Type`); a slot without a field is unbound. -/
def loadTable (ofOrd : Nat → EventType) (str : String) : Nat → EventType := fun i =>
  match (colonFields [] str.data)[i]? with
  | some field => ofOrd (parseDecimal field)
  | none => EventType.NoType

/-- Reloading the two persisted strings of a state gives back its two tables, slot for
slot: the `LastKCODE` key slots and the `LastJSTICK * LastJCODE` joystick slots. -/
def Reloads (c : Consts) (ofOrd : Nat → EventType) (s : FrameBuffer) : Prop :=
  (∀ i, i < LastKCODE → loadTable ofOrd (s.settings "keymap") i = s.myKeyTable i) ∧
  (∀ j, j < c.LastJSTICK * c.LastJCODE →
    loadTable ofOrd (s.settings "joymap") j = s.myJoyTable j)

/-- A concrete numbering of `Event::Type` for evaluating the definitions: the sentinel
is 0, the events of the remap menu follow in menu order, the others come after. -/
def sampleOrd (e : EventType) : Nat := e.ctorIndex

/-- The inverse of `sampleOrd`: the cast of an integer back to `Event::Type`. -/
def sampleOfOrd (n : Nat) : EventType := EventType.ofCtorIndex n

/-- Sample constants for evaluating the definitions: 4 joysticks with 24 codes each. -/
def sampleConsts : Consts where
  LastJSTICK := 4
  LastJCODE := 24
  ord := sampleOrd

/-- A sample key table: key A (slot 0) and the space key (slot 58) fire the left
joystick, the up arrow (slot 86) moves it up, every other slot is unbound. -/
def sampleKeyTable : Nat → EventType := fun j =>
  if j = 0 then EventType.JoystickZeroFire
  else if j = 58 then EventType.JoystickZeroFire
  else if j = 86 then EventType.JoystickZeroUp
  else EventType.NoType

/-- A sample joystick table: button 0 of stick 0 (slot 4) fires the left joystick and
axis up of stick 1 (slot 24) moves the right joystick up. -/
def sampleJoyTable : Nat → EventType := fun j =>
  if j = 4 then EventType.JoystickZeroFire
  else if j = 24 then EventType.JoystickOneUp
  else EventType.NoType

/-- A display of 256 by 120 pixels after `initDisplay` with the sample tables: 29
columns and 10 rows, so the remap menu shows 10 of its 57 rows. -/
def sampleDisplay : FrameBuffer :=
  initDisplay sampleConsts (fun _ => "") sampleKeyTable LastKCODE sampleJoyTable 96 60 256 120
    FrameBuffer.new

/-- The sample display with the remap menu opened: `showMenu(true)`, then Return on the
first entry of the main menu. -/
def sampleRemap : FrameBuffer :=
  sendKeyEvent sampleConsts KCODE_RETURN 1 (showMenu true sampleDisplay)

/-- The sample remap menu in Capture phase on its entry 17 (the left fire button): four
times PageDown, once Down, then Return. -/
def sampleCapture : FrameBuffer :=
  sendKeyEvent sampleConsts KCODE_RETURN 1
    (sendKeyEvent sampleConsts KCODE_DOWN 1
      ((sendKeyEvent sampleConsts KCODE_PAGEDOWN 1)^[4] sampleRemap))

/-- A display of 216 by 120 pixels after `initDisplay` with the sample tables: 24
columns, which leaves a budget of 3 characters for a binding description. -/
def sampleNarrow : FrameBuffer :=
  initDisplay sampleConsts (fun _ => "") sampleKeyTable LastKCODE sampleJoyTable 96 60 216 120
    FrameBuffer.new

/-- The main-menu invariant: two items and the cursor on one of them. -/
def MainInv (s : FrameBuffer) : Prop :=
  s.myMainMenuItems = 2 ∧ 0 ≤ s.myMainMenuIndex ∧ s.myMainMenuIndex < 2

/-- The sample display after the menu was shown, the cursor moved down to the second
entry, and the menu hidden again. -/
def sampleHidden : FrameBuffer :=
  showMenu false (sendKeyEvent sampleConsts KCODE_DOWN 1 (showMenu true sampleDisplay))

/-- The sample display with the info menu opened: `showMenu(true)`, Down, Return. -/
def sampleInfo : FrameBuffer :=
  sendKeyEvent sampleConsts KCODE_RETURN 1
    (sendKeyEvent sampleConsts KCODE_DOWN 1 (showMenu true sampleDisplay))

/-- Sample delays: 500 ms for a double click, 400 ms before the first repeat, 50 ms
between repeats. -/
def sampleGui : GuiConsts where
  kDoubleClickDelay := 500
  kRepeatInitialDelay := 400
  kRepeatSustainDelay := 50

/-- A sample base dialog, at the origin. -/
def sampleBase : Dialog where
  id := 0
  _x := 0
  _y := 0
  translateCoords := fun x y => (x, y)

/-- A sample dialog A, at (10, 20). -/
def sampleA : Dialog where
  id := 1
  _x := 10
  _y := 20
  translateCoords := fun x y => (x, y)

/-- A sample dialog B, at (30, 40), on a surface scaled by two. -/
def sampleB : Dialog where
  id := 2
  _x := 30
  _y := 40
  translateCoords := fun x y => (x / 2, y / 2)

/-- A sample container as constructed: empty stack, nothing held. -/
def sampleContainer : DialogContainer :=
  DialogContainer.new
    { myBaseDialog := sampleBase
      myDialogStack := []
      myTime := 7
      myRefreshFlag := true
      myCurrentKeyDown := { ascii := 97, flags := 0, keycode := 97 }
      myKeyRepeatTime := 3
      myCurrentMouseDown := { x := 1, y := 2, button := 1 }
      myClickRepeatTime := 4
      myCurrentButtonDown := { stick := 0, button := 1 }
      myButtonRepeatTime := 5
      myCurrentAxisDown := { stick := 0, axis := 1, value := 9 }
      myAxisRepeatTime := 6
      myCurrentHatDown := { stick := 0, hat := 0 }
      myLastClick := { x := 5, y := 5, time := 1, count := 1 }
      calls := [] }

/-- The sample container with only its base dialog on the stack, after `reStack`. -/
def sampleBaseOnly : DialogContainer := reStack sampleContainer

/-- The calls made between two states of a container: those of `after` beyond the ones
already made in `before`. -/
def newCalls (before after : DialogContainer) : List Call :=
  after.calls.drop before.calls.length

/-- An event was dispatched to the dialog `top` and to no other: the operation returned
a state, made exactly one call beyond those made before, that call is on `top`, and the
stack is as before. -/
def DeliversOneTo (top : Dialog) (s : DialogContainer) (r : Option DialogContainer) : Prop :=
  ∃ s1 call, r = some s1 ∧ s1.calls = s.calls ++ [call] ∧ call.receiver = some top.id ∧
    s1.myDialogStack = s.myDialogStack

/-- Whether a call is a key-down delivered to a dialog. -/
def Call.isKeyDown : Call → Bool
  | Call.handleKeyDown _ _ _ _ => true
  | _ => false

/-- The key-down calls of a call log, in order. -/
def keyDownCalls (cs : List Call) : List Call := cs.filter Call.isKeyDown

/-- Whether a call is a joystick-button-down delivered to a dialog. -/
def Call.isJoyDown : Call → Bool
  | Call.handleJoyDown _ _ _ => true
  | _ => false

/-- The joystick-button-down calls of a call log, in order. -/
def joyDownCalls (cs : List Call) : List Call := cs.filter Call.isJoyDown

/-- Whether a call is an axis event delivered to a dialog. -/
def Call.isJoyAxis : Call → Bool
  | Call.handleJoyAxis _ _ _ _ => true
  | _ => false

/-- The axis calls of a call log, in order. -/
def joyAxisCalls (cs : List Call) : List Call := cs.filter Call.isJoyAxis

/-- The click count that a call forwards with a button-down, if it is one. -/
def Call.mouseDownCount : Call → Option Int
  | Call.handleMouseDown _ _ _ _ count => some count
  | _ => none

/-- The click counts forwarded with the button-down calls of a call log, in order. -/
def mouseDownCounts (cs : List Call) : List Int := cs.filterMap Call.mouseDownCount

/-- A method call that is neither a key event nor `reStack()`. -/
def Op.leavesKeyHold : Op → Bool
  | Op.handleKeyEvent _ _ _ _ => false
  | Op.reStack => false
  | _ => true

/-- The time that `updateTime(time)` stores for a `time` that fits `uInt32`. -/
def tickTime (time : Nat) : Int := ((time / 1000 : Nat) : Int)

/-- The sample container with its base dialog, 2 seconds after start. -/
def sampleAtTwo : DialogContainer := { sampleBaseOnly with myTime := 2000 }

/-- The sample container at 2 seconds with the key 97 pressed. -/
def sampleKeyHeld : DialogContainer :=
  { sampleAtTwo with
    myCurrentKeyDown := { ascii := 97, keycode := 97, flags := 0 }
    myKeyRepeatTime := 2400
    calls := sampleAtTwo.calls ++ [Call.handleKeyDown 0 97 97 0] }

/-- The sample container at 2 seconds with button 1 of joystick 0 pressed. -/
def sampleButtonHeld : DialogContainer :=
  { sampleAtTwo with
    myCurrentButtonDown := { stick := 0, button := 1 }
    myButtonRepeatTime := 2400
    calls := sampleAtTwo.calls ++ [Call.handleJoyDown 0 0 1] }

/-- The sample container with button 1 of joystick 0 pressed, after the release of
button 2 of the same joystick. -/
def sampleButtonReleased : DialogContainer :=
  { sampleButtonHeld with
    myCurrentButtonDown := { stick := -1, button := -1 }
    calls := sampleButtonHeld.calls ++ [Call.handleJoyUp 0 0 2] }

/-- The sample container at 2 seconds after an axis event of joystick 0, axis 1, with
the raw value 100 inside a deadzone of 3200. -/
def sampleAxisZero : DialogContainer :=
  { sampleAtTwo with
    myCurrentAxisDown := { stick := 0, axis := 1, value := 0 }
    myAxisRepeatTime := 2400
    calls := sampleAtTwo.calls ++ [Call.handleJoyAxis 0 0 1 0] }

/-- The sample container at 2 seconds with axis 1 of joystick 0 held at the filtered
value 4800. -/
def sampleAxisHeld : DialogContainer :=
  { sampleAtTwo with
    myCurrentAxisDown := { stick := 0, axis := 1, value := 4800 }
    myAxisRepeatTime := 2400
    calls := sampleAtTwo.calls ++ [Call.handleJoyAxis 0 0 1 4800] }

/-- The click-count invariant: the stored count is 0, 1 or 2, and every count forwarded
with a button-down so far is 1 or 2. -/
def ClickInv (s : DialogContainer) : Prop :=
  (0 ≤ s.myLastClick.count ∧ s.myLastClick.count ≤ 2) ∧
    ∀ c ∈ mouseDownCounts s.calls, c = 1 ∨ c = 2

/-- The sequence first, 3 - first, first, ... of length `n`: for `first = 1` the counts
1, 2, 1, 2, ... -/
def alternating : Nat → Int → List Int
  | 0, _ => []
  | n + 1, first => first :: alternating n (3 - first)

/-- Whether a button event is a button-down. -/
def MouseButton.isDown : MouseButton → Bool
  | MouseButton.EVENT_LBUTTONDOWN => true
  | MouseButton.EVENT_RBUTTONDOWN => true
  | _ => false

/-- The sample container at 2 seconds after one left click at (5, 5). -/
def sampleClicked : DialogContainer :=
  { sampleAtTwo with
    myLastClick := { x := 5, y := 5, time := 2000, count := 1 }
    myCurrentMouseDown := { x := 5, y := 5, button := 1 }
    myClickRepeatTime := 2400
    calls := sampleAtTwo.calls ++ [Call.handleMouseDown 0 5 5 1 1] }

/-- The sample display in menu mode with a widget id outside the enumeration and both
dirty flags clear. -/
def sampleGarbage : FrameBuffer :=
  { sampleDisplay with
    myCurrentWidget := Widget.invalid 7
    myMenuMode := true
    theMenuChangedIndicator := false
    theRedrawEntireFrameIndicator := false }

/-- The local `width` of `drawRemapMenu`. -/
def remapWidth (s : FrameBuffer) : Nat := toUInt32 ((s.myWidth / 8 : Nat) * FONTWIDTH - 16)

/-- The local `height` of `drawRemapMenu`. -/
def remapHeight (s : FrameBuffer) : Nat :=
  toUInt32 (toInt32 (toInt32 (s.myMaxRows * LINEOFFSET) + 16))

/-- The local `x` of `drawRemapMenu`. -/
def remapX (s : FrameBuffer) : Nat :=
  toUInt32 ((s.myWidth / 2 : Nat) - (remapWidth s / 2 : Nat))

/-- The local `y` of `drawRemapMenu`. -/
def remapY (s : FrameBuffer) : Nat :=
  toUInt32 ((s.myHeight / 2 : Nat) - (remapHeight s / 2 : Nat))

/-- The x coordinate at which `drawRemapMenu` draws the event name of a row. -/
def remapNameX (s : FrameBuffer) : Nat := toUInt32 (remapX s + XBOXOFFSET)

/-- The x coordinate at which `drawRemapMenu` draws the binding description of entry
`i`: the local `xpos` of the loop. -/
def remapKeyX (s : FrameBuffer) (i : Nat) : Nat :=
  toUInt32 (remapWidth s - (s.ourRemapMenuKey i).length * FONTWIDTH)

/-- The local `ypos` of the loop of `drawRemapMenu` for the `n`-th row of the window. -/
def remapRowY (s : FrameBuffer) (n : Nat) : Nat :=
  toUInt32 (toInt32 (LINEOFFSET * toInt32 (s.myRemapMenuLowIndex + n - s.myRemapMenuLowIndex))
    + remapY s + YBOXOFFSET)

/-- The two calls of one pass of the loop of `drawRemapMenu`, for the `n`-th row of the
window. -/
def remapRowOps (s : FrameBuffer) (n : Nat) : List DrawOp :=
  [DrawOp.drawText (remapNameX s) (remapRowY s n)
     (ourRemapMenu.getD (s.myRemapMenuLowIndex + n).toNat ⟨EventType.NoType, "", ""⟩).action,
   DrawOp.drawText (remapKeyX s (s.myRemapMenuLowIndex + n).toNat) (remapRowY s n)
     (s.ourRemapMenuKey (s.myRemapMenuLowIndex + n).toNat)]

/-- The two calls with which `drawRemapMenu` marks the current line: arrows in Browse
phase, markers in Capture phase. -/
def remapMarkOps (s : FrameBuffer) : List DrawOp :=
  let ypos : Nat :=
    toUInt32 (toInt32 (LINEOFFSET * toInt32 (s.myRemapMenuIndex - s.myRemapMenuLowIndex))
      + remapY s + YBOXOFFSET)
  if ¬ s.myRemapEventSelectedFlag then
    [DrawOp.drawChar (remapX s) ypos LEFTARROW,
     DrawOp.drawChar (toUInt32 (remapX s + remapWidth s - FONTWIDTH)) ypos RIGHTARROW]
  else
    [DrawOp.drawChar
       (toUInt32 (remapWidth s
         - (s.ourRemapMenuKey s.myRemapMenuIndex.toNat).length * FONTWIDTH - FONTWIDTH))
       ypos LEFTMARKER,
     DrawOp.drawChar (toUInt32 (remapX s + remapWidth s - FONTWIDTH)) ypos RIGHTMARKER]

/-- Whether the calls of a menu include the up-arrow glyph. -/
def drawsUpArrow (ops : List DrawOp) : Prop := ∃ x y, DrawOp.drawChar x y UPARROW ∈ ops

/-- Whether the calls of a menu include the down-arrow glyph. -/
def drawsDownArrow (ops : List DrawOp) : Prop := ∃ x y, DrawOp.drawChar x y DOWNARROW ∈ ops

/-- A display of 160 by 120 pixels (17 columns, 10 rows) after `initDisplay` with the
sample tables, with the remap menu opened: `showMenu(true)`, then Return. -/
def sampleSmall : FrameBuffer :=
  sendKeyEvent sampleConsts KCODE_RETURN 1
    (showMenu true
      (initDisplay sampleConsts (fun _ => "") sampleKeyTable LastKCODE sampleJoyTable 96 60
        160 120 FrameBuffer.new))

/-- The state after a sequence of calls from the host, made in the order of the list. -/
def runInputs (c : Consts) (inputs : List Input) (s : FrameBuffer) : FrameBuffer :=
  inputs.foldl (fun st i => applyInput c i st) s

/-- The capture invariant of the remap menu: all 57 entries, at least one visible row,
the window invariant, and, when `myRemapEventSelectedFlag` is set, the widget is the
remap menu and `mySelectedEvent` is the event that `currentSelectedEvent` returns, which
is not `NoType`. -/
def CaptureInv (s : FrameBuffer) : Prop :=
  s.myRemapMenuItems = 57 ∧ 1 ≤ s.myMaxRows ∧ WindowInv 57 s.myMaxRows s ∧
    (s.myRemapEventSelectedFlag = true →
      s.myCurrentWidget = Widget.REMAP_MENU ∧
        s.mySelectedEvent = currentSelectedEvent s ∧
        s.mySelectedEvent ≠ EventType.NoType)

/-- The operation returned a state in which exactly the call `call` was made beyond
those made before, and the stack is as before. -/
def DeliversCall (call : Call) (s : DialogContainer) (r : Option DialogContainer) : Prop :=
  ∃ s1, r = some s1 ∧ s1.calls = s.calls ++ [call] ∧ s1.myDialogStack = s.myDialogStack

/-- A name is non-empty and cannot begin the text "None" except as the single letter N:
its first character differs from N, or the name is one character long. -/
def nameHeadOk (n : String) : Bool :=
  match n.data with
  | [] => false
  | ch :: cs => ch != 'N' || cs.isEmpty

/-! ## Machine integers: lemmas -/

theorem toInt32_of_bounds {x : Int} (h1 : -2147483648 ≤ x) (h2 : x < 2147483648) :
    toInt32 x = x := by
  unfold toInt32
  omega

/-! ## The scroll window of the remap menu -/

theorem moveCursorDown_windowInv (N P : Int) (a : Nat) (s : FrameBuffer)
    (hw : s.myCurrentWidget = Widget.REMAP_MENU) (hN : s.myRemapMenuItems = N)
    (h1 : 1 ≤ N) (hP : 1 ≤ P) (ha : (a : Int) + N < 2147483648) (h : WindowInv N P s) :
    WindowInv N P (moveCursorDown a s) ∧
      (moveCursorDown a s).myCurrentWidget = Widget.REMAP_MENU ∧
      (moveCursorDown a s).myRemapMenuItems = N := by
  unfold WindowInv at *
  have hW1 : min N P ≤ N := min_le_left N P
  have hW2 : 1 ≤ min N P := le_min h1 hP
  generalize min N P = W at *
  unfold moveCursorDown
  rw [hw]
  dsimp only
  split_ifs <;> dsimp only at * <;>
    (try simp (disch := omega) only [toInt32_of_bounds] at *) <;>
    refine ⟨?_, ?_, ?_⟩ <;> first | trivial | omega

theorem moveCursorUp_windowInv (N P : Int) (a : Nat) (s : FrameBuffer)
    (hw : s.myCurrentWidget = Widget.REMAP_MENU) (hN : s.myRemapMenuItems = N)
    (h1 : 1 ≤ N) (hP : 1 ≤ P) (ha : (a : Int) + N < 2147483648) (h : WindowInv N P s) :
    WindowInv N P (moveCursorUp a s) ∧
      (moveCursorUp a s).myCurrentWidget = Widget.REMAP_MENU ∧
      (moveCursorUp a s).myRemapMenuItems = N := by
  unfold WindowInv at *
  have hW1 : min N P ≤ N := min_le_left N P
  have hW2 : 1 ≤ min N P := le_min h1 hP
  generalize min N P = W at *
  unfold moveCursorUp
  rw [hw]
  dsimp only
  split_ifs <;> dsimp only at * <;>
    (try simp (disch := omega) only [toInt32_of_bounds] at *) <;>
    (try simp (disch := omega) only [toInt32_of_bounds] at *) <;>
    refine ⟨?_, ?_, ?_⟩ <;> first | trivial | omega

theorem runMoves_windowInv (N P : Int) (h1 : 1 ≤ N) (hP : 1 ≤ P) (ms : List Move)
    (hms : ∀ m ∈ ms, (m.amt : Int) + N < 2147483648) (s : FrameBuffer)
    (hw : s.myCurrentWidget = Widget.REMAP_MENU) (hN : s.myRemapMenuItems = N)
    (h : WindowInv N P s) :
    WindowInv N P (runMoves ms s) ∧
      (runMoves ms s).myCurrentWidget = Widget.REMAP_MENU ∧
      (runMoves ms s).myRemapMenuItems = N := by
  induction ms generalizing s with
  | nil => exact ⟨h, hw, hN⟩
  | cons m rest ih =>
    have hm : (m.amt : Int) + N < 2147483648 := hms m (List.mem_cons_self m rest)
    have hrest : ∀ m1 ∈ rest, (m1.amt : Int) + N < 2147483648 :=
      fun m1 hm1 => hms m1 (List.mem_cons_of_mem m hm1)
    have step : WindowInv N P (applyMove m s) ∧
        (applyMove m s).myCurrentWidget = Widget.REMAP_MENU ∧
        (applyMove m s).myRemapMenuItems = N := by
      cases m with
      | up a => exact moveCursorUp_windowInv N P a s hw hN h1 hP hm h
      | down a => exact moveCursorDown_windowInv N P a s hw hN h1 hP hm h
    exact ih hrest (applyMove m s) step.2.1 step.2.2 step.1

/-- C1 (as amended): for every item count N >= 1 and page size P >= 1, starting from the
initial remap-menu state (index 0, window from 0 to min N P) and after every finite
sequence of moveCursorUp and moveCursorDown calls in REMAP_MENU whose step amounts a
satisfy a + N < 2^31 (the arrow keys use 1, the page keys 4), the window invariant holds:
low <= index < high, high - low = min N P, 0 <= low, high <= N; so the index stays in
the range from 0 to N - 1. -/
theorem window_invariant_bounded_steps (N P : Int) (hN : 1 ≤ N) (hP : 1 ≤ P)
    (s : FrameBuffer) (hw : s.myCurrentWidget = Widget.REMAP_MENU)
    (hitems : s.myRemapMenuItems = N)
    (hidx : s.myRemapMenuIndex = 0) (hlow : s.myRemapMenuLowIndex = 0)
    (hhigh : s.myRemapMenuHighIndex = min N P)
    (ms : List Move) (hms : ∀ m ∈ ms, (m.amt : Int) + N < 2147483648) :
    WindowInv N P (runMoves ms s) ∧
      0 ≤ (runMoves ms s).myRemapMenuIndex ∧ (runMoves ms s).myRemapMenuIndex < N := by
  have h0 : WindowInv N P s := by
    unfold WindowInv
    rw [hidx, hlow, hhigh]
    have hW1 : min N P ≤ N := min_le_left N P
    have hW2 : 1 ≤ min N P := le_min hN hP
    omega
  have h := (runMoves_windowInv N P hN hP ms hms s hw hitems h0).1
  refine ⟨h, ?_, ?_⟩
  · unfold WindowInv at h; omega
  · unfold WindowInv at h; omega

theorem sampleRemap_start :
    sampleRemap.myCurrentWidget = Widget.REMAP_MENU ∧ sampleRemap.myRemapMenuItems = 57 ∧
      sampleRemap.myRemapMenuIndex = 0 ∧ sampleRemap.myRemapMenuLowIndex = 0 ∧
      sampleRemap.myRemapMenuHighIndex = 10 ∧ sampleRemap.myMaxRows = 10 := by
  refine ⟨?_, ?_, ?_, ?_, ?_, ?_⟩ <;> rfl

/-- C1, witness of the amended statement: the sample display with the remap menu open
(57 rows, 10 visible), moved by page down, arrow up, a step of 1000 down and a step of
2000 up. -/
theorem window_invariant_bounded_steps_witness :
    WindowInv 57 10
        (runMoves [Move.down 4, Move.up 1, Move.down 1000, Move.up 2000] sampleRemap) ∧
      0 ≤ (runMoves [Move.down 4, Move.up 1, Move.down 1000, Move.up 2000]
        sampleRemap).myRemapMenuIndex ∧
      (runMoves [Move.down 4, Move.up 1, Move.down 1000, Move.up 2000]
        sampleRemap).myRemapMenuIndex < 57 :=
  window_invariant_bounded_steps 57 10 (by decide) (by decide) sampleRemap
    sampleRemap_start.1 sampleRemap_start.2.1 sampleRemap_start.2.2.1
    sampleRemap_start.2.2.2.1 sampleRemap_start.2.2.2.2.1
    [Move.down 4, Move.up 1, Move.down 1000, Move.up 2000]
    (by simp [Move.amt])

/-- C1, counterexample to the claim as stated (any step amount >= 0): in the sample
display with the remap menu open (N = 57, P = 10, index 0, window from 0 to 10) the single
call moveCursorDown(4294967295) leaves the index at -1, below the window and outside the
item range: the amount is a uInt32 and is added to the Int32 index with wrap-around. -/
theorem window_invariant_fails_on_wrapping_step :
    sampleRemap.myCurrentWidget = Widget.REMAP_MENU ∧
      sampleRemap.myRemapMenuItems = 57 ∧
      sampleRemap.myRemapMenuIndex = 0 ∧
      sampleRemap.myRemapMenuLowIndex = 0 ∧
      sampleRemap.myRemapMenuHighIndex = min 57 10 ∧
      (runMoves [Move.down 4294967295] sampleRemap).myRemapMenuIndex = -1 ∧
      (runMoves [Move.down 4294967295] sampleRemap).myRemapMenuLowIndex = 0 ∧
      ¬ WindowInv 57 10 (runMoves [Move.down 4294967295] sampleRemap) := by
  have hidx : (runMoves [Move.down 4294967295] sampleRemap).myRemapMenuIndex = -1 := by rfl
  have hlow : (runMoves [Move.down 4294967295] sampleRemap).myRemapMenuLowIndex = 0 := by rfl
  refine ⟨by rfl, by rfl, by rfl, by rfl, by rfl, hidx, hlow, ?_⟩
  intro h
  unfold WindowInv at h
  rw [hidx, hlow] at h
  omega

theorem iterate_down_one (s : FrameBuffer) (hw : s.myCurrentWidget = Widget.REMAP_MENU)
    (hitems : s.myRemapMenuItems = 57) (hidx : s.myRemapMenuIndex = 0)
    (hlow : s.myRemapMenuLowIndex = 0) (hhigh : s.myRemapMenuHighIndex = 10) (n : Nat)
    (hn : n ≤ 47) :
    ((moveCursorDown 1)^[n] s).myCurrentWidget = Widget.REMAP_MENU ∧
      ((moveCursorDown 1)^[n] s).myRemapMenuItems = 57 ∧
      ((moveCursorDown 1)^[n] s).myRemapMenuIndex = n ∧
      ((moveCursorDown 1)^[n] s).myRemapMenuLowIndex = max 0 ((n : Int) - 9) ∧
      ((moveCursorDown 1)^[n] s).myRemapMenuHighIndex = max 10 ((n : Int) + 1) := by
  induction n with
  | zero => simp [hw, hitems, hidx, hlow, hhigh]
  | succ k ih =>
    obtain ⟨kw, ki, kx, kl, kh⟩ := ih (by omega)
    rw [Function.iterate_succ_apply']
    generalize (moveCursorDown 1)^[k] s = t at *
    unfold moveCursorDown
    rw [kw]
    dsimp only
    rw [kx, kl, kh, ki]
    push_cast
    split_ifs <;> dsimp only at * <;>
      (try simp (disch := omega) only [toInt32_of_bounds] at *) <;>
      refine ⟨?_, ?_, ?_, ?_, ?_⟩ <;> first | trivial | assumption | omega

/-- C2: with N = 57 remap entries and page size 10, from index 0 and window 0 to 10,
25 successive moveCursorDown(1) calls in REMAP_MENU give index 25 and window 16 to 26,
and a further moveCursorUp(1) gives index 24 with the window still 16 to 26. -/
theorem scroll_scenario (s : FrameBuffer) (hw : s.myCurrentWidget = Widget.REMAP_MENU)
    (hitems : s.myRemapMenuItems = 57) (hidx : s.myRemapMenuIndex = 0)
    (hlow : s.myRemapMenuLowIndex = 0) (hhigh : s.myRemapMenuHighIndex = 10) :
    ((moveCursorDown 1)^[25] s).myRemapMenuIndex = 25 ∧
      ((moveCursorDown 1)^[25] s).myRemapMenuLowIndex = 16 ∧
      ((moveCursorDown 1)^[25] s).myRemapMenuHighIndex = 26 ∧
      (moveCursorUp 1 ((moveCursorDown 1)^[25] s)).myRemapMenuIndex = 24 ∧
      (moveCursorUp 1 ((moveCursorDown 1)^[25] s)).myRemapMenuLowIndex = 16 ∧
      (moveCursorUp 1 ((moveCursorDown 1)^[25] s)).myRemapMenuHighIndex = 26 := by
  obtain ⟨kw, _, kx, kl, kh⟩ := iterate_down_one s hw hitems hidx hlow hhigh 25 (by decide)
  generalize (moveCursorDown 1)^[25] s = t at *
  have kx1 : t.myRemapMenuIndex = 25 := by rw [kx]; rfl
  have kl1 : t.myRemapMenuLowIndex = 16 := by rw [kl]; rfl
  have kh1 : t.myRemapMenuHighIndex = 26 := by rw [kh]; rfl
  refine ⟨kx1, kl1, kh1, ?_, ?_, ?_⟩ <;>
    (unfold moveCursorUp; rw [kw]; dsimp only; rw [kx1, kl1, kh1]; rfl)

/-- C2, witness: the scenario on the sample display with the remap menu open. -/
theorem scroll_scenario_witness :
    ((moveCursorDown 1)^[25] sampleRemap).myRemapMenuIndex = 25 ∧
      ((moveCursorDown 1)^[25] sampleRemap).myRemapMenuLowIndex = 16 ∧
      ((moveCursorDown 1)^[25] sampleRemap).myRemapMenuHighIndex = 26 ∧
      (moveCursorUp 1 ((moveCursorDown 1)^[25] sampleRemap)).myRemapMenuIndex = 24 ∧
      (moveCursorUp 1 ((moveCursorDown 1)^[25] sampleRemap)).myRemapMenuLowIndex = 16 ∧
      (moveCursorUp 1 ((moveCursorDown 1)^[25] sampleRemap)).myRemapMenuHighIndex = 26 :=
  scroll_scenario sampleRemap sampleRemap_start.1 sampleRemap_start.2.1
    sampleRemap_start.2.2.1 sampleRemap_start.2.2.2.1 sampleRemap_start.2.2.2.2.1

/-! ## Loops -/

theorem forLoop_zero {σ : Type} (body : Nat → σ → σ) (init : σ) : forLoop 0 body init = init := by
  simp [forLoop]

theorem forLoop_succ {σ : Type} (n : Nat) (body : Nat → σ → σ) (init : σ) :
    forLoop (n + 1) body init = body n (forLoop n body init) := by
  simp [forLoop, List.range_succ, List.foldl_append]

/-! ## What loadRemapMenu writes -/

theorem remapKeyText_congr (c : Consts) (s : FrameBuffer) (K : Nat → String) (e : EventType) :
    remapKeyText c { s with ourRemapMenuKey := K } e = remapKeyText c s e := rfl

theorem loadLoop_eq (c : Consts) (s : FrameBuffer) (n : Nat) :
    forLoop n
        (fun i st =>
          { st with
            ourRemapMenuKey := Function.update st.ourRemapMenuKey i
              (remapKeyText c st (ourRemapMenu.getD i ⟨EventType.NoType, "", ""⟩).event) })
        s
      = { s with
          ourRemapMenuKey := fun i =>
            if i < n then remapKeyText c s (ourRemapMenu.getD i ⟨EventType.NoType, "", ""⟩).event
            else s.ourRemapMenuKey i } := by
  induction n with
  | zero => rw [forLoop_zero]; cases s; simp
  | succ k ih =>
    rw [forLoop_succ, ih]
    dsimp only
    rw [remapKeyText_congr]
    congr 1
    funext i
    by_cases hik : i = k
    · subst hik; simp
    · rw [Function.update_noteq hik]
      by_cases h1 : i < k
      · have h2 : i < k + 1 := by omega
        simp [h1, h2]
      · have h2 : ¬ i < k + 1 := by omega
        simp [h1, h2]

/-- The state after `loadRemapMenu`, field by field: only the `key` column of the menu
and the two settings change. -/
theorem loadRemapMenu_eq (c : Consts) (s : FrameBuffer) :
    loadRemapMenu c s
      = { s with
          ourRemapMenuKey := fun i =>
            if i < s.myRemapMenuItems.toNat then
              remapKeyText c s (ourRemapMenu.getD i ⟨EventType.NoType, "", ""⟩).event
            else s.ourRemapMenuKey i
          settings := Function.update
            (Function.update s.settings "keymap" (mapBuffer c s.myKeyTable LastKCODE))
            "joymap" (mapBuffer c s.myJoyTable (c.LastJSTICK * c.LastJCODE)) } := by
  unfold loadRemapMenu
  rw [loadLoop_eq]

theorem clearEvent_eq (e : EventType) (n : Nat) (table : Nat → EventType) :
    clearEvent e n table
      = fun i => if i < n ∧ table i = e then EventType.NoType else table i := by
  unfold clearEvent
  induction n with
  | zero => simp [forLoop_zero]
  | succ k ih =>
    rw [forLoop_succ, ih]
    funext i
    by_cases hk : table k = e
    · simp only [lt_self_iff_false, false_and, if_false, hk, if_true]
      by_cases hik : i = k
      · subst hik; simp [hk]
      · rw [Function.update_noteq hik]
        by_cases h1 : i < k
        · have h2 : i < k + 1 := by omega
          simp [h1, h2]
        · have h2 : ¬ i < k + 1 := by omega
          simp [h1, h2]
    · simp only [lt_self_iff_false, false_and, if_false, hk]
      by_cases hik : i = k
      · subst hik; simp [hk]
      · by_cases h1 : i < k
        · have h2 : i < k + 1 := by omega
          simp [h1, h2]
        · have h2 : ¬ i < k + 1 := by omega
          simp [h1, h2]

theorem clearEvent_apply (e : EventType) (n : Nat) (table : Nat → EventType) (i : Nat) :
    clearEvent e n table i = if i < n ∧ table i = e then EventType.NoType else table i := by
  rw [clearEvent_eq]

theorem mapBuffer_eq_colonList (c : Consts) (table : Nat → EventType) (n : Nat) :
    mapBuffer c table n = colonList c table n := by
  unfold mapBuffer colonList forLoop String.join
  rw [List.foldl_map]
  congr 1
  funext st i
  exact String.append_assoc _ _ _

/-! ## The binding tables -/

theorem addKeyBinding_tables (c : Consts) (e : EventType) (k : Nat) (s : FrameBuffer) :
    (addKeyBinding c e k s).myKeyTable = Function.update s.myKeyTable k e ∧
      (addKeyBinding c e k s).myJoyTable = s.myJoyTable := by
  unfold addKeyBinding
  rw [loadRemapMenu_eq]
  exact ⟨rfl, rfl⟩

theorem addJoyBinding_tables (c : Consts) (e : EventType) (stick code : Nat) (s : FrameBuffer) :
    (addJoyBinding c e stick code s).myKeyTable = s.myKeyTable ∧
      (addJoyBinding c e stick code s).myJoyTable
        = Function.update s.myJoyTable (stick * c.LastJCODE + code) e := by
  unfold addJoyBinding
  rw [loadRemapMenu_eq]
  exact ⟨rfl, rfl⟩

theorem deleteBinding_tables (c : Consts) (e : EventType) (s : FrameBuffer) :
    (deleteBinding c e s).myKeyTable = clearEvent e s.myKeyTableSize s.myKeyTable ∧
      (deleteBinding c e s).myJoyTable = clearEvent e s.myJoyTableSize s.myJoyTable := by
  unfold deleteBinding
  rw [loadRemapMenu_eq]
  exact ⟨rfl, rfl⟩

theorem sampleDisplay_tables :
    sampleDisplay.myKeyTable = sampleKeyTable ∧ sampleDisplay.myKeyTableSize = 105 ∧
      sampleDisplay.myJoyTable = sampleJoyTable ∧ sampleDisplay.myJoyTableSize = 96 := by
  refine ⟨?_, ?_, ?_, ?_⟩ <;> rfl

/-- C3: binding a key is last-writer-wins on one slot.  For every event e and in-range
key k, addKeyBinding(e, k) gives the old key table with only slot k replaced by e, and
leaves the joystick table unchanged; every other slot keeps its event.  Binding k to e1
and then to e2 leaves k bound to e2, with the same key table as binding it to e2 alone. -/
theorem addKeyBinding_last_writer_wins (c : Consts) (s : FrameBuffer) (e e1 e2 : EventType)
    (k : Nat) (_hk : k < LastKCODE) :
    (addKeyBinding c e k s).myKeyTable = Function.update s.myKeyTable k e ∧
      (addKeyBinding c e k s).myKeyTable k = e ∧
      (∀ j, j ≠ k → (addKeyBinding c e k s).myKeyTable j = s.myKeyTable j) ∧
      (addKeyBinding c e k s).myJoyTable = s.myJoyTable ∧
      (addKeyBinding c e2 k (addKeyBinding c e1 k s)).myKeyTable k = e2 ∧
      (addKeyBinding c e2 k (addKeyBinding c e1 k s)).myKeyTable
        = (addKeyBinding c e2 k s).myKeyTable := by
  have h := addKeyBinding_tables c e k s
  refine ⟨h.1, ?_, ?_, h.2, ?_, ?_⟩
  · rw [h.1]; simp
  · intro j hj
    rw [h.1, Function.update_noteq hj]
  · rw [(addKeyBinding_tables c e2 k _).1]; simp
  · rw [(addKeyBinding_tables c e2 k _).1, (addKeyBinding_tables c e1 k s).1,
      (addKeyBinding_tables c e2 k s).1]
    simp

/-- C3, witness: on the sample display the space key (slot 58), bound to the left fire
button, is bound to Pause and then to Reset. -/
theorem addKeyBinding_last_writer_wins_witness :
    58 < LastKCODE ∧
      (addKeyBinding sampleConsts EventType.Pause 58 sampleDisplay).myKeyTable 58
        = EventType.Pause ∧
      (addKeyBinding sampleConsts EventType.Pause 58 sampleDisplay).myKeyTable 0
        = sampleDisplay.myKeyTable 0 ∧
      (addKeyBinding sampleConsts EventType.ConsoleReset 58
        (addKeyBinding sampleConsts EventType.Pause 58 sampleDisplay)).myKeyTable 58
        = EventType.ConsoleReset :=
  ⟨by decide,
   (addKeyBinding_last_writer_wins sampleConsts sampleDisplay EventType.Pause EventType.Pause
      EventType.ConsoleReset 58 (by decide)).2.1,
   (addKeyBinding_last_writer_wins sampleConsts sampleDisplay EventType.Pause EventType.Pause
      EventType.ConsoleReset 58 (by decide)).2.2.1 0 (by decide),
   (addKeyBinding_last_writer_wins sampleConsts sampleDisplay EventType.Pause EventType.Pause
      EventType.ConsoleReset 58 (by decide)).2.2.2.2.1⟩

/-- C4: unbinding clears all and only the slots of the event.  For every event e, after
deleteBinding(e) every key slot and every joystick slot of the tables that held e holds
Event::NoType, and every slot that held a different event is unchanged; so no slot of
either table is bound to e afterwards: no slot that is bound at all (holds something
other than the unbound marker NoType) holds e, and for e other than NoType no slot
holds e. -/
theorem deleteBinding_clears_event (c : Consts) (s : FrameBuffer) (e : EventType) :
    (∀ i, i < s.myKeyTableSize → s.myKeyTable i = e →
        (deleteBinding c e s).myKeyTable i = EventType.NoType) ∧
      (∀ i, s.myKeyTable i ≠ e → (deleteBinding c e s).myKeyTable i = s.myKeyTable i) ∧
      (∀ j, j < s.myJoyTableSize → s.myJoyTable j = e →
        (deleteBinding c e s).myJoyTable j = EventType.NoType) ∧
      (∀ j, s.myJoyTable j ≠ e → (deleteBinding c e s).myJoyTable j = s.myJoyTable j) ∧
      (∀ i, i < s.myKeyTableSize → (deleteBinding c e s).myKeyTable i ≠ EventType.NoType →
        (deleteBinding c e s).myKeyTable i ≠ e) ∧
      (∀ j, j < s.myJoyTableSize → (deleteBinding c e s).myJoyTable j ≠ EventType.NoType →
        (deleteBinding c e s).myJoyTable j ≠ e) ∧
      (e ≠ EventType.NoType →
        (∀ i, i < s.myKeyTableSize → (deleteBinding c e s).myKeyTable i ≠ e) ∧
        (∀ j, j < s.myJoyTableSize → (deleteBinding c e s).myJoyTable j ≠ e)) := by
  have h := deleteBinding_tables c e s
  rw [h.1, h.2]
  refine ⟨?_, ?_, ?_, ?_, ?_, ?_, ?_⟩
  · intro i hi hie
    rw [clearEvent_apply]; simp [hi, hie]
  · intro i hie
    rw [clearEvent_apply]; simp [hie]
  · intro j hj hje
    rw [clearEvent_apply]; simp [hj, hje]
  · intro j hje
    rw [clearEvent_apply]; simp [hje]
  · intro i hi
    rw [clearEvent_apply]
    by_cases hie : s.myKeyTable i = e
    · simp [hi, hie]
    · simp [hie]
  · intro j hj
    rw [clearEvent_apply]
    by_cases hje : s.myJoyTable j = e
    · simp [hj, hje]
    · simp [hje]
  · intro hne
    constructor
    · intro i hi
      rw [clearEvent_apply]
      by_cases hie : s.myKeyTable i = e
      · simp only [hi, hie, and_self, if_true]
        exact fun h0 => hne h0.symm
      · simp [hie]
    · intro j hj
      rw [clearEvent_apply]
      by_cases hje : s.myJoyTable j = e
      · simp only [hj, hje, and_self, if_true]
        exact fun h0 => hne h0.symm
      · simp [hje]

/-- C4, witness: on the sample display the left fire button is bound to key A (slot 0),
to the space key (slot 58) and to joystick slot 4; after deleteBinding all three are
unbound, the up arrow (slot 86) keeps its event, and slot 58 no longer holds the event. -/
theorem deleteBinding_clears_event_witness :
    (deleteBinding sampleConsts EventType.JoystickZeroFire sampleDisplay).myKeyTable 0
        = EventType.NoType ∧
      (deleteBinding sampleConsts EventType.JoystickZeroFire sampleDisplay).myKeyTable 86
        = sampleDisplay.myKeyTable 86 ∧
      (deleteBinding sampleConsts EventType.JoystickZeroFire sampleDisplay).myJoyTable 4
        = EventType.NoType ∧
      (deleteBinding sampleConsts EventType.JoystickZeroFire sampleDisplay).myKeyTable 58
        ≠ EventType.JoystickZeroFire :=
  ⟨(deleteBinding_clears_event sampleConsts sampleDisplay EventType.JoystickZeroFire).1 0
      (by rw [sampleDisplay_tables.2.1]; decide) (by rw [sampleDisplay_tables.1]; rfl),
   (deleteBinding_clears_event sampleConsts sampleDisplay EventType.JoystickZeroFire).2.1 86
      (by rw [sampleDisplay_tables.1]; decide),
   (deleteBinding_clears_event sampleConsts sampleDisplay EventType.JoystickZeroFire).2.2.1 4
      (by rw [sampleDisplay_tables.2.2.2]; decide) (by rw [sampleDisplay_tables.2.2.1]; rfl),
   ((deleteBinding_clears_event sampleConsts sampleDisplay
      EventType.JoystickZeroFire).2.2.2.2.2.2 (by decide)).1 58
      (by rw [sampleDisplay_tables.2.1]; decide)⟩

/-! ## Persistence -/

theorem loadRemapMenu_settings (c : Consts) (s : FrameBuffer) :
    (loadRemapMenu c s).settings "keymap" = colonList c s.myKeyTable LastKCODE ∧
      (loadRemapMenu c s).settings "joymap"
        = colonList c s.myJoyTable (c.LastJSTICK * c.LastJCODE) := by
  rw [loadRemapMenu_eq]
  dsimp only
  have hne : ("keymap" : String) ≠ "joymap" := by decide
  constructor
  · rw [Function.update_noteq hne, Function.update_same, mapBuffer_eq_colonList]
  · rw [Function.update_same, mapBuffer_eq_colonList]

/-- C7: persistence on every mutation.  After addKeyBinding, addJoyBinding and
deleteBinding the settings value under "keymap" is the concatenation, for the key slots
0 to LastKCODE - 1 in that order, of the decimal ordinal of the slot's event followed by
a colon, and the value under "joymap" is the same over the LastJSTICK * LastJCODE
joystick slots; both are computed from the tables as they stand after the mutation. -/
theorem bindings_persisted_after_mutation (c : Consts) (s : FrameBuffer) (e : EventType)
    (k stick code : Nat) :
    ((addKeyBinding c e k s).settings "keymap"
          = colonList c (Function.update s.myKeyTable k e) LastKCODE ∧
        (addKeyBinding c e k s).settings "keymap"
          = colonList c (addKeyBinding c e k s).myKeyTable LastKCODE ∧
        (addKeyBinding c e k s).settings "joymap"
          = colonList c (addKeyBinding c e k s).myJoyTable (c.LastJSTICK * c.LastJCODE)) ∧
      ((addJoyBinding c e stick code s).settings "joymap"
          = colonList c (Function.update s.myJoyTable (stick * c.LastJCODE + code) e)
              (c.LastJSTICK * c.LastJCODE) ∧
        (addJoyBinding c e stick code s).settings "keymap"
          = colonList c (addJoyBinding c e stick code s).myKeyTable LastKCODE ∧
        (addJoyBinding c e stick code s).settings "joymap"
          = colonList c (addJoyBinding c e stick code s).myJoyTable
              (c.LastJSTICK * c.LastJCODE)) ∧
      ((deleteBinding c e s).settings "keymap"
          = colonList c (clearEvent e s.myKeyTableSize s.myKeyTable) LastKCODE ∧
        (deleteBinding c e s).settings "keymap"
          = colonList c (deleteBinding c e s).myKeyTable LastKCODE ∧
        (deleteBinding c e s).settings "joymap"
          = colonList c (deleteBinding c e s).myJoyTable (c.LastJSTICK * c.LastJCODE)) := by
  refine ⟨⟨?_, ?_, ?_⟩, ⟨?_, ?_, ?_⟩, ⟨?_, ?_, ?_⟩⟩
  · exact (loadRemapMenu_settings c _).1
  · rw [(addKeyBinding_tables c e k s).1]; exact (loadRemapMenu_settings c _).1
  · rw [(addKeyBinding_tables c e k s).2]; exact (loadRemapMenu_settings c _).2
  · exact (loadRemapMenu_settings c _).2
  · rw [(addJoyBinding_tables c e stick code s).1]; exact (loadRemapMenu_settings c _).1
  · rw [(addJoyBinding_tables c e stick code s).2]; exact (loadRemapMenu_settings c _).2
  · exact (loadRemapMenu_settings c _).1
  · rw [(deleteBinding_tables c e s).1]; exact (loadRemapMenu_settings c _).1
  · rw [(deleteBinding_tables c e s).2]; exact (loadRemapMenu_settings c _).2

/-! ## Capture of a new binding -/

theorem moveCursorUp_tables (a : Nat) (s : FrameBuffer) :
    (moveCursorUp a s).myKeyTable = s.myKeyTable ∧
      (moveCursorUp a s).myJoyTable = s.myJoyTable := by
  unfold moveCursorUp
  split
  · split_ifs <;> exact ⟨rfl, rfl⟩
  · dsimp only; split_ifs <;> exact ⟨rfl, rfl⟩
  · exact ⟨rfl, rfl⟩

theorem moveCursorDown_tables (a : Nat) (s : FrameBuffer) :
    (moveCursorDown a s).myKeyTable = s.myKeyTable ∧
      (moveCursorDown a s).myJoyTable = s.myJoyTable := by
  unfold moveCursorDown
  split
  · split_ifs <;> exact ⟨rfl, rfl⟩
  · dsimp only; split_ifs <;> exact ⟨rfl, rfl⟩
  · exact ⟨rfl, rfl⟩

theorem sendKeyEvent_remap_capture (c : Consts) (key : Nat) (s : FrameBuffer)
    (hw : s.myCurrentWidget = Widget.REMAP_MENU) (hf : s.myRemapEventSelectedFlag = true) :
    sendKeyEvent c key 1 s
      = { (if key = KCODE_ESCAPE then
              deleteBinding c s.mySelectedEvent { s with theMenuChangedIndicator := true }
            else
              addKeyBinding c s.mySelectedEvent key { s with theMenuChangedIndicator := true })
          with myRemapEventSelectedFlag := false } := by
  unfold sendKeyEvent
  rw [if_neg (by rw [hw]; simp)]
  simp only [hw, hf, if_true]

theorem sendKeyEvent_remap_browse (c : Consts) (key : Nat) (s : FrameBuffer)
    (hw : s.myCurrentWidget = Widget.REMAP_MENU) (hf : s.myRemapEventSelectedFlag = false) :
    sendKeyEvent c key 1 s
      = if key = KCODE_RETURN then
          { s with
            theMenuChangedIndicator := true
            mySelectedEvent := currentSelectedEvent { s with theMenuChangedIndicator := true }
            myRemapEventSelectedFlag := true }
        else if key = KCODE_UP then moveCursorUp 1 { s with theMenuChangedIndicator := true }
        else if key = KCODE_DOWN then moveCursorDown 1 { s with theMenuChangedIndicator := true }
        else if key = KCODE_PAGEUP then moveCursorUp 4 { s with theMenuChangedIndicator := true }
        else if key = KCODE_PAGEDOWN then
          moveCursorDown 4 { s with theMenuChangedIndicator := true }
        else if key = KCODE_ESCAPE then
          { s with
            theMenuChangedIndicator := true
            myCurrentWidget := Widget.MAIN_MENU
            theRedrawEntireFrameIndicator := true }
        else { s with theMenuChangedIndicator := true } := by
  unfold sendKeyEvent
  rw [if_neg (by rw [hw]; simp)]
  simp only [hw, hf, Bool.false_eq_true, if_false]

/-- In Browse phase of the remap menu no key-down changes a binding table. -/
theorem sendKeyEvent_browse_tables (c : Consts) (key : Nat) (s : FrameBuffer)
    (hw : s.myCurrentWidget = Widget.REMAP_MENU) (hf : s.myRemapEventSelectedFlag = false) :
    (sendKeyEvent c key 1 s).myKeyTable = s.myKeyTable ∧
      (sendKeyEvent c key 1 s).myJoyTable = s.myJoyTable := by
  rw [sendKeyEvent_remap_browse c key s hw hf]
  split_ifs
  · exact ⟨rfl, rfl⟩
  · exact moveCursorUp_tables 1 _
  · exact moveCursorDown_tables 1 _
  · exact moveCursorUp_tables 4 _
  · exact moveCursorDown_tables 4 _
  · exact ⟨rfl, rfl⟩
  · exact ⟨rfl, rfl⟩

theorem addKeyBinding_widget (c : Consts) (e : EventType) (k : Nat) (s : FrameBuffer) :
    (addKeyBinding c e k s).myCurrentWidget = s.myCurrentWidget := by
  unfold addKeyBinding
  rw [loadRemapMenu_eq]

theorem deleteBinding_widget (c : Consts) (e : EventType) (s : FrameBuffer) :
    (deleteBinding c e s).myCurrentWidget = s.myCurrentWidget := by
  unfold deleteBinding
  rw [loadRemapMenu_eq]

theorem ourRemapMenu_event_ne_NoType (i : Nat) (hi : i < 57) :
    (ourRemapMenu.getD i ⟨EventType.NoType, "", ""⟩).event ≠ EventType.NoType := by
  have h : ∀ j, j < 57 →
      (ourRemapMenu.getD j ⟨EventType.NoType, "", ""⟩).event ≠ EventType.NoType := by
    decide
  exact h i hi

theorem sampleRemap_browse :
    sampleRemap.myRemapEventSelectedFlag = false ∧ sampleRemap.mySelectedEvent = EventType.NoType ∧
      sampleRemap.myKeyTable = sampleKeyTable ∧ sampleRemap.myKeyTableSize = 105 ∧
      sampleRemap.myJoyTable = sampleJoyTable ∧ sampleRemap.myJoyTableSize = 96 := by
  refine ⟨?_, ?_, ?_, ?_, ?_, ?_⟩ <;> rfl

/-- C9: capture binds the next key.  In the remap menu in Browse phase a Return key-down
enters Capture for the event of the entry under the cursor; the next key-down with any
in-range key k other than Escape binds key slot k to exactly that event, changes no other
slot of either table, and leaves the controller in the remap menu in Browse phase, so
the key-down after it (k2) is handled as a Browse input and binds nothing. -/
theorem capture_binds_next_key (c : Consts) (s : FrameBuffer)
    (hw : s.myCurrentWidget = Widget.REMAP_MENU) (hf : s.myRemapEventSelectedFlag = false)
    (h0 : 0 ≤ s.myRemapMenuIndex) (h1 : s.myRemapMenuIndex < s.myRemapMenuItems)
    (k : Nat) (_hk : k < LastKCODE) (hesc : k ≠ KCODE_ESCAPE) (k2 : Nat) :
    (sendKeyEvent c KCODE_RETURN 1 s).myRemapEventSelectedFlag = true ∧
      (sendKeyEvent c KCODE_RETURN 1 s).myCurrentWidget = Widget.REMAP_MENU ∧
      (sendKeyEvent c KCODE_RETURN 1 s).mySelectedEvent
        = (ourRemapMenu.getD s.myRemapMenuIndex.toNat ⟨EventType.NoType, "", ""⟩).event ∧
      (sendKeyEvent c KCODE_RETURN 1 s).myKeyTable = s.myKeyTable ∧
      (sendKeyEvent c KCODE_RETURN 1 s).myJoyTable = s.myJoyTable ∧
      (sendKeyEvent c k 1 (sendKeyEvent c KCODE_RETURN 1 s)).myKeyTable
        = Function.update s.myKeyTable k
            (ourRemapMenu.getD s.myRemapMenuIndex.toNat ⟨EventType.NoType, "", ""⟩).event ∧
      (sendKeyEvent c k 1 (sendKeyEvent c KCODE_RETURN 1 s)).myJoyTable = s.myJoyTable ∧
      (sendKeyEvent c k 1 (sendKeyEvent c KCODE_RETURN 1 s)).myCurrentWidget
        = Widget.REMAP_MENU ∧
      (sendKeyEvent c k 1 (sendKeyEvent c KCODE_RETURN 1 s)).myRemapEventSelectedFlag
        = false ∧
      (sendKeyEvent c k2 1 (sendKeyEvent c k 1 (sendKeyEvent c KCODE_RETURN 1 s))).myKeyTable
        = (sendKeyEvent c k 1 (sendKeyEvent c KCODE_RETURN 1 s)).myKeyTable ∧
      (sendKeyEvent c k2 1 (sendKeyEvent c k 1 (sendKeyEvent c KCODE_RETURN 1 s))).myJoyTable
        = (sendKeyEvent c k 1 (sendKeyEvent c KCODE_RETURN 1 s)).myJoyTable := by
  have hsel : currentSelectedEvent { s with theMenuChangedIndicator := true }
      = (ourRemapMenu.getD s.myRemapMenuIndex.toNat ⟨EventType.NoType, "", ""⟩).event := by
    unfold currentSelectedEvent
    dsimp only
    rw [if_pos ⟨h0, h1⟩]
  have e1 : sendKeyEvent c KCODE_RETURN 1 s
      = { s with
          theMenuChangedIndicator := true
          mySelectedEvent :=
            (ourRemapMenu.getD s.myRemapMenuIndex.toNat ⟨EventType.NoType, "", ""⟩).event
          myRemapEventSelectedFlag := true } := by
    rw [sendKeyEvent_remap_browse c KCODE_RETURN s hw hf, if_pos rfl, hsel]
  rw [e1]
  have e2 := sendKeyEvent_remap_capture c k
    { s with
      theMenuChangedIndicator := true
      mySelectedEvent :=
        (ourRemapMenu.getD s.myRemapMenuIndex.toNat ⟨EventType.NoType, "", ""⟩).event
      myRemapEventSelectedFlag := true } hw rfl
  rw [if_neg hesc] at e2
  have hw2 : (sendKeyEvent c k 1
      { s with
        theMenuChangedIndicator := true
        mySelectedEvent :=
          (ourRemapMenu.getD s.myRemapMenuIndex.toNat ⟨EventType.NoType, "", ""⟩).event
        myRemapEventSelectedFlag := true }).myCurrentWidget = Widget.REMAP_MENU := by
    rw [e2]
    dsimp only
    rw [addKeyBinding_widget]
    exact hw
  have hf2 : (sendKeyEvent c k 1
      { s with
        theMenuChangedIndicator := true
        mySelectedEvent :=
          (ourRemapMenu.getD s.myRemapMenuIndex.toNat ⟨EventType.NoType, "", ""⟩).event
        myRemapEventSelectedFlag := true }).myRemapEventSelectedFlag = false := by
    rw [e2]
  have h3 := sendKeyEvent_browse_tables c k2 _ hw2 hf2
  refine ⟨rfl, hw, rfl, rfl, rfl, ?_, ?_, hw2, hf2, h3.1, h3.2⟩
  · rw [e2]
    exact (addKeyBinding_tables c _ k _).1
  · rw [e2]
    exact (addKeyBinding_tables c _ k _).2

/-- C9, witness: on the sample display with the remap menu open and the cursor on its
first entry (Select), Return and then the key F1 (slot 90) bind F1 to Select; a further
Return binds nothing. -/
theorem capture_binds_next_key_witness :
    (sendKeyEvent sampleConsts 90 1
        (sendKeyEvent sampleConsts KCODE_RETURN 1 sampleRemap)).myKeyTable
        = Function.update sampleRemap.myKeyTable 90
            (ourRemapMenu.getD sampleRemap.myRemapMenuIndex.toNat
              ⟨EventType.NoType, "", ""⟩).event ∧
      (sendKeyEvent sampleConsts 90 1
        (sendKeyEvent sampleConsts KCODE_RETURN 1 sampleRemap)).myRemapEventSelectedFlag
        = false ∧
      (sendKeyEvent sampleConsts KCODE_RETURN 1 (sendKeyEvent sampleConsts 90 1
        (sendKeyEvent sampleConsts KCODE_RETURN 1 sampleRemap))).myKeyTable
        = (sendKeyEvent sampleConsts 90 1
            (sendKeyEvent sampleConsts KCODE_RETURN 1 sampleRemap)).myKeyTable :=
  ⟨(capture_binds_next_key sampleConsts sampleRemap sampleRemap_start.1 sampleRemap_browse.1
      (by rw [sampleRemap_start.2.2.1])
      (by rw [sampleRemap_start.2.2.1, sampleRemap_start.2.1]; decide)
      90 (by decide) (by decide) KCODE_RETURN).2.2.2.2.2.1,
   (capture_binds_next_key sampleConsts sampleRemap sampleRemap_start.1 sampleRemap_browse.1
      (by rw [sampleRemap_start.2.2.1])
      (by rw [sampleRemap_start.2.2.1, sampleRemap_start.2.1]; decide)
      90 (by decide) (by decide) KCODE_RETURN).2.2.2.2.2.2.2.2.1,
   (capture_binds_next_key sampleConsts sampleRemap sampleRemap_start.1 sampleRemap_browse.1
      (by rw [sampleRemap_start.2.2.1])
      (by rw [sampleRemap_start.2.2.1, sampleRemap_start.2.1]; decide)
      90 (by decide) (by decide) KCODE_RETURN).2.2.2.2.2.2.2.2.2.1⟩

theorem clearEvent_ne (e : EventType) (hne : e ≠ EventType.NoType) (n : Nat)
    (table : Nat → EventType) (i : Nat) (hi : i < n) : clearEvent e n table i ≠ e := by
  rw [clearEvent_apply]
  by_cases hie : table i = e
  · simp only [hi, hie, and_self, if_true]
    exact fun h0 => hne h0.symm
  · simp [hie]

theorem clearEvent_other (e : EventType) (n : Nat) (table : Nat → EventType) (i : Nat)
    (hie : table i ≠ e) : clearEvent e n table i = table i := by
  rw [clearEvent_apply]
  simp [hie]

theorem sampleCapture_state :
    sampleCapture.myCurrentWidget = Widget.REMAP_MENU ∧
      sampleCapture.myRemapEventSelectedFlag = true ∧
      sampleCapture.mySelectedEvent = currentSelectedEvent sampleCapture ∧
      sampleCapture.mySelectedEvent = EventType.JoystickZeroFire ∧
      sampleCapture.myRemapMenuIndex = 17 ∧ sampleCapture.myRemapMenuItems = 57 ∧
      sampleCapture.myKeyTable = sampleKeyTable ∧ sampleCapture.myKeyTableSize = 105 ∧
      sampleCapture.myJoyTable = sampleJoyTable ∧ sampleCapture.myJoyTableSize = 96 := by
  refine ⟨?_, ?_, ?_, ?_, ?_, ?_, ?_, ?_, ?_, ?_⟩ <;> rfl

/-- C10: capture cancel unbinds.  In Capture phase of the remap menu (the capture flag
is set and the selected event is the event of the entry under the cursor) an Escape
key-down unbinds the selected entry instead of capturing it: afterwards no key slot and
no joystick slot of the tables holds the selected event, in particular not the slot of
the Escape key; slots holding other events are unchanged; and the controller is in
Browse phase and still in the remap menu. -/
theorem capture_cancel_unbinds (c : Consts) (s : FrameBuffer)
    (hw : s.myCurrentWidget = Widget.REMAP_MENU) (hf : s.myRemapEventSelectedFlag = true)
    (hsel : s.mySelectedEvent = currentSelectedEvent s)
    (h0 : 0 ≤ s.myRemapMenuIndex) (h1 : s.myRemapMenuIndex < s.myRemapMenuItems)
    (hN : s.myRemapMenuItems ≤ 57) :
    (∀ i, i < s.myKeyTableSize →
        (sendKeyEvent c KCODE_ESCAPE 1 s).myKeyTable i ≠ s.mySelectedEvent) ∧
      (∀ j, j < s.myJoyTableSize →
        (sendKeyEvent c KCODE_ESCAPE 1 s).myJoyTable j ≠ s.mySelectedEvent) ∧
      (KCODE_ESCAPE < s.myKeyTableSize →
        (sendKeyEvent c KCODE_ESCAPE 1 s).myKeyTable KCODE_ESCAPE ≠ s.mySelectedEvent) ∧
      (∀ i, s.myKeyTable i ≠ s.mySelectedEvent →
        (sendKeyEvent c KCODE_ESCAPE 1 s).myKeyTable i = s.myKeyTable i) ∧
      (∀ j, s.myJoyTable j ≠ s.mySelectedEvent →
        (sendKeyEvent c KCODE_ESCAPE 1 s).myJoyTable j = s.myJoyTable j) ∧
      (sendKeyEvent c KCODE_ESCAPE 1 s).myRemapEventSelectedFlag = false ∧
      (sendKeyEvent c KCODE_ESCAPE 1 s).myCurrentWidget = Widget.REMAP_MENU := by
  have hne : s.mySelectedEvent ≠ EventType.NoType := by
    rw [hsel]
    unfold currentSelectedEvent
    rw [if_pos ⟨h0, h1⟩]
    exact ourRemapMenu_event_ne_NoType _ (by omega)
  have e := sendKeyEvent_remap_capture c KCODE_ESCAPE s hw hf
  rw [if_pos rfl] at e
  have ht := deleteBinding_tables c s.mySelectedEvent { s with theMenuChangedIndicator := true }
  rw [e]
  dsimp only at ht ⊢
  rw [ht.1, ht.2]
  refine ⟨?_, ?_, ?_, ?_, ?_, rfl, ?_⟩
  · exact fun i hi => clearEvent_ne _ hne _ _ i hi
  · exact fun j hj => clearEvent_ne _ hne _ _ j hj
  · exact fun hi => clearEvent_ne _ hne _ _ KCODE_ESCAPE hi
  · exact fun i hi => clearEvent_other _ _ _ i hi
  · exact fun j hj => clearEvent_other _ _ _ j hj
  · rw [deleteBinding_widget]
    exact hw

/-- C10, witness: the sample remap menu in Capture phase on the left fire button, which
is bound to key A, to the space key and to joystick slot 4.  After Escape the space key
(slot 58) and joystick slot 4 no longer hold the event and the up arrow (slot 86) keeps
its own. -/
theorem capture_cancel_unbinds_witness :
    (sendKeyEvent sampleConsts KCODE_ESCAPE 1 sampleCapture).myKeyTable 58
        ≠ sampleCapture.mySelectedEvent ∧
      (sendKeyEvent sampleConsts KCODE_ESCAPE 1 sampleCapture).myJoyTable 4
        ≠ sampleCapture.mySelectedEvent ∧
      (sendKeyEvent sampleConsts KCODE_ESCAPE 1 sampleCapture).myKeyTable 86
        = sampleCapture.myKeyTable 86 ∧
      (sendKeyEvent sampleConsts KCODE_ESCAPE 1 sampleCapture).myRemapEventSelectedFlag
        = false ∧
      (sendKeyEvent sampleConsts KCODE_ESCAPE 1 sampleCapture).myCurrentWidget
        = Widget.REMAP_MENU :=
  have h := capture_cancel_unbinds sampleConsts sampleCapture sampleCapture_state.1
    sampleCapture_state.2.1 sampleCapture_state.2.2.1
    (by rw [sampleCapture_state.2.2.2.2.1]; decide)
    (by rw [sampleCapture_state.2.2.2.2.1, sampleCapture_state.2.2.2.2.2.1]; decide)
    (by rw [sampleCapture_state.2.2.2.2.2.1])
  ⟨h.1 58 (by rw [sampleCapture_state.2.2.2.2.2.2.2.1]; decide),
   h.2.1 4 (by rw [sampleCapture_state.2.2.2.2.2.2.2.2.2]; decide),
   h.2.2.2.1 86 (by
     rw [sampleCapture_state.2.2.2.2.2.2.1, sampleCapture_state.2.2.2.1]
     decide),
   h.2.2.2.2.2.1, h.2.2.2.2.2.2⟩

/-! ## The binding descriptions -/

theorem forLoop_filter {σ α : Type} (p : Nat → Prop) [DecidablePred p] (f : σ → α → σ)
    (nm : Nat → α) (n : Nat) (init : σ) :
    forLoop n (fun j st => if p j then f st (nm j) else st) init
      = (((List.range n).filter (fun j => decide (p j))).map nm).foldl f init := by
  induction n with
  | zero => simp [forLoop_zero]
  | succ k ih =>
    rw [forLoop_succ, ih, List.range_succ, List.filter_append, List.map_append,
      List.foldl_append]
    by_cases hk : p k
    · simp [hk]
    · simp [hk]

theorem string_ne_empty_of_data {s : String} {ch : Char} {cs : List Char}
    (h : s.data = ch :: cs) : s ≠ "" := by
  intro h0
  rw [h0] at h
  exact absurd h (by simp)

theorem nameHeadOk_data {n : String} (h : nameHeadOk n = true) :
    ∃ ch cs, n.data = ch :: cs ∧ (ch ≠ 'N' ∨ cs = []) := by
  unfold nameHeadOk at h
  cases hd : n.data with
  | nil => rw [hd] at h; simp at h
  | cons ch cs =>
    rw [hd] at h
    refine ⟨ch, cs, rfl, ?_⟩
    simp at h
    rcases h with h | h
    · exact Or.inl h
    · exact Or.inr h

theorem nameHeadOk_ne_empty {n : String} (h : nameHeadOk n = true) : n ≠ "" := by
  obtain ⟨ch, cs, hd, _⟩ := nameHeadOk_data h
  exact string_ne_empty_of_data hd

theorem joinComma_cons_data (a : String) (rest : List String) :
    ∃ tl, (joinComma (a :: rest)).data = a.data ++ tl ∧
      (tl = [] ∨ ∃ r, tl = ',' :: ' ' :: r) := by
  cases rest with
  | nil => exact ⟨[], by simp [joinComma], Or.inl rfl⟩
  | cons b rest1 =>
    refine ⟨(", " : String).data ++ (joinComma (b :: rest1)).data, ?_, Or.inr ⟨_, rfl⟩⟩
    simp [joinComma, String.data_append]

theorem joinComma_ne_empty (a : String) (rest : List String) (ha : a ≠ "") :
    joinComma (a :: rest) ≠ "" := by
  obtain ⟨tl, h, _⟩ := joinComma_cons_data a rest
  intro h0
  rw [h0] at h
  have h1 : a.data = [] := by
    have h2 : ([] : List Char) = a.data ++ tl := h
    exact (List.append_eq_nil.mp h2.symm).1
  exact ha (String.ext h1)

theorem joinComma_snoc (L : List String) (n : String) (hL : ∀ x ∈ L, x ≠ "") :
    appendName (joinComma L) n = joinComma (L ++ [n]) := by
  induction L with
  | nil => simp [appendName, joinComma]
  | cons a rest ih =>
    have ha : a ≠ "" := hL a (List.mem_cons_self a rest)
    have hrest : ∀ x ∈ rest, x ≠ "" := fun x hx => hL x (List.mem_cons_of_mem a hx)
    have hne := joinComma_ne_empty a rest ha
    cases rest with
    | nil =>
      simp only [joinComma] at hne ⊢
      simp [appendName, hne, joinComma]
    | cons b rest1 =>
      have ih1 := ih hrest
      have hne1 := joinComma_ne_empty b rest1 (hrest b (List.mem_cons_self b rest1))
      unfold appendName at ih1 ⊢
      rw [if_neg hne1] at ih1
      rw [if_neg hne]
      have e1 : joinComma ((a :: b :: rest1) ++ [n])
          = a ++ ", " ++ joinComma ((b :: rest1) ++ [n]) := by
        simp only [List.cons_append, joinComma]
        rfl
      have e2 : joinComma (a :: b :: rest1) = a ++ ", " ++ joinComma (b :: rest1) := by
        simp only [joinComma]
      rw [e1, e2, ← ih1]
      simp only [String.append_assoc]

theorem foldl_appendName (L2 L1 : List String) (h1 : ∀ x ∈ L1, x ≠ "")
    (h2 : ∀ x ∈ L2, x ≠ "") :
    L2.foldl appendName (joinComma L1) = joinComma (L1 ++ L2) := by
  induction L2 generalizing L1 with
  | nil => simp
  | cons n rest ih =>
    rw [List.foldl_cons, joinComma_snoc L1 n h1]
    have h3 : ∀ x ∈ L1 ++ [n], x ≠ "" := by
      intro x hx
      rcases List.mem_append.mp hx with hx | hx
      · exact h1 x hx
      · rw [List.mem_singleton.mp hx]
        exact h2 n (List.mem_cons_self n rest)
    rw [ih (L1 ++ [n]) h3 (fun x hx => h2 x (List.mem_cons_of_mem n hx))]
    simp

theorem ourEventName_ok (j : Nat) (hj : j < 105) :
    nameHeadOk (ourEventName.getD j "") = true := by
  have h : ∀ i, i < 105 → nameHeadOk (ourEventName.getD i "") = true := by decide
  exact h j hj

theorem nameHeadOk_J (x : String) : nameHeadOk ("J" ++ x) = true := by
  unfold nameHeadOk
  rw [String.data_append]
  rfl

theorem joyEventName_ok (c : Consts) (j : Nat) : nameHeadOk (joyEventName c j) = true := by
  unfold joyEventName
  dsimp only
  split_ifs <;> simp only [String.append_assoc] <;> exact nameHeadOk_J _

theorem boundNames_ok (c : Consts) (s : FrameBuffer) (e : EventType)
    (hsize : s.myKeyTableSize ≤ LastKCODE) :
    ∀ x ∈ boundNames c s e, nameHeadOk x = true := by
  intro x hx
  unfold boundNames at hx
  rcases List.mem_append.mp hx with hx | hx
  · obtain ⟨j, hj, rfl⟩ := List.mem_map.mp hx
    have hj1 := (List.mem_filter.mp hj).1
    rw [List.mem_range] at hj1
    exact ourEventName_ok j (by unfold LastKCODE at hsize; omega)
  · obtain ⟨j, _, rfl⟩ := List.mem_map.mp hx
    exact joyEventName_ok c j

theorem boundNames_eq_nil_iff (c : Consts) (s : FrameBuffer) (e : EventType) :
    boundNames c s e = [] ↔
      (∀ j, j < s.myKeyTableSize → s.myKeyTable j ≠ e) ∧
      (∀ j, j < s.myJoyTableSize → s.myJoyTable j ≠ e) := by
  unfold boundNames
  simp [List.filter_eq_nil_iff]

/-- The local `key` of `loadRemapMenu` is the comma-joined list of the bound names. -/
theorem joinedKey_eq (c : Consts) (s : FrameBuffer) (e : EventType)
    (hsize : s.myKeyTableSize ≤ LastKCODE) :
    joinedKey c s e = joinComma (boundNames c s e) := by
  have hok := boundNames_ok c s e hsize
  unfold boundNames at hok ⊢
  unfold joinedKey
  dsimp only
  rw [forLoop_filter (fun j => s.myKeyTable j = e) appendName
      (fun j => ourEventName.getD j "") s.myKeyTableSize "",
    forLoop_filter (fun j => s.myJoyTable j = e) appendName
      (fun j => joyEventName c j) s.myJoyTableSize _]
  have hk : ∀ x ∈ ((List.range s.myKeyTableSize).filter
      (fun j => decide (s.myKeyTable j = e))).map (fun j => ourEventName.getD j ""),
      x ≠ "" :=
    fun x hx => nameHeadOk_ne_empty (hok x (List.mem_append_left _ hx))
  have hj : ∀ x ∈ ((List.range s.myJoyTableSize).filter
      (fun j => decide (s.myJoyTable j = e))).map (fun j => joyEventName c j),
      x ≠ "" :=
    fun x hx => nameHeadOk_ne_empty (hok x (List.mem_append_right _ hx))
  have h1 := foldl_appendName _ [] (by simp) hk
  rw [List.nil_append] at h1
  have h0 : joinComma [] = "" := rfl
  rw [h0] at h1
  rw [h1, foldl_appendName _ _ hk hj]

theorem joinComma_ne_None (L : List String) (hL : L ≠ [])
    (hok : ∀ x ∈ L, nameHeadOk x = true) : joinComma L ≠ "None" := by
  cases L with
  | nil => exact absurd rfl hL
  | cons a rest =>
    obtain ⟨tl, hd, htl⟩ := joinComma_cons_data a rest
    obtain ⟨ch, cs, ha, hch⟩ := nameHeadOk_data (hok a (List.mem_cons_self a rest))
    intro h0
    rw [h0, ha] at hd
    have hN : ("None" : String).data = ['N', 'o', 'n', 'e'] := rfl
    rw [hN] at hd
    simp only [List.cons_append, List.cons.injEq] at hd
    obtain ⟨h1, h2⟩ := hd
    rcases hch with hch | hch
    · exact hch h1.symm
    · rw [hch] at h2
      rcases htl with htl | ⟨r, htl⟩
      · rw [htl] at h2; simp at h2
      · rw [htl] at h2; simp at h2

theorem append_dots_ne_None (x : String) : x ++ "..." ≠ "None" := by
  intro h0
  have h1 := congrArg String.length h0
  have h2 : (x ++ "...").data = ("None" : String).data := congrArg String.data h0
  rw [String.data_append] at h2
  have hN : ("None" : String).data = ['N', 'o', 'n', 'e'] := rfl
  have hD : ("..." : String).data = ['.', '.', '.'] := rfl
  rw [hN, hD] at h2
  have h3 := congrArg List.getLast? h2
  simp at h3

theorem loadRemapMenu_key (c : Consts) (s : FrameBuffer) (i : Nat)
    (hi : (i : Int) < s.myRemapMenuItems) :
    (loadRemapMenu c s).ourRemapMenuKey i
      = remapKeyText c s (ourRemapMenu.getD i ⟨EventType.NoType, "", ""⟩).event := by
  rw [loadRemapMenu_eq]
  have h : i < s.myRemapMenuItems.toNat := by omega
  simp [h]

theorem remapKeyText_eq (c : Consts) (s : FrameBuffer) (e : EventType)
    (hsize : s.myKeyTableSize ≤ LastKCODE) :
    remapKeyText c s e
      = if joinComma (boundNames c s e) ≠ "" then
          if (joinComma (boundNames c s e)).length > keyBudget s then
            substr (joinComma (boundNames c s e)) 0 (toUInt32 ((keyBudget s : Int) - 3)) ++ "..."
          else joinComma (boundNames c s e)
        else "None" := by
  unfold remapKeyText
  rw [joinedKey_eq c s e hsize]

theorem joinComma_eq_empty_iff (c : Consts) (s : FrameBuffer) (e : EventType)
    (hsize : s.myKeyTableSize ≤ LastKCODE) :
    joinComma (boundNames c s e) = "" ↔ boundNames c s e = [] := by
  constructor
  · intro h
    cases hb : boundNames c s e with
    | nil => rfl
    | cons a rest =>
      rw [hb] at h
      have ha : a ≠ "" :=
        nameHeadOk_ne_empty (boundNames_ok c s e hsize a (by rw [hb]; exact List.mem_cons_self a rest))
      exact absurd h (joinComma_ne_empty a rest ha)
  · intro h
    rw [h]
    rfl

theorem joyEventName_slot (c : Consts) (stick code : Nat) (hcode : code < c.LastJCODE)
    (h32 : code < 4294967296) :
    joyEventName c (stick * c.LastJCODE + code)
      = if code = JAXIS_UP then "J" ++ decimal stick ++ " UP"
        else if code = JAXIS_DOWN then "J" ++ decimal stick ++ " DOWN"
        else if code = JAXIS_LEFT then "J" ++ decimal stick ++ " LEFT"
        else if code = JAXIS_RIGHT then "J" ++ decimal stick ++ " RIGHT"
        else "J" ++ decimal stick ++ " B" ++ decimal (code - 4) := by
  have hpos : 0 < c.LastJCODE := by omega
  have hdiv : (stick * c.LastJCODE + code) / c.LastJCODE = stick := by
    rw [Nat.mul_comm, Nat.mul_add_div hpos, Nat.div_eq_of_lt hcode, Nat.add_zero]
  have hmod : (stick * c.LastJCODE + code) % c.LastJCODE = code := by
    rw [Nat.mul_comm, Nat.mul_add_mod, Nat.mod_eq_of_lt hcode]
  unfold joyEventName
  dsimp only
  rw [hdiv, hmod]
  unfold JAXIS_UP JAXIS_DOWN JAXIS_LEFT JAXIS_RIGHT
  split_ifs <;> first
    | rfl
    | (have h4 : toUInt32 ((code : Int) - 4) = code - 4 := by
        unfold toUInt32
        omega
       rw [h4])

/-- C5: after loadRemapMenu, for every remap entry (row i, event e), the cached binding
description is exactly "None" if and only if no key slot and no joystick slot holds e;
otherwise, when it fits the column budget, it is the names of all slots bound to e joined
by a comma and a blank, key slots first in ascending key-code order named by ourEventName,
then joystick slots in ascending slot order; a joystick slot of stick and code is named
J, the stick number, then UP, DOWN, LEFT or RIGHT for the axis codes 0 to 3 and B with
code - 4 for the button codes. -/
theorem describe_bound_event (c : Consts) (s : FrameBuffer)
    (hsize : s.myKeyTableSize ≤ LastKCODE) (i : Nat) (hi : (i : Int) < s.myRemapMenuItems) :
    ((loadRemapMenu c s).ourRemapMenuKey i = "None" ↔
        (∀ j, j < s.myKeyTableSize →
          s.myKeyTable j ≠ (ourRemapMenu.getD i ⟨EventType.NoType, "", ""⟩).event) ∧
        (∀ j, j < s.myJoyTableSize →
          s.myJoyTable j ≠ (ourRemapMenu.getD i ⟨EventType.NoType, "", ""⟩).event)) ∧
      (boundNames c s (ourRemapMenu.getD i ⟨EventType.NoType, "", ""⟩).event ≠ [] →
        (joinComma (boundNames c s
          (ourRemapMenu.getD i ⟨EventType.NoType, "", ""⟩).event)).length ≤ keyBudget s →
        (loadRemapMenu c s).ourRemapMenuKey i
          = joinComma (boundNames c s
              (ourRemapMenu.getD i ⟨EventType.NoType, "", ""⟩).event)) ∧
      (∀ stick code, code < c.LastJCODE → code < 4294967296 →
        joyEventName c (stick * c.LastJCODE + code)
          = if code = JAXIS_UP then "J" ++ decimal stick ++ " UP"
            else if code = JAXIS_DOWN then "J" ++ decimal stick ++ " DOWN"
            else if code = JAXIS_LEFT then "J" ++ decimal stick ++ " LEFT"
            else if code = JAXIS_RIGHT then "J" ++ decimal stick ++ " RIGHT"
            else "J" ++ decimal stick ++ " B" ++ decimal (code - 4)) := by
  rw [loadRemapMenu_key c s i hi, remapKeyText_eq c s _ hsize,
    ← boundNames_eq_nil_iff c s _]
  generalize (ourRemapMenu.getD i ⟨EventType.NoType, "", ""⟩).event = e
  refine ⟨?_, ?_, fun stick code h1 h2 => joyEventName_slot c stick code h1 h2⟩
  · constructor
    · intro h
      by_contra hne
      have hj : joinComma (boundNames c s e) ≠ "" :=
        fun h0 => hne ((joinComma_eq_empty_iff c s e hsize).mp h0)
      rw [if_pos hj] at h
      split_ifs at h
      · exact append_dots_ne_None _ h
      · exact joinComma_ne_None _ hne (boundNames_ok c s e hsize) h
    · intro h
      rw [h]
      rfl
  · intro hne hlen
    have hj : joinComma (boundNames c s e) ≠ "" :=
      fun h0 => hne ((joinComma_eq_empty_iff c s e hsize).mp h0)
    rw [if_pos hj, if_neg (by omega)]

theorem sampleDisplay_items : sampleDisplay.myRemapMenuItems = 57 := rfl

set_option maxRecDepth 10000 in
theorem sampleDisplay_names :
    boundNames sampleConsts sampleDisplay
        (ourRemapMenu.getD 18 ⟨EventType.NoType, "", ""⟩).event = ["J1 UP"] ∧
      boundNames sampleConsts sampleDisplay
        (ourRemapMenu.getD 17 ⟨EventType.NoType, "", ""⟩).event = ["A", "SPACE", "J0 B0"] ∧
      keyBudget sampleDisplay = 8 := by
  refine ⟨?_, ?_, ?_⟩ <;> decide

/-- C5, witness: on the sample display row 18 (right joystick up) is bound to joystick
slot 24 only, and its description is the joined list of its one name, J1 UP. -/
theorem describe_bound_event_witness :
    (loadRemapMenu sampleConsts sampleDisplay).ourRemapMenuKey 18
        = joinComma (boundNames sampleConsts sampleDisplay
            (ourRemapMenu.getD 18 ⟨EventType.NoType, "", ""⟩).event) ∧
      joinComma (boundNames sampleConsts sampleDisplay
        (ourRemapMenu.getD 18 ⟨EventType.NoType, "", ""⟩).event) = "J1 UP" :=
  ⟨(describe_bound_event sampleConsts sampleDisplay
      (by rw [sampleDisplay_tables.2.1]; decide) 18
      (by rw [sampleDisplay_items]; decide)).2.1
      (by rw [sampleDisplay_names.1]; decide)
      (by rw [sampleDisplay_names.1, sampleDisplay_names.2.2]; decide),
   by rw [sampleDisplay_names.1]; rfl⟩

theorem keyBudget_lt (s : FrameBuffer) : keyBudget s < 4294967296 := by
  unfold keyBudget toUInt32
  omega

theorem substr_zero_length (x : String) (n : Nat) :
    (substr x 0 n).length = min n x.length := by
  unfold substr
  rw [String.length_mk, List.drop_zero, List.length_take]
  rfl

/-- C6 (as amended): for every state whose column budget len (the uInt32 value of
myMaxColumns - 19 - 2, equal to myMaxColumns - 21 from 24 columns on) is at least 3, and
every binding table: the cached description of an entry with at least one binding has at
most len characters; a joined label longer than len is replaced by its first len - 3
characters followed by three dots, of length exactly len; a joined label of at most len
characters is stored unchanged; an entry without binding gets the placeholder "None",
which is not truncated, so every description has at most max len 4 characters. -/
theorem describe_truncation (c : Consts) (s : FrameBuffer)
    (hsize : s.myKeyTableSize ≤ LastKCODE) (hlen : 3 ≤ keyBudget s)
    (i : Nat) (hi : (i : Int) < s.myRemapMenuItems) :
    (24 ≤ s.myMaxColumns → s.myMaxColumns < 2147483648 →
        (keyBudget s : Int) = s.myMaxColumns - 21) ∧
      (boundNames c s (ourRemapMenu.getD i ⟨EventType.NoType, "", ""⟩).event ≠ [] →
        ((loadRemapMenu c s).ourRemapMenuKey i).length ≤ keyBudget s) ∧
      ((joinComma (boundNames c s
          (ourRemapMenu.getD i ⟨EventType.NoType, "", ""⟩).event)).length > keyBudget s →
        (loadRemapMenu c s).ourRemapMenuKey i
            = substr (joinComma (boundNames c s
                (ourRemapMenu.getD i ⟨EventType.NoType, "", ""⟩).event)) 0 (keyBudget s - 3)
              ++ "..." ∧
          ((loadRemapMenu c s).ourRemapMenuKey i).length = keyBudget s) ∧
      (boundNames c s (ourRemapMenu.getD i ⟨EventType.NoType, "", ""⟩).event ≠ [] →
        (joinComma (boundNames c s
          (ourRemapMenu.getD i ⟨EventType.NoType, "", ""⟩).event)).length ≤ keyBudget s →
        (loadRemapMenu c s).ourRemapMenuKey i
          = joinComma (boundNames c s
              (ourRemapMenu.getD i ⟨EventType.NoType, "", ""⟩).event)) ∧
      (boundNames c s (ourRemapMenu.getD i ⟨EventType.NoType, "", ""⟩).event = [] →
        (loadRemapMenu c s).ourRemapMenuKey i = "None") ∧
      ((loadRemapMenu c s).ourRemapMenuKey i).length ≤ max (keyBudget s) 4 := by
  rw [loadRemapMenu_key c s i hi, remapKeyText_eq c s _ hsize]
  generalize (ourRemapMenu.getD i ⟨EventType.NoType, "", ""⟩).event = e
  have hlt := keyBudget_lt s
  have h3 : toUInt32 ((keyBudget s : Int) - 3) = keyBudget s - 3 := by
    unfold toUInt32
    omega
  rw [h3]
  have hbudget : 24 ≤ s.myMaxColumns → s.myMaxColumns < 2147483648 →
      (keyBudget s : Int) = s.myMaxColumns - 21 := by
    intro h24 h31
    unfold keyBudget toUInt32
    have e1 : toInt32 (s.myMaxColumns - 19) = s.myMaxColumns - 19 :=
      toInt32_of_bounds (by omega) (by omega)
    rw [e1]
    have e2 : toInt32 (s.myMaxColumns - 19 - 2) = s.myMaxColumns - 19 - 2 :=
      toInt32_of_bounds (by omega) (by omega)
    rw [e2]
    omega
  have hlong : (joinComma (boundNames c s e)).length > keyBudget s →
      (if joinComma (boundNames c s e) ≠ "" then
          if (joinComma (boundNames c s e)).length > keyBudget s then
            substr (joinComma (boundNames c s e)) 0 (keyBudget s - 3) ++ "..."
          else joinComma (boundNames c s e)
        else "None")
        = substr (joinComma (boundNames c s e)) 0 (keyBudget s - 3) ++ "..." ∧
      (substr (joinComma (boundNames c s e)) 0 (keyBudget s - 3) ++ "...").length
        = keyBudget s := by
    intro hgt
    have hj : joinComma (boundNames c s e) ≠ "" := by
      intro h0
      rw [h0] at hgt
      simp at hgt
    rw [if_pos hj, if_pos hgt]
    refine ⟨rfl, ?_⟩
    rw [String.length_append, substr_zero_length]
    have hd : ("..." : String).length = 3 := rfl
    rw [hd]
    omega
  have hshort : boundNames c s e ≠ [] → (joinComma (boundNames c s e)).length ≤ keyBudget s →
      (if joinComma (boundNames c s e) ≠ "" then
          if (joinComma (boundNames c s e)).length > keyBudget s then
            substr (joinComma (boundNames c s e)) 0 (keyBudget s - 3) ++ "..."
          else joinComma (boundNames c s e)
        else "None")
        = joinComma (boundNames c s e) := by
    intro hne hle
    have hj : joinComma (boundNames c s e) ≠ "" :=
      fun h0 => hne ((joinComma_eq_empty_iff c s e hsize).mp h0)
    rw [if_pos hj, if_neg (by omega)]
  have hnone : boundNames c s e = [] →
      (if joinComma (boundNames c s e) ≠ "" then
          if (joinComma (boundNames c s e)).length > keyBudget s then
            substr (joinComma (boundNames c s e)) 0 (keyBudget s - 3) ++ "..."
          else joinComma (boundNames c s e)
        else "None")
        = "None" := by
    intro h
    rw [h]
    rfl
  have hbound : boundNames c s e ≠ [] →
      (if joinComma (boundNames c s e) ≠ "" then
          if (joinComma (boundNames c s e)).length > keyBudget s then
            substr (joinComma (boundNames c s e)) 0 (keyBudget s - 3) ++ "..."
          else joinComma (boundNames c s e)
        else "None").length ≤ keyBudget s := by
    intro hne
    by_cases hgt : (joinComma (boundNames c s e)).length > keyBudget s
    · rw [(hlong hgt).1, (hlong hgt).2]
    · rw [hshort hne (by omega)]
      omega
  refine ⟨hbudget, hbound, ?_, hshort, hnone, ?_⟩
  · intro hgt
    have h := hlong hgt
    exact ⟨h.1, by rw [h.1]; exact h.2⟩
  · by_cases hne : boundNames c s e = []
    · rw [hnone hne]
      have hd : ("None" : String).length = 4 := rfl
      rw [hd]
      exact le_max_right _ _
    · exact le_trans (hbound hne) (le_max_left _ _)

/-- C6, witness of the amended statement: on the sample display (budget 8) row 17, the
left fire button, has the joined label "A, SPACE, J0 B0" of 15 characters, which is
stored as its first 5 characters and three dots, 8 characters in all. -/
theorem describe_truncation_witness :
    (loadRemapMenu sampleConsts sampleDisplay).ourRemapMenuKey 17
        = substr (joinComma (boundNames sampleConsts sampleDisplay
            (ourRemapMenu.getD 17 ⟨EventType.NoType, "", ""⟩).event)) 0
            (keyBudget sampleDisplay - 3) ++ "..." ∧
      ((loadRemapMenu sampleConsts sampleDisplay).ourRemapMenuKey 17).length
        = keyBudget sampleDisplay :=
  (describe_truncation sampleConsts sampleDisplay
    (by rw [sampleDisplay_tables.2.1]; decide)
    (by rw [sampleDisplay_names.2.2]; decide) 17
    (by rw [sampleDisplay_items]; decide)).2.2.1
    (by rw [sampleDisplay_names.2.1, sampleDisplay_names.2.2]; decide)

set_option maxRecDepth 10000 in
/-- C6, counterexample to the claim as stated: on a display of 24 columns the budget is
len = 3, and row 0 (Select), which has no binding in the sample tables, gets the
description "None" of 4 characters, more than len. -/
theorem describe_truncation_fails_for_placeholder :
    sampleNarrow.myMaxColumns = 24 ∧ keyBudget sampleNarrow = 3 ∧
      sampleNarrow.ourRemapMenuKey 0 = "None" ∧
      (loadRemapMenu sampleConsts sampleNarrow).ourRemapMenuKey 0 = "None" ∧
      ¬ ((loadRemapMenu sampleConsts sampleNarrow).ourRemapMenuKey 0).length
          ≤ keyBudget sampleNarrow := by
  refine ⟨?_, ?_, ?_, ?_, ?_⟩ <;> decide

/-! ## Reloading the persisted tables -/

theorem digitChar_toNat (d : Nat) (hd : d < 10) : (digitChar d).toNat - 48 = d := by
  interval_cases d <;> rfl

theorem digitChar_ne_colon (d : Nat) (hd : d < 10) : digitChar d ≠ ':' := by
  interval_cases d <;> decide

theorem decimalAux_no_colon (fuel n : Nat) : ∀ ch ∈ decimalAux fuel n, ch ≠ ':' := by
  induction fuel generalizing n with
  | zero => intro ch hch; simp [decimalAux] at hch
  | succ k ih =>
    intro ch hch
    unfold decimalAux at hch
    split_ifs at hch with h10
    · rw [List.mem_singleton.mp hch]
      exact digitChar_ne_colon n h10
    · rcases List.mem_append.mp hch with h | h
      · exact ih (n / 10) ch h
      · rw [List.mem_singleton.mp h]
        exact digitChar_ne_colon (n % 10) (Nat.mod_lt n (by decide))

theorem parseDecimal_snoc (xs : List Char) (ch : Char) :
    parseDecimal (xs ++ [ch]) = 10 * parseDecimal xs + (ch.toNat - 48) := by
  simp [parseDecimal, List.foldl_append]

theorem parseDecimal_decimalAux (fuel n : Nat) (h : n < fuel) :
    parseDecimal (decimalAux fuel n) = n := by
  induction fuel generalizing n with
  | zero => omega
  | succ k ih =>
    unfold decimalAux
    split_ifs with h10
    · have h1 := parseDecimal_snoc [] (digitChar n)
      rw [List.nil_append] at h1
      rw [h1, digitChar_toNat n h10]
      simp [parseDecimal]
    · rw [parseDecimal_snoc, ih (n / 10) (by omega),
        digitChar_toNat (n % 10) (Nat.mod_lt n (by decide))]
      omega

theorem parseDecimal_decimal (n : Nat) : parseDecimal (decimal n).data = n := by
  unfold decimal
  exact parseDecimal_decimalAux (n + 1) n (by omega)

theorem colonFields_field (d : List Char) (hd : ∀ ch ∈ d, ch ≠ ':') (cur rest : List Char) :
    colonFields cur (d ++ ':' :: rest) = (cur.reverse ++ d) :: colonFields [] rest := by
  induction d generalizing cur with
  | nil => simp [colonFields]
  | cons a d1 ih =>
    have ha : a ≠ ':' := hd a (List.mem_cons_self a d1)
    rw [List.cons_append, colonFields, if_neg ha,
      ih (fun ch hch => hd ch (List.mem_cons_of_mem a hch))]
    simp

theorem colonFields_colonList (c : Consts) (table : Nat → EventType) (L : List Nat) :
    colonFields [] (String.join (L.map (fun i => decimal (c.ord (table i)) ++ ":"))).data
      = L.map (fun i => (decimal (c.ord (table i))).data) := by
  induction L with
  | nil => simp [colonFields]
  | cons a rest ih =>
    rw [String.data_join] at ih ⊢
    simp only [List.map_cons, List.flatten_cons, String.data_append]
    rw [List.append_assoc, List.singleton_append,
      colonFields_field (decimal (c.ord (table a))).data
        (by unfold decimal; exact decimalAux_no_colon _ _) [] _, ih]
    simp

theorem loadTable_colonList (c : Consts) (ofOrd : Nat → EventType)
    (hinv : ∀ e, ofOrd (c.ord e) = e) (table : Nat → EventType) (n i : Nat) (hi : i < n) :
    loadTable ofOrd (colonList c table n) i = table i := by
  unfold loadTable colonList
  rw [colonFields_colonList]
  simp [hi, parseDecimal_decimal, hinv]

theorem sampleOfOrd_sampleOrd (e : EventType) : sampleOfOrd (sampleOrd e) = e := by
  unfold sampleOfOrd sampleOrd
  cases e
  case other k => simp [EventType.ctorIndex, EventType.ofCtorIndex]
  all_goals rfl

theorem loadTable_colonList_beyond (c : Consts) (ofOrd : Nat → EventType)
    (table : Nat → EventType) (n i : Nat) (hi : n ≤ i) :
    loadTable ofOrd (colonList c table n) i = EventType.NoType := by
  unfold loadTable colonList
  rw [colonFields_colonList]
  have h : (List.range n)[i]? = none := by
    rw [List.getElem?_eq_none_iff, List.length_range]
    exact hi
  simp [h]

theorem loadRemapMenu_reloads (c : Consts) (ofOrd : Nat → EventType)
    (hinv : ∀ e, ofOrd (c.ord e) = e) (s : FrameBuffer) :
    Reloads c ofOrd (loadRemapMenu c s) := by
  have hs := loadRemapMenu_settings c s
  have ht : (loadRemapMenu c s).myKeyTable = s.myKeyTable ∧
      (loadRemapMenu c s).myJoyTable = s.myJoyTable := by
    rw [loadRemapMenu_eq]
    exact ⟨rfl, rfl⟩
  unfold Reloads
  rw [hs.1, hs.2, ht.1, ht.2]
  exact ⟨fun i hi => loadTable_colonList c ofOrd hinv _ _ i hi,
    fun j hj => loadTable_colonList c ofOrd hinv _ _ j hj⟩

/-- C8: serialization round trip.  With `loadTable` the loader modelled from the spec and
`ofOrd` the cast that inverts the ordinal of an event: loading the string that
loadRemapMenu streams for the first n slots of any table gives back the table on these
slots and nothing beyond them; and after every bind (addKeyBinding, addJoyBinding), every
unbind (deleteBinding) and every loadRemapMenu, loading the persisted keymap and joymap
strings reproduces the key and joystick tables slot for slot. -/
theorem load_serialize_roundtrip (c : Consts) (ofOrd : Nat → EventType)
    (hinv : ∀ e, ofOrd (c.ord e) = e) (s : FrameBuffer) (e : EventType)
    (k stick code : Nat) :
    (∀ (table : Nat → EventType) (n i : Nat), i < n →
        loadTable ofOrd (mapBuffer c table n) i = table i) ∧
      (∀ (table : Nat → EventType) (n i : Nat), n ≤ i →
        loadTable ofOrd (mapBuffer c table n) i = EventType.NoType) ∧
      Reloads c ofOrd (loadRemapMenu c s) ∧
      Reloads c ofOrd (addKeyBinding c e k s) ∧
      Reloads c ofOrd (addJoyBinding c e stick code s) ∧
      Reloads c ofOrd (deleteBinding c e s) := by
  refine ⟨?_, ?_, loadRemapMenu_reloads c ofOrd hinv s, loadRemapMenu_reloads c ofOrd hinv _,
    loadRemapMenu_reloads c ofOrd hinv _, loadRemapMenu_reloads c ofOrd hinv _⟩
  · intro table n i hi
    rw [mapBuffer_eq_colonList]
    exact loadTable_colonList c ofOrd hinv table n i hi
  · intro table n i hi
    rw [mapBuffer_eq_colonList]
    exact loadTable_colonList_beyond c ofOrd table n i hi

/-- C8, witness: with the sample numbering of the events, the key table of the sample
display with the space key rebound to Pause is reloaded from its persisted string. -/
theorem load_serialize_roundtrip_witness :
    Reloads sampleConsts sampleOfOrd (addKeyBinding sampleConsts EventType.Pause 58 sampleDisplay) ∧
      Reloads sampleConsts sampleOfOrd
        (deleteBinding sampleConsts EventType.JoystickZeroFire sampleDisplay) :=
  ⟨(load_serialize_roundtrip sampleConsts sampleOfOrd sampleOfOrd_sampleOrd sampleDisplay
      EventType.Pause 58 0 0).2.2.2.1,
   (load_serialize_roundtrip sampleConsts sampleOfOrd sampleOfOrd_sampleOrd sampleDisplay
      EventType.JoystickZeroFire 58 0 0).2.2.2.2.2⟩

/-! ## The menu state machine: show, confirm, cancel -/

/-- C11: show opens the main menu.  From every state, showMenu(true) puts the controller
in MAIN_MENU with menu mode on, sets the redraw-entire-frame flag and clears any pending
capture (flag off, selected event NoType); the binding tables and their sizes are
unchanged. -/
theorem showMenu_true_opens_main_menu (s : FrameBuffer) :
    (showMenu true s).myCurrentWidget = Widget.MAIN_MENU ∧
      (showMenu true s).myMenuMode = true ∧
      (showMenu true s).theRedrawEntireFrameIndicator = true ∧
      (showMenu true s).myRemapEventSelectedFlag = false ∧
      (showMenu true s).mySelectedEvent = EventType.NoType ∧
      (showMenu true s).myKeyTable = s.myKeyTable ∧
      (showMenu true s).myKeyTableSize = s.myKeyTableSize ∧
      (showMenu true s).myJoyTable = s.myJoyTable ∧
      (showMenu true s).myJoyTableSize = s.myJoyTableSize := by
  unfold showMenu
  refine ⟨?_, ?_, ?_, ?_, ?_, ?_, ?_, ?_, ?_⟩ <;> rfl

theorem sendKeyEvent_off (c : Consts) (key : Nat) (state : Int) (s : FrameBuffer)
    (h : s.myCurrentWidget = Widget.W_NONE ∨ state ≠ 1) : sendKeyEvent c key state s = s := by
  unfold sendKeyEvent
  rw [if_pos h]

theorem sendJoyEvent_off (c : Consts) (stick code : Nat) (state : Int) (s : FrameBuffer)
    (h : s.myCurrentWidget = Widget.W_NONE ∨ state ≠ 1) :
    sendJoyEvent c stick code state s = s := by
  unfold sendJoyEvent
  rw [if_pos h]

theorem sendKeyEvent_main (c : Consts) (key : Nat) (s : FrameBuffer)
    (hw : s.myCurrentWidget = Widget.MAIN_MENU) :
    sendKeyEvent c key 1 s
      = if key = KCODE_RETURN then
          { s with
            theMenuChangedIndicator := true
            myCurrentWidget := currentSelectedWidget { s with theMenuChangedIndicator := true } }
        else if key = KCODE_UP then moveCursorUp 1 { s with theMenuChangedIndicator := true }
        else if key = KCODE_DOWN then moveCursorDown 1 { s with theMenuChangedIndicator := true }
        else { s with theMenuChangedIndicator := true } := by
  unfold sendKeyEvent
  rw [if_neg (by rw [hw]; simp)]
  simp only [hw]

theorem sendKeyEvent_info (c : Consts) (key : Nat) (s : FrameBuffer)
    (hw : s.myCurrentWidget = Widget.INFO_MENU) :
    sendKeyEvent c key 1 s
      = if key = KCODE_ESCAPE then
          { s with
            theMenuChangedIndicator := true
            myCurrentWidget := Widget.MAIN_MENU
            theRedrawEntireFrameIndicator := true }
        else { s with theMenuChangedIndicator := true } := by
  unfold sendKeyEvent
  rw [if_neg (by rw [hw]; simp)]
  simp only [hw]

theorem sendKeyEvent_invalid (c : Consts) (key : Nat) (s : FrameBuffer) (n : Nat)
    (hw : s.myCurrentWidget = Widget.invalid n) :
    sendKeyEvent c key 1 s = { s with theMenuChangedIndicator := true } := by
  unfold sendKeyEvent
  rw [if_neg (by rw [hw]; simp)]
  simp only [hw]

theorem sendJoyEvent_main (c : Consts) (stick code : Nat) (s : FrameBuffer)
    (hw : s.myCurrentWidget = Widget.MAIN_MENU) :
    sendJoyEvent c stick code 1 s
      = if code = JAXIS_UP then moveCursorUp 1 { s with theMenuChangedIndicator := true }
        else if code = JAXIS_DOWN then
          moveCursorDown 1 { s with theMenuChangedIndicator := true }
        else { s with theMenuChangedIndicator := true } := by
  unfold sendJoyEvent
  rw [if_neg (by rw [hw]; simp)]
  simp only [hw]

theorem sendJoyEvent_remap (c : Consts) (stick code : Nat) (s : FrameBuffer)
    (hw : s.myCurrentWidget = Widget.REMAP_MENU) :
    sendJoyEvent c stick code 1 s
      = if s.myRemapEventSelectedFlag = true then
          { addJoyBinding c s.mySelectedEvent stick code { s with theMenuChangedIndicator := true }
            with myRemapEventSelectedFlag := false }
        else if code = JAXIS_UP then moveCursorUp 1 { s with theMenuChangedIndicator := true }
        else if code = JAXIS_DOWN then
          moveCursorDown 1 { s with theMenuChangedIndicator := true }
        else { s with theMenuChangedIndicator := true } := by
  unfold sendJoyEvent
  rw [if_neg (by rw [hw]; simp)]
  simp only [hw]

theorem sendJoyEvent_other (c : Consts) (stick code : Nat) (s : FrameBuffer)
    (hw : s.myCurrentWidget = Widget.INFO_MENU ∨ ∃ n, s.myCurrentWidget = Widget.invalid n) :
    sendJoyEvent c stick code 1 s = { s with theMenuChangedIndicator := true } := by
  unfold sendJoyEvent
  rcases hw with hw | ⟨n, hw⟩
  · rw [if_neg (by rw [hw]; simp)]
    simp only [hw]
  · rw [if_neg (by rw [hw]; simp)]
    simp only [hw]

theorem forLoop_preserves {σ : Type} (P : σ → Prop) (n : Nat) (body : Nat → σ → σ) (init : σ)
    (hbody : ∀ i st, P st → P (body i st)) (h0 : P init) : P (forLoop n body init) := by
  induction n with
  | zero => rw [forLoop_zero]; exact h0
  | succ k ih => rw [forLoop_succ]; exact hbody k _ ih

theorem loadRemapMenu_mainInv (c : Consts) (s : FrameBuffer) (h : MainInv s) :
    MainInv (loadRemapMenu c s) := by
  rw [loadRemapMenu_eq]
  exact h

theorem moveCursorUp_mainInv (a : Nat) (s : FrameBuffer) (h : MainInv s) :
    MainInv (moveCursorUp a s) := by
  unfold MainInv at *
  unfold moveCursorUp
  split
  · split_ifs with h1
    · dsimp only
      rw [toInt32_of_bounds (by omega) (by omega)]
      omega
    · exact h
  · dsimp only
    split_ifs <;> exact h
  · exact h

theorem moveCursorDown_mainInv (a : Nat) (s : FrameBuffer) (h : MainInv s) :
    MainInv (moveCursorDown a s) := by
  unfold MainInv at *
  unfold moveCursorDown
  split
  · have e1 : toInt32 (s.myMainMenuItems - 1) = 1 := by
      rw [h.1]
      rfl
    rw [e1]
    split_ifs with h1
    · dsimp only
      rw [toInt32_of_bounds (by omega) (by omega)]
      omega
    · exact h
  · dsimp only
    split_ifs <;> exact h
  · exact h

theorem sendKeyEvent_mainInv (c : Consts) (key : Nat) (state : Int) (s : FrameBuffer)
    (h : MainInv s) : MainInv (sendKeyEvent c key state s) := by
  by_cases hst : state = 1
  · subst hst
    cases hw : s.myCurrentWidget with
    | W_NONE => rw [sendKeyEvent_off c key 1 s (Or.inl hw)]; exact h
    | MAIN_MENU =>
      rw [sendKeyEvent_main c key s hw]
      split_ifs
      · exact h
      · exact moveCursorUp_mainInv 1 _ h
      · exact moveCursorDown_mainInv 1 _ h
      · exact h
    | REMAP_MENU =>
      cases hf : s.myRemapEventSelectedFlag with
      | true =>
        rw [sendKeyEvent_remap_capture c key s hw hf]
        split_ifs
        · unfold deleteBinding
          exact loadRemapMenu_mainInv c _ h
        · unfold addKeyBinding
          exact loadRemapMenu_mainInv c _ h
      | false =>
        rw [sendKeyEvent_remap_browse c key s hw hf]
        split_ifs
        · exact h
        · exact moveCursorUp_mainInv 1 _ h
        · exact moveCursorDown_mainInv 1 _ h
        · exact moveCursorUp_mainInv 4 _ h
        · exact moveCursorDown_mainInv 4 _ h
        · exact h
        · exact h
    | INFO_MENU =>
      rw [sendKeyEvent_info c key s hw]
      split_ifs <;> exact h
    | invalid n =>
      rw [sendKeyEvent_invalid c key s n hw]
      exact h
  · rw [sendKeyEvent_off c key state s (Or.inr hst)]
    exact h

theorem sendJoyEvent_mainInv (c : Consts) (stick code : Nat) (state : Int) (s : FrameBuffer)
    (h : MainInv s) : MainInv (sendJoyEvent c stick code state s) := by
  by_cases hst : state = 1
  · subst hst
    cases hw : s.myCurrentWidget with
    | W_NONE => rw [sendJoyEvent_off c stick code 1 s (Or.inl hw)]; exact h
    | MAIN_MENU =>
      rw [sendJoyEvent_main c stick code s hw]
      split_ifs
      · exact moveCursorUp_mainInv 1 _ h
      · exact moveCursorDown_mainInv 1 _ h
      · exact h
    | REMAP_MENU =>
      rw [sendJoyEvent_remap c stick code s hw]
      split_ifs
      · unfold addJoyBinding
        exact loadRemapMenu_mainInv c _ h
      · exact moveCursorUp_mainInv 1 _ h
      · exact moveCursorDown_mainInv 1 _ h
      · exact h
    | INFO_MENU =>
      rw [sendJoyEvent_other c stick code s (Or.inl hw)]
      exact h
    | invalid n =>
      rw [sendJoyEvent_other c stick code s (Or.inr ⟨n, hw⟩)]
      exact h
  · rw [sendJoyEvent_off c stick code state s (Or.inr hst)]
    exact h

theorem update_mainInv (s : FrameBuffer) (h : MainInv s) : MainInv (update s).1 := by
  unfold update
  dsimp only
  split_ifs <;> exact h

theorem initDisplay_mainInv (c : Consts) (props : String → String)
    (keyTable : Nat → EventType) (keyTableSize : Nat)
    (joyTable : Nat → EventType) (joyTableSize : Nat)
    (frameRate : Int) (width height : Nat) :
    MainInv (initDisplay c props keyTable keyTableSize joyTable joyTableSize frameRate
      width height FrameBuffer.new) := by
  unfold initDisplay
  apply loadRemapMenu_mainInv
  apply forLoop_preserves MainInv
  · intro i st hst
    unfold MainInv at hst ⊢
    dsimp only
    split_ifs <;> exact hst
  · unfold MainInv
    dsimp only
    refine ⟨?_, ?_, ?_⟩
    · rfl
    · exact le_refl _
    · show (0 : Int) < 2
      decide

theorem reachable_mainInv (c : Consts) (s : FrameBuffer) (h : Reachable c s) : MainInv s := by
  induction h with
  | init props keyTable keyTableSize joyTable joyTableSize frameRate width height =>
    exact initDisplay_mainInv c props keyTable keyTableSize joyTable joyTableSize frameRate
      width height
  | step i s _ ih =>
    cases i with
    | showMenu b => exact ih
    | key k st => exact sendKeyEvent_mainInv c k st s ih
    | joy stick code st => exact sendJoyEvent_mainInv c stick code st s ih
    | update => exact update_mainInv s ih

theorem initDisplay_mainIndex (c : Consts) (props : String → String)
    (keyTable : Nat → EventType) (keyTableSize : Nat)
    (joyTable : Nat → EventType) (joyTableSize : Nat)
    (frameRate : Int) (width height : Nat) :
    (initDisplay c props keyTable keyTableSize joyTable joyTableSize frameRate
      width height FrameBuffer.new).myMainMenuIndex = 0 := by
  have h := initDisplay_mainInv c props keyTable keyTableSize joyTable joyTableSize frameRate
    width height
  unfold initDisplay at h ⊢
  rw [loadRemapMenu_eq] at h ⊢
  dsimp only at h ⊢
  apply forLoop_preserves (fun st : FrameBuffer => st.myMainMenuIndex = 0)
  · intro i st hst
    dsimp only
    split_ifs <;> exact hst
  · rfl

/-- C12 (as amended): show keeps the cursor.  For every prior state showMenu, with
either argument, leaves the main-menu index (and the remap cursor and window) as it
was; the index is 0 at the first showMenu(true) after initDisplay on a newly
constructed FrameBuffer, whose constructor sets it. -/
theorem showMenu_keeps_cursor (c : Consts) (s : FrameBuffer) (b : Bool)
    (props : String → String) (keyTable : Nat → EventType) (keyTableSize : Nat)
    (joyTable : Nat → EventType) (joyTableSize : Nat) (frameRate : Int) (width height : Nat) :
    (showMenu b s).myMainMenuIndex = s.myMainMenuIndex ∧
      (showMenu b s).myRemapMenuIndex = s.myRemapMenuIndex ∧
      (showMenu b s).myRemapMenuLowIndex = s.myRemapMenuLowIndex ∧
      (showMenu b s).myRemapMenuHighIndex = s.myRemapMenuHighIndex ∧
      (showMenu true (initDisplay c props keyTable keyTableSize joyTable joyTableSize
        frameRate width height FrameBuffer.new)).myMainMenuIndex = 0 := by
  have e : ∀ r : FrameBuffer, (showMenu true r).myMainMenuIndex = r.myMainMenuIndex :=
    fun _ => rfl
  refine ⟨rfl, rfl, rfl, rfl, ?_⟩
  rw [e]
  exact initDisplay_mainIndex c props keyTable keyTableSize joyTable joyTableSize
    frameRate width height

/-- C12, counterexample to the claim as stated: on the sample display the menu is
shown, the cursor is moved down to the second entry (index 1) and the menu is hidden;
after showMenu(true) the main-menu index is still 1, not 0. -/
theorem showMenu_does_not_reset_cursor :
    sampleHidden.myCurrentWidget = Widget.W_NONE ∧
      sampleHidden.myMainMenuIndex = 1 ∧
      (showMenu true sampleHidden).myCurrentWidget = Widget.MAIN_MENU ∧
      (showMenu true sampleHidden).myMainMenuIndex = 1 ∧
      (showMenu true sampleHidden).myMainMenuIndex ≠ 0 := by
  have h : (showMenu true sampleHidden).myMainMenuIndex = 1 := by rfl
  refine ⟨by rfl, by rfl, by rfl, h, ?_⟩
  rw [h]
  decide

theorem currentSelectedWidget_flag (s : FrameBuffer) :
    currentSelectedWidget { s with theMenuChangedIndicator := true } = currentSelectedWidget s :=
  rfl

/-- C13: confirm selects the entry under the cursor.  In every reachable state in
MAIN_MENU the main-menu index is 0 or 1, and a Return key-down moves the controller to
the widget of ourMainMenu at that index: REMAP_MENU for index 0, INFO_MENU for index 1,
never W_NONE.  Every key event keeps the index in the range from 0 to 1, and the moves
are clamped: Up at index 0 leaves 0, Down at index 1 leaves 1. -/
theorem confirm_selects_entry (c : Consts) (s : FrameBuffer) (hr : Reachable c s)
    (hw : s.myCurrentWidget = Widget.MAIN_MENU) :
    (s.myMainMenuIndex = 0 ∨ s.myMainMenuIndex = 1) ∧
      (sendKeyEvent c KCODE_RETURN 1 s).myCurrentWidget
        = (ourMainMenu.getD s.myMainMenuIndex.toNat (Widget.W_NONE, "")).1 ∧
      (s.myMainMenuIndex = 0 →
        (sendKeyEvent c KCODE_RETURN 1 s).myCurrentWidget = Widget.REMAP_MENU) ∧
      (s.myMainMenuIndex = 1 →
        (sendKeyEvent c KCODE_RETURN 1 s).myCurrentWidget = Widget.INFO_MENU) ∧
      (sendKeyEvent c KCODE_RETURN 1 s).myCurrentWidget ≠ Widget.W_NONE ∧
      (∀ key state, 0 ≤ (sendKeyEvent c key state s).myMainMenuIndex ∧
        (sendKeyEvent c key state s).myMainMenuIndex < 2) ∧
      (s.myMainMenuIndex = 0 → (sendKeyEvent c KCODE_UP 1 s).myMainMenuIndex = 0) ∧
      (s.myMainMenuIndex = 1 → (sendKeyEvent c KCODE_DOWN 1 s).myMainMenuIndex = 1) := by
  have hinv := reachable_mainInv c s hr
  have hmoves : ∀ key state, 0 ≤ (sendKeyEvent c key state s).myMainMenuIndex ∧
      (sendKeyEvent c key state s).myMainMenuIndex < 2 :=
    fun key state => (sendKeyEvent_mainInv c key state s hinv).2
  obtain ⟨hitems, h0, h2⟩ := hinv
  have hret : (sendKeyEvent c KCODE_RETURN 1 s).myCurrentWidget
      = (ourMainMenu.getD s.myMainMenuIndex.toNat (Widget.W_NONE, "")).1 := by
    rw [sendKeyEvent_main c KCODE_RETURN s hw, if_pos rfl]
    dsimp only
    rw [currentSelectedWidget_flag]
    unfold currentSelectedWidget
    rw [if_pos ⟨h0, by rw [hitems]; exact h2⟩]
  have hcases : s.myMainMenuIndex = 0 ∨ s.myMainMenuIndex = 1 := by omega
  have hzero : s.myMainMenuIndex = 0 →
      (sendKeyEvent c KCODE_RETURN 1 s).myCurrentWidget = Widget.REMAP_MENU := by
    intro h
    rw [hret, h]
    rfl
  have hone : s.myMainMenuIndex = 1 →
      (sendKeyEvent c KCODE_RETURN 1 s).myCurrentWidget = Widget.INFO_MENU := by
    intro h
    rw [hret, h]
    rfl
  refine ⟨hcases, hret, hzero, hone, ?_, hmoves, ?_, ?_⟩
  · rcases hcases with h | h
    · rw [hzero h]
      decide
    · rw [hone h]
      decide
  · intro h
    rw [sendKeyEvent_main c KCODE_UP s hw, if_neg (by decide), if_pos rfl]
    unfold moveCursorUp
    dsimp only
    rw [hw]
    dsimp only
    rw [if_neg (by omega)]
    exact h
  · intro h
    rw [sendKeyEvent_main c KCODE_DOWN s hw, if_neg (by decide), if_neg (by decide), if_pos rfl]
    unfold moveCursorDown
    dsimp only
    rw [hw]
    dsimp only
    have e1 : toInt32 (s.myMainMenuItems - 1) = 1 := by
      rw [hitems]
      rfl
    rw [e1, if_neg (by omega)]
    exact h

theorem sampleDisplay_reachable : Reachable sampleConsts sampleDisplay :=
  Reachable.init (fun _ => "") sampleKeyTable LastKCODE sampleJoyTable 96 60 256 120

/-- C13, witness: the sample display after showMenu(true) is reachable and in MAIN_MENU
with the cursor on the first entry; Return opens the remap menu. -/
theorem confirm_selects_entry_witness :
    (sendKeyEvent sampleConsts KCODE_RETURN 1 (showMenu true sampleDisplay)).myCurrentWidget
        = Widget.REMAP_MENU ∧
      (sendKeyEvent sampleConsts KCODE_RETURN 1 (showMenu true sampleDisplay)).myCurrentWidget
        ≠ Widget.W_NONE :=
  ⟨(confirm_selects_entry sampleConsts (showMenu true sampleDisplay)
      (Reachable.step (Input.showMenu true) sampleDisplay sampleDisplay_reachable) rfl).2.2.1
      (by rfl),
   (confirm_selects_entry sampleConsts (showMenu true sampleDisplay)
      (Reachable.step (Input.showMenu true) sampleDisplay sampleDisplay_reachable)
      rfl).2.2.2.2.1⟩

/-- C14: cancel returns to the main menu.  In REMAP_MENU in Browse phase and in
INFO_MENU an Escape key-down sets the widget to MAIN_MENU and sets the
redraw-entire-frame flag; the binding tables with their sizes, the remap cursor and the
scroll window are unchanged. -/
theorem cancel_returns_to_main_menu (c : Consts) (s : FrameBuffer)
    (h : (s.myCurrentWidget = Widget.REMAP_MENU ∧ s.myRemapEventSelectedFlag = false) ∨
      s.myCurrentWidget = Widget.INFO_MENU) :
    (sendKeyEvent c KCODE_ESCAPE 1 s).myCurrentWidget = Widget.MAIN_MENU ∧
      (sendKeyEvent c KCODE_ESCAPE 1 s).theRedrawEntireFrameIndicator = true ∧
      (sendKeyEvent c KCODE_ESCAPE 1 s).myKeyTable = s.myKeyTable ∧
      (sendKeyEvent c KCODE_ESCAPE 1 s).myKeyTableSize = s.myKeyTableSize ∧
      (sendKeyEvent c KCODE_ESCAPE 1 s).myJoyTable = s.myJoyTable ∧
      (sendKeyEvent c KCODE_ESCAPE 1 s).myJoyTableSize = s.myJoyTableSize ∧
      (sendKeyEvent c KCODE_ESCAPE 1 s).myRemapMenuIndex = s.myRemapMenuIndex ∧
      (sendKeyEvent c KCODE_ESCAPE 1 s).myRemapMenuLowIndex = s.myRemapMenuLowIndex ∧
      (sendKeyEvent c KCODE_ESCAPE 1 s).myRemapMenuHighIndex = s.myRemapMenuHighIndex := by
  have e : sendKeyEvent c KCODE_ESCAPE 1 s
      = { s with
          theMenuChangedIndicator := true
          myCurrentWidget := Widget.MAIN_MENU
          theRedrawEntireFrameIndicator := true } := by
    rcases h with ⟨hw, hf⟩ | hw
    · rw [sendKeyEvent_remap_browse c KCODE_ESCAPE s hw hf, if_neg (by decide),
        if_neg (by decide), if_neg (by decide), if_neg (by decide), if_neg (by decide),
        if_pos rfl]
    · rw [sendKeyEvent_info c KCODE_ESCAPE s hw, if_pos rfl]
  rw [e]
  refine ⟨?_, ?_, ?_, ?_, ?_, ?_, ?_, ?_, ?_⟩ <;> rfl

theorem sampleInfo_state :
    sampleInfo.myCurrentWidget = Widget.INFO_MENU ∧ sampleInfo.myMainMenuIndex = 1 := by
  refine ⟨?_, ?_⟩ <;> rfl

/-- C14, witness: Escape in the sample remap menu (Browse phase) and in the sample
info menu. -/
theorem cancel_returns_to_main_menu_witness :
    (sendKeyEvent sampleConsts KCODE_ESCAPE 1 sampleRemap).myCurrentWidget = Widget.MAIN_MENU ∧
      (sendKeyEvent sampleConsts KCODE_ESCAPE 1 sampleRemap).myKeyTable
        = sampleRemap.myKeyTable ∧
      (sendKeyEvent sampleConsts KCODE_ESCAPE 1 sampleInfo).myCurrentWidget = Widget.MAIN_MENU ∧
      (sendKeyEvent sampleConsts KCODE_ESCAPE 1 sampleInfo).theRedrawEntireFrameIndicator
        = true :=
  ⟨(cancel_returns_to_main_menu sampleConsts sampleRemap
      (Or.inl ⟨sampleRemap_start.1, sampleRemap_browse.1⟩)).1,
   (cancel_returns_to_main_menu sampleConsts sampleRemap
      (Or.inl ⟨sampleRemap_start.1, sampleRemap_browse.1⟩)).2.2.1,
   (cancel_returns_to_main_menu sampleConsts sampleInfo (Or.inr sampleInfo_state.1)).1,
   (cancel_returns_to_main_menu sampleConsts sampleInfo (Or.inr sampleInfo_state.1)).2.1⟩

/-- C15: input while no menu is active is a no-op.  Whenever the widget is W_NONE,
sendKeyEvent and sendJoyEvent return the complete state unchanged, for every key, stick,
code and press or release state; this is the case in particular for every state r after
showMenu(false). -/
theorem input_while_off_is_noop (c : Consts) (s r : FrameBuffer)
    (hw : s.myCurrentWidget = Widget.W_NONE) (key stick code : Nat) (state : Int) :
    sendKeyEvent c key state s = s ∧
      sendJoyEvent c stick code state s = s ∧
      (showMenu false r).myCurrentWidget = Widget.W_NONE ∧
      sendKeyEvent c key state (showMenu false r) = showMenu false r ∧
      sendJoyEvent c stick code state (showMenu false r) = showMenu false r := by
  have hoff : (showMenu false r).myCurrentWidget = Widget.W_NONE := rfl
  exact ⟨sendKeyEvent_off c key state s (Or.inl hw),
    sendJoyEvent_off c stick code state s (Or.inl hw), hoff,
    sendKeyEvent_off c key state _ (Or.inl hoff),
    sendJoyEvent_off c stick code state _ (Or.inl hoff)⟩

theorem sampleHidden_off : sampleHidden.myCurrentWidget = Widget.W_NONE := rfl

/-- C15, witness: on the sample display with the menu hidden a Return key-down and a
joystick button press change nothing. -/
theorem input_while_off_is_noop_witness :
    sendKeyEvent sampleConsts KCODE_RETURN 1 sampleHidden = sampleHidden ∧
      sendJoyEvent sampleConsts 0 4 1 sampleHidden = sampleHidden :=
  ⟨(input_while_off_is_noop sampleConsts sampleHidden sampleDisplay sampleHidden_off
      KCODE_RETURN 0 4 1).1,
   (input_while_off_is_noop sampleConsts sampleHidden sampleDisplay sampleHidden_off
      KCODE_RETURN 0 4 1).2.1⟩

/-! ## The redraw policy -/

theorem sampleRemap_flags :
    sampleRemap.myMenuMode = true ∧ sampleRemap.theMenuChangedIndicator = true ∧
      (update sampleRemap).1.myMenuMode = true ∧
      (update sampleRemap).1.theMenuChangedIndicator = false ∧
      (update sampleRemap).1.theRedrawEntireFrameIndicator = false := by
  refine ⟨?_, ?_, ?_, ?_, ?_⟩ <;> rfl

/-! ## The dialog stack -/

theorem handleKeyEvent_top (g : GuiConsts) (ascii key mod : Int) (state : Nat)
    (s : DialogContainer) (top : Dialog) (rest : List Dialog)
    (hs : s.myDialogStack = top :: rest) :
    DeliversOneTo top s (handleKeyEvent g ascii key mod state s) := by
  unfold handleKeyEvent DeliversOneTo
  have he : s.myDialogStack.isEmpty = false := by rw [hs]; rfl
  have ht : stackTop s.myDialogStack = some top := by rw [hs]; rfl
  simp only [he, ht, Bool.false_eq_true, if_false, Option.bind_eq_bind, Option.some_bind,
    Option.pure_def]
  split_ifs <;> exact ⟨_, _, rfl, rfl, rfl, rfl⟩

theorem handleMouseMotionEvent_top (x y button : Int)
    (s : DialogContainer) (top : Dialog) (rest : List Dialog)
    (hs : s.myDialogStack = top :: rest) :
    DeliversOneTo top s (handleMouseMotionEvent x y button s) := by
  unfold handleMouseMotionEvent DeliversOneTo
  have he : s.myDialogStack.isEmpty = false := by rw [hs]; rfl
  have ht : stackTop s.myDialogStack = some top := by rw [hs]; rfl
  simp only [he, ht, Bool.false_eq_true, if_false, Option.bind_eq_bind, Option.some_bind,
    Option.pure_def]
  exact ⟨_, _, rfl, rfl, rfl, rfl⟩

theorem handleMouseButtonEvent_top (g : GuiConsts) (b : MouseButton) (x y : Int) (state : Nat)
    (s : DialogContainer) (top : Dialog) (rest : List Dialog)
    (hs : s.myDialogStack = top :: rest) :
    DeliversOneTo top s (handleMouseButtonEvent g b x y state s) := by
  unfold handleMouseButtonEvent DeliversOneTo
  have he : s.myDialogStack.isEmpty = false := by rw [hs]; rfl
  have ht : stackTop s.myDialogStack = some top := by rw [hs]; rfl
  simp only [he, ht, Bool.false_eq_true, if_false, Option.bind_eq_bind, Option.some_bind,
    Option.pure_def]
  split_ifs <;> exact ⟨_, _, rfl, rfl, rfl, rfl⟩

theorem handleJoyEvent_top (g : GuiConsts) (stick button : Int) (state : Nat)
    (s : DialogContainer) (top : Dialog) (rest : List Dialog)
    (hs : s.myDialogStack = top :: rest) :
    DeliversOneTo top s (handleJoyEvent g stick button state s) := by
  unfold handleJoyEvent DeliversOneTo
  have he : s.myDialogStack.isEmpty = false := by rw [hs]; rfl
  have ht : stackTop s.myDialogStack = some top := by rw [hs]; rfl
  simp only [he, ht, Bool.false_eq_true, if_false, Option.bind_eq_bind, Option.some_bind,
    Option.pure_def]
  split_ifs <;> exact ⟨_, _, rfl, rfl, rfl, rfl⟩

theorem handleJoyAxisEvent_top (g : GuiConsts) (deadzone stick axis value : Int)
    (s : DialogContainer) (top : Dialog) (rest : List Dialog)
    (hs : s.myDialogStack = top :: rest) :
    DeliversOneTo top s (handleJoyAxisEvent g deadzone stick axis value s) := by
  unfold handleJoyAxisEvent DeliversOneTo
  have he : s.myDialogStack.isEmpty = false := by rw [hs]; rfl
  have ht : stackTop s.myDialogStack = some top := by rw [hs]; rfl
  simp only [he, ht, Bool.false_eq_true, if_false, Option.bind_eq_bind, Option.some_bind,
    Option.pure_def]
  split_ifs <;> exact ⟨_, _, rfl, rfl, rfl, rfl⟩

theorem handleJoyHatEvent_top (stick hat value : Int)
    (s : DialogContainer) (top : Dialog) (rest : List Dialog)
    (hs : s.myDialogStack = top :: rest) :
    DeliversOneTo top s (handleJoyHatEvent stick hat value s) := by
  unfold handleJoyHatEvent DeliversOneTo
  have he : s.myDialogStack.isEmpty = false := by rw [hs]; rfl
  have ht : stackTop s.myDialogStack = some top := by rw [hs]; rfl
  simp only [he, ht, Bool.false_eq_true, if_false, Option.bind_eq_bind, Option.some_bind,
    Option.pure_def]
  exact ⟨_, _, rfl, rfl, rfl, rfl⟩

theorem deliversOneTo_newCalls (top : Dialog) (s s1 : DialogContainer)
    (r : Option DialogContainer) (h : DeliversOneTo top s r) (hr : r = some s1) :
    ∀ call ∈ newCalls s s1, call.receiver = some top.id := by
  obtain ⟨s2, call2, h1, h2, h3, _⟩ := h
  rw [hr] at h1
  have e : s1 = s2 := Option.some.inj h1
  subst e
  unfold newCalls
  rw [h2, List.drop_left]
  intro call hcall
  rw [List.mem_singleton.mp hcall]
  exact h3

theorem addDialog_stack (d : Dialog) (s : DialogContainer) :
    (addDialog d s).myDialogStack = d :: s.myDialogStack := rfl

theorem removeDialog_cons (s : DialogContainer) (top : Dialog) (rest : List Dialog)
    (hs : s.myDialogStack = top :: rest) :
    removeDialog s = { s with myDialogStack := rest, calls := s.calls ++ [Call.refresh] } := by
  unfold removeDialog
  rw [if_pos (by rw [hs]; simp)]
  rw [hs]
  rfl

theorem removeDialog_nil (s : DialogContainer) (hs : s.myDialogStack = []) :
    removeDialog s = s := by
  unfold removeDialog
  rw [if_neg (by rw [hs]; simp)]

/-- C18 (as amended): removeDialog() on an empty stack is a no-op that leaves the whole
state unchanged; on a stack with one or more frames it removes exactly the top frame and
requests a refresh, so on a stack that holds only the base frame it leaves the stack
empty. -/
theorem removeDialog_pops_any_top (s : DialogContainer) :
    (s.myDialogStack = [] → removeDialog s = s) ∧
      (∀ top rest, s.myDialogStack = top :: rest →
        (removeDialog s).myDialogStack = rest ∧
        (removeDialog s).calls = s.calls ++ [Call.refresh]) ∧
      (∀ base, s.myDialogStack = [base] → (removeDialog s).myDialogStack = []) := by
  refine ⟨removeDialog_nil s, ?_, ?_⟩
  · intro top rest hs
    rw [removeDialog_cons s top rest hs]
    exact ⟨rfl, rfl⟩
  · intro base hs
    rw [removeDialog_cons s base [] hs]

theorem sampleBaseOnly_stack :
    sampleBaseOnly.myDialogStack = [sampleBase] ∧ sampleContainer.myDialogStack = [] := by
  refine ⟨?_, ?_⟩ <;> rfl

/-- C18, witness of the amended statement: the sample container with only its base
dialog, and the empty sample container. -/
theorem removeDialog_pops_any_top_witness :
    (removeDialog sampleBaseOnly).myDialogStack = [] ∧
      removeDialog sampleContainer = sampleContainer :=
  ⟨(removeDialog_pops_any_top sampleBaseOnly).2.2 sampleBase sampleBaseOnly_stack.1,
   (removeDialog_pops_any_top sampleContainer).1 sampleBaseOnly_stack.2⟩

/-- C18, counterexample to the claim as stated: the sample container holds only its
base dialog (identity 0) after reStack; removeDialog() removes it and leaves the stack
empty, so it is not a no-op on a stack that holds only the base frame. -/
theorem removeDialog_removes_base_frame :
    sampleBaseOnly.myDialogStack.map (fun d => d.id) = [sampleBaseOnly.myBaseDialog.id] ∧
      (removeDialog sampleBaseOnly).myDialogStack.map (fun d => d.id) = [] ∧
      (removeDialog sampleBaseOnly).myDialogStack ≠ sampleBaseOnly.myDialogStack := by
  refine ⟨by rfl, by rfl, ?_⟩
  intro h
  have h1 := congrArg List.length h
  have h2 : (removeDialog sampleBaseOnly).myDialogStack.length = 0 := by rfl
  have h3 : sampleBaseOnly.myDialogStack.length = 1 := by rfl
  rw [h2, h3] at h1
  exact absurd h1 (by decide)

theorem popAll_eq_nil (l : List Dialog) : popAll l = [] := by
  induction l with
  | nil => rfl
  | cons d rest ih => exact ih

theorem reStack_stack (s : DialogContainer) :
    (reStack s).myDialogStack = [s.myBaseDialog] := by
  unfold reStack addDialog DialogContainer.reset
  dsimp only
  rw [popAll_eq_nil]

/-- C19: after reStack(), from every prior state, the dialog stack consists of exactly
the base frame; no key, mouse button, joystick button or joystick axis is held (keycode
0, the others -1), so the next updateTime, at any time, makes no call and only sets the
time; and the click-gesture state is cleared (count 0, last point (0,0), last time 0). -/
theorem reStack_resets_to_base (g : GuiConsts) (s : DialogContainer) (time : Nat) :
    (reStack s).myDialogStack = [s.myBaseDialog] ∧
      (reStack s).myCurrentKeyDown.keycode = 0 ∧
      (reStack s).myCurrentMouseDown.button = -1 ∧
      (reStack s).myCurrentButtonDown.stick = -1 ∧
      (reStack s).myCurrentAxisDown.stick = -1 ∧
      (reStack s).myLastClick = { x := 0, y := 0, time := 0, count := 0 } ∧
      updateTime g time (reStack s)
        = some { reStack s with myTime := toInt32 ((time / 1000 : Nat) : Int) } ∧
      (∀ s1, updateTime g time (reStack s) = some s1 → newCalls (reStack s) s1 = []) := by
  have hstack := reStack_stack s
  have hk : (reStack s).myCurrentKeyDown.keycode = 0 := rfl
  have hm : (reStack s).myCurrentMouseDown.button = -1 := rfl
  have hb : (reStack s).myCurrentButtonDown.stick = -1 := rfl
  have ha : (reStack s).myCurrentAxisDown.stick = -1 := rfl
  have hu : updateTime g time (reStack s)
      = some { reStack s with myTime := toInt32 ((time / 1000 : Nat) : Int) } := by
    unfold updateTime
    generalize reStack s = r at *
    dsimp only
    have he : r.myDialogStack.isEmpty = false := by rw [hstack]; rfl
    have ht : stackTop r.myDialogStack = some s.myBaseDialog := by rw [hstack]; rfl
    simp only [he, ht, hk, hm, hb, ha, Bool.false_eq_true, if_false, Option.bind_eq_bind,
      Option.some_bind, Option.pure_def, ne_eq, not_true_eq_false, false_and]
  refine ⟨hstack, hk, hm, hb, ha, rfl, hu, ?_⟩
  intro s1 h1
  rw [hu] at h1
  have e := Option.some.inj h1
  rw [← e]
  unfold newCalls
  simp

/-- C19, witness: reStack on the sample container, followed by a tick at 5 seconds. -/
theorem reStack_resets_to_base_witness :
    (reStack sampleContainer).myDialogStack = [sampleContainer.myBaseDialog] ∧
      newCalls (reStack sampleContainer)
        { reStack sampleContainer with myTime := toInt32 ((5000000 / 1000 : Nat) : Int) } = [] :=
  ⟨(reStack_resets_to_base sampleGui sampleContainer 5000000).1,
   (reStack_resets_to_base sampleGui sampleContainer 5000000).2.2.2.2.2.2.2 _
     (reStack_resets_to_base sampleGui sampleContainer 5000000).2.2.2.2.2.2.1⟩

theorem dispatch_isSome (g : GuiConsts) (r : DialogContainer)
    (ascii key mod x y button stick axis hat value deadzone : Int) (state time : Nat)
    (b : MouseButton) (full : Bool) :
    (handleKeyEvent g ascii key mod state r).isSome = true ∧
      (handleMouseMotionEvent x y button r).isSome = true ∧
      (handleMouseButtonEvent g b x y state r).isSome = true ∧
      (handleJoyEvent g stick button state r).isSome = true ∧
      (handleJoyAxisEvent g deadzone stick axis value r).isSome = true ∧
      (handleJoyHatEvent stick hat value r).isSome = true ∧
      (updateTime g time r).isSome = true ∧
      (DialogContainer.draw full r).isSome = true := by
  cases hs : r.myDialogStack with
  | nil =>
    have he : r.myDialogStack.isEmpty = true := by rw [hs]; rfl
    refine ⟨?_, ?_, ?_, ?_, ?_, ?_, ?_, ?_⟩
    · unfold handleKeyEvent; rw [if_pos he]; rfl
    · unfold handleMouseMotionEvent; rw [if_pos he]; rfl
    · unfold handleMouseButtonEvent; rw [if_pos he]; rfl
    · unfold handleJoyEvent; rw [if_pos he]; rfl
    · unfold handleJoyAxisEvent; rw [if_pos he]; rfl
    · unfold handleJoyHatEvent; rw [if_pos he]; rfl
    · unfold updateTime; dsimp only; rw [if_pos he]; rfl
    · unfold DialogContainer.draw
      split_ifs <;> rfl
  | cons top rest =>
    have hsome : ∀ (o : Option DialogContainer), DeliversOneTo top r o → o.isSome = true := by
      intro o ho
      obtain ⟨s1, _, h1, _⟩ := ho
      rw [h1]
      rfl
    have he : r.myDialogStack.isEmpty = false := by rw [hs]; rfl
    have ht : stackTop r.myDialogStack = some top := by rw [hs]; rfl
    refine ⟨hsome _ (handleKeyEvent_top g ascii key mod state r top rest hs),
      hsome _ (handleMouseMotionEvent_top x y button r top rest hs),
      hsome _ (handleMouseButtonEvent_top g b x y state r top rest hs),
      hsome _ (handleJoyEvent_top g stick button state r top rest hs),
      hsome _ (handleJoyAxisEvent_top g deadzone stick axis value r top rest hs),
      hsome _ (handleJoyHatEvent_top stick hat value r top rest hs), ?_, ?_⟩
    · unfold updateTime
      dsimp only
      simp only [he, ht, Bool.false_eq_true, if_false, Option.bind_eq_bind, Option.some_bind,
        Option.pure_def, Option.isSome_some]
    · unfold DialogContainer.draw
      simp only [he, ht, Bool.false_eq_true, not_false_eq_true, if_true, Option.bind_eq_bind,
        Option.some_bind, Option.pure_def]
      split_ifs <;> rfl

/-- C20: empty-stack dispatch is a no-op.  When the dialog stack is empty,
handleKeyEvent, handleMouseMotionEvent, handleMouseButtonEvent, handleJoyEvent,
handleJoyAxisEvent and handleJoyHatEvent return the whole state unchanged (no call made;
hold, repeat-timer and click-gesture members as before), and updateTime only sets the
time and makes no call.  In every state r, with the stack empty or not, each operation
that uses the top of the stack returns a state: none reads the top of an empty stack. -/
theorem empty_stack_dispatch_is_noop (g : GuiConsts) (s r : DialogContainer)
    (hs : s.myDialogStack = [])
    (ascii key mod x y button stick axis hat value deadzone : Int) (state time : Nat)
    (b : MouseButton) (full : Bool) :
    handleKeyEvent g ascii key mod state s = some s ∧
      handleMouseMotionEvent x y button s = some s ∧
      handleMouseButtonEvent g b x y state s = some s ∧
      handleJoyEvent g stick button state s = some s ∧
      handleJoyAxisEvent g deadzone stick axis value s = some s ∧
      handleJoyHatEvent stick hat value s = some s ∧
      updateTime g time s = some { s with myTime := toInt32 ((time / 1000 : Nat) : Int) } ∧
      (∀ s1, updateTime g time s = some s1 → newCalls s s1 = []) ∧
      ((handleKeyEvent g ascii key mod state r).isSome = true ∧
        (handleMouseMotionEvent x y button r).isSome = true ∧
        (handleMouseButtonEvent g b x y state r).isSome = true ∧
        (handleJoyEvent g stick button state r).isSome = true ∧
        (handleJoyAxisEvent g deadzone stick axis value r).isSome = true ∧
        (handleJoyHatEvent stick hat value r).isSome = true ∧
        (updateTime g time r).isSome = true ∧
        (DialogContainer.draw full r).isSome = true) := by
  have he : s.myDialogStack.isEmpty = true := by rw [hs]; rfl
  have hu : updateTime g time s
      = some { s with myTime := toInt32 ((time / 1000 : Nat) : Int) } := by
    unfold updateTime
    dsimp only
    rw [if_pos he]
  refine ⟨?_, ?_, ?_, ?_, ?_, ?_, hu, ?_,
    dispatch_isSome g r ascii key mod x y button stick axis hat value deadzone state time b full⟩
  · unfold handleKeyEvent; rw [if_pos he]
  · unfold handleMouseMotionEvent; rw [if_pos he]
  · unfold handleMouseButtonEvent; rw [if_pos he]
  · unfold handleJoyEvent; rw [if_pos he]
  · unfold handleJoyAxisEvent; rw [if_pos he]
  · unfold handleJoyHatEvent; rw [if_pos he]
  · intro s1 h1
    rw [hu] at h1
    rw [← Option.some.inj h1]
    unfold newCalls
    simp

/-- C20, witness: the sample container as constructed has an empty stack; a key-down
and a left button press leave it unchanged. -/
theorem empty_stack_dispatch_is_noop_witness :
    handleKeyEvent sampleGui 97 97 0 1 sampleContainer = some sampleContainer ∧
      handleMouseButtonEvent sampleGui MouseButton.EVENT_LBUTTONDOWN 5 5 1 sampleContainer
        = some sampleContainer :=
  ⟨(empty_stack_dispatch_is_noop sampleGui sampleContainer sampleBaseOnly
      sampleBaseOnly_stack.2 97 97 0 5 5 1 0 0 0 0 0 1 0
      MouseButton.EVENT_LBUTTONDOWN true).1,
   (empty_stack_dispatch_is_noop sampleGui sampleContainer sampleBaseOnly
      sampleBaseOnly_stack.2 97 97 0 5 5 1 0 0 0 0 0 1 0
      MouseButton.EVENT_LBUTTONDOWN true).2.2.1⟩

/-! ## Held inputs and auto-repeat -/

theorem newCalls_of_append (s r : DialogContainer) (e : List Call)
    (h : r.calls = s.calls ++ e) : newCalls s r = e := by
  unfold newCalls
  rw [h, List.drop_left]

theorem updateTime_nil (g : GuiConsts) (time : Nat) (s : DialogContainer)
    (hs : s.myDialogStack = []) :
    updateTime g time s = some { s with myTime := toInt32 ((time / 1000 : Nat) : Int) } := by
  have he : s.myDialogStack.isEmpty = true := by rw [hs]; rfl
  unfold updateTime
  dsimp only
  rw [if_pos he]

theorem updateTime_cons (g : GuiConsts) (time : Nat) (s : DialogContainer) (top : Dialog)
    (rest : List Dialog) (hs : s.myDialogStack = top :: rest) :
    updateTime g time s = some (repeatAxis g top (repeatButton g top (repeatMouse g top
      (repeatKey g top { s with myTime := toInt32 ((time / 1000 : Nat) : Int) })))) := by
  have he : s.myDialogStack.isEmpty = false := by rw [hs]; rfl
  have ht : stackTop s.myDialogStack = some top := by rw [hs]; rfl
  unfold updateTime
  simp only [he, ht, Bool.false_eq_true, if_false, Option.bind_eq_bind, Option.some_bind,
    Option.pure_def]
  rfl

theorem repeatKey_spec (g : GuiConsts) (d : Dialog) (s : DialogContainer) :
    ∃ (e : List Call) (v : Int),
      repeatKey g d s = { s with calls := s.calls ++ e, myKeyRepeatTime := v } ∧
      (if s.myCurrentKeyDown.keycode ≠ 0 ∧ s.myKeyRepeatTime < s.myTime then
        e = [Call.handleKeyDown d.id s.myCurrentKeyDown.ascii s.myCurrentKeyDown.keycode
          s.myCurrentKeyDown.flags] ∧ v = toInt32 (s.myTime + g.kRepeatSustainDelay)
      else e = [] ∧ v = s.myKeyRepeatTime) := by
  unfold repeatKey
  split_ifs
  · exact ⟨_, _, rfl, rfl, rfl⟩
  · refine ⟨[], s.myKeyRepeatTime, ?_, rfl, rfl⟩
    cases s
    simp only [List.append_nil]

theorem repeatMouse_spec (g : GuiConsts) (d : Dialog) (s : DialogContainer) :
    ∃ (e : List Call) (v : Int),
      repeatMouse g d s = { s with calls := s.calls ++ e, myClickRepeatTime := v } ∧
      (if s.myCurrentMouseDown.button ≠ -1 ∧ s.myClickRepeatTime < s.myTime then
        e = [Call.handleMouseDown d.id (toInt32 (s.myCurrentMouseDown.x - d._x))
          (toInt32 (s.myCurrentMouseDown.y - d._y)) s.myCurrentMouseDown.button 1] ∧
        v = toInt32 (s.myTime + g.kRepeatSustainDelay)
      else e = [] ∧ v = s.myClickRepeatTime) := by
  unfold repeatMouse
  split_ifs
  · exact ⟨_, _, rfl, rfl, rfl⟩
  · refine ⟨[], s.myClickRepeatTime, ?_, rfl, rfl⟩
    cases s
    simp only [List.append_nil]

theorem repeatButton_spec (g : GuiConsts) (d : Dialog) (s : DialogContainer) :
    ∃ (e : List Call) (v : Int),
      repeatButton g d s = { s with calls := s.calls ++ e, myButtonRepeatTime := v } ∧
      (if s.myCurrentButtonDown.stick ≠ -1 ∧ s.myButtonRepeatTime < s.myTime then
        e = [Call.handleJoyDown d.id s.myCurrentButtonDown.stick s.myCurrentButtonDown.button] ∧
        v = toInt32 (s.myTime + g.kRepeatSustainDelay)
      else e = [] ∧ v = s.myButtonRepeatTime) := by
  unfold repeatButton
  split_ifs
  · exact ⟨_, _, rfl, rfl, rfl⟩
  · refine ⟨[], s.myButtonRepeatTime, ?_, rfl, rfl⟩
    cases s
    simp only [List.append_nil]

theorem repeatAxis_spec (g : GuiConsts) (d : Dialog) (s : DialogContainer) :
    ∃ (e : List Call) (v : Int),
      repeatAxis g d s = { s with calls := s.calls ++ e, myAxisRepeatTime := v } ∧
      (if s.myCurrentAxisDown.stick ≠ -1 ∧ s.myAxisRepeatTime < s.myTime then
        e = [Call.handleJoyAxis d.id s.myCurrentAxisDown.stick s.myCurrentAxisDown.axis
          s.myCurrentAxisDown.value] ∧ v = toInt32 (s.myTime + g.kRepeatSustainDelay)
      else e = [] ∧ v = s.myAxisRepeatTime) := by
  unfold repeatAxis
  split_ifs
  · exact ⟨_, _, rfl, rfl, rfl⟩
  · refine ⟨[], s.myAxisRepeatTime, ?_, rfl, rfl⟩
    cases s
    simp only [List.append_nil]

/-- What a tick does on a stack with `top` above `rest`: it stores the time, and for each
of the four device classes, when an input is held and its repeat time lies before the new
time, it makes one call on `top` and reschedules the repeat. -/
theorem updateTime_cons_eq (g : GuiConsts) (time : Nat) (s : DialogContainer) (top : Dialog)
    (rest : List Dialog) (hs : s.myDialogStack = top :: rest) :
    ∃ (e1 e2 e3 e4 : List Call) (v1 v2 v3 v4 : Int),
      updateTime g time s = some { s with
        myTime := toInt32 ((time / 1000 : Nat) : Int)
        myKeyRepeatTime := v1
        myClickRepeatTime := v2
        myButtonRepeatTime := v3
        myAxisRepeatTime := v4
        calls := s.calls ++ (e1 ++ (e2 ++ (e3 ++ e4))) } ∧
      (if s.myCurrentKeyDown.keycode ≠ 0
          ∧ s.myKeyRepeatTime < toInt32 ((time / 1000 : Nat) : Int) then
        e1 = [Call.handleKeyDown top.id s.myCurrentKeyDown.ascii s.myCurrentKeyDown.keycode
          s.myCurrentKeyDown.flags] ∧
        v1 = toInt32 (toInt32 ((time / 1000 : Nat) : Int) + g.kRepeatSustainDelay)
      else e1 = [] ∧ v1 = s.myKeyRepeatTime) ∧
      (if s.myCurrentMouseDown.button ≠ -1
          ∧ s.myClickRepeatTime < toInt32 ((time / 1000 : Nat) : Int) then
        e2 = [Call.handleMouseDown top.id (toInt32 (s.myCurrentMouseDown.x - top._x))
          (toInt32 (s.myCurrentMouseDown.y - top._y)) s.myCurrentMouseDown.button 1] ∧
        v2 = toInt32 (toInt32 ((time / 1000 : Nat) : Int) + g.kRepeatSustainDelay)
      else e2 = [] ∧ v2 = s.myClickRepeatTime) ∧
      (if s.myCurrentButtonDown.stick ≠ -1
          ∧ s.myButtonRepeatTime < toInt32 ((time / 1000 : Nat) : Int) then
        e3 = [Call.handleJoyDown top.id s.myCurrentButtonDown.stick
          s.myCurrentButtonDown.button] ∧
        v3 = toInt32 (toInt32 ((time / 1000 : Nat) : Int) + g.kRepeatSustainDelay)
      else e3 = [] ∧ v3 = s.myButtonRepeatTime) ∧
      (if s.myCurrentAxisDown.stick ≠ -1
          ∧ s.myAxisRepeatTime < toInt32 ((time / 1000 : Nat) : Int) then
        e4 = [Call.handleJoyAxis top.id s.myCurrentAxisDown.stick s.myCurrentAxisDown.axis
          s.myCurrentAxisDown.value] ∧
        v4 = toInt32 (toInt32 ((time / 1000 : Nat) : Int) + g.kRepeatSustainDelay)
      else e4 = [] ∧ v4 = s.myAxisRepeatTime) := by
  rw [updateTime_cons g time s top rest hs]
  generalize toInt32 ((time / 1000 : Nat) : Int) = T
  obtain ⟨e1, v1, h1, p1⟩ := repeatKey_spec g top { s with myTime := T }
  dsimp only at h1 p1
  rw [h1]
  obtain ⟨e2, v2, h2, p2⟩ := repeatMouse_spec g top
    { s with myTime := T, calls := s.calls ++ e1, myKeyRepeatTime := v1 }
  dsimp only at h2 p2
  rw [h2]
  obtain ⟨e3, v3, h3, p3⟩ := repeatButton_spec g top
    { s with
      myTime := T, calls := s.calls ++ e1 ++ e2, myKeyRepeatTime := v1, myClickRepeatTime := v2 }
  dsimp only at h3 p3
  rw [h3]
  obtain ⟨e4, v4, h4, p4⟩ := repeatAxis_spec g top
    { s with
      myTime := T, calls := s.calls ++ e1 ++ e2 ++ e3, myKeyRepeatTime := v1
      myClickRepeatTime := v2, myButtonRepeatTime := v3 }
  dsimp only at h4 p4
  rw [h4]
  refine ⟨e1, e2, e3, e4, v1, v2, v3, v4, ?_, p1, p2, p3, p4⟩
  simp only [List.append_assoc]


/-- The sample container at 2 seconds is what the tick `updateTime(2000000)` makes of the
sample container with its base dialog. -/
theorem sampleAtTwo_reached : updateTime sampleGui 2000000 sampleBaseOnly = some sampleAtTwo := by
  rfl

theorem handleKeyEvent_down (g : GuiConsts) (ascii key mod : Int)
    (s : DialogContainer) (top : Dialog) (rest : List Dialog)
    (hs : s.myDialogStack = top :: rest) :
    handleKeyEvent g ascii key mod 1 s = some { s with
      myCurrentKeyDown := { ascii := ascii, keycode := key, flags := mod }
      myKeyRepeatTime := toInt32 (s.myTime + g.kRepeatInitialDelay)
      calls := s.calls ++ [Call.handleKeyDown top.id ascii key mod] } := by
  unfold handleKeyEvent
  have he : s.myDialogStack.isEmpty = false := by rw [hs]; rfl
  have ht : stackTop s.myDialogStack = some top := by rw [hs]; rfl
  simp only [he, ht, Bool.false_eq_true, if_false, Option.bind_eq_bind, Option.some_bind,
    Option.pure_def, if_true]

/-- A method call that is neither a key event nor `reStack()` leaves the key hold and its
repeat time as they are and delivers no key-down, unless it is a tick past the repeat
time of a held key. -/
theorem applyOp_keeps_key_hold (g : GuiConsts) (op : Op) (s : DialogContainer)
    (hop : op.leavesKeyHold = true)
    (htick : ∀ time, op = Op.updateTime time →
      ¬ (s.myCurrentKeyDown.keycode ≠ 0
        ∧ s.myKeyRepeatTime < toInt32 ((time / 1000 : Nat) : Int))) :
    ∃ r e, applyOp g op s = some r ∧ r.myCurrentKeyDown = s.myCurrentKeyDown ∧
      r.myKeyRepeatTime = s.myKeyRepeatTime ∧ r.calls = s.calls ++ e ∧
      keyDownCalls e = [] := by
  cases hs : s.myDialogStack with
  | nil =>
    have he : s.myDialogStack.isEmpty = true := by rw [hs]; rfl
    cases op with
    | updateTime time =>
      refine ⟨_, [], updateTime_nil g time s hs, rfl, rfl, (List.append_nil _).symm, rfl⟩
    | draw full =>
      cases full with
      | true => exact ⟨_, _, rfl, rfl, rfl, rfl, by rw [hs]; rfl⟩
      | false =>
        refine ⟨s, [], ?_, rfl, rfl, (List.append_nil _).symm, rfl⟩
        simp only [applyOp, DialogContainer.draw, he, Bool.false_eq_true, if_false,
          not_true_eq_false]
    | addDialog d => exact ⟨_, _, rfl, rfl, rfl, rfl, rfl⟩
    | removeDialog =>
      refine ⟨s, [], ?_, rfl, rfl, (List.append_nil _).symm, rfl⟩
      simp only [applyOp, removeDialog_nil s hs]
    | reStack => exact absurd hop (by decide)
    | handleKeyEvent ascii key mod state => simp [Op.leavesKeyHold] at hop
    | handleMouseMotionEvent x y button =>
      refine ⟨s, [], ?_, rfl, rfl, (List.append_nil _).symm, rfl⟩
      simp only [applyOp, handleMouseMotionEvent, he, if_true]
    | handleMouseButtonEvent b x y state =>
      refine ⟨s, [], ?_, rfl, rfl, (List.append_nil _).symm, rfl⟩
      simp only [applyOp, handleMouseButtonEvent, he, if_true]
    | handleJoyEvent stick button state =>
      refine ⟨s, [], ?_, rfl, rfl, (List.append_nil _).symm, rfl⟩
      simp only [applyOp, handleJoyEvent, he, if_true]
    | handleJoyAxisEvent deadzone stick axis value =>
      refine ⟨s, [], ?_, rfl, rfl, (List.append_nil _).symm, rfl⟩
      simp only [applyOp, handleJoyAxisEvent, he, if_true]
    | handleJoyHatEvent stick hat value =>
      refine ⟨s, [], ?_, rfl, rfl, (List.append_nil _).symm, rfl⟩
      simp only [applyOp, handleJoyHatEvent, he, if_true]
    | handleResizeEvent => exact ⟨_, _, rfl, rfl, rfl, rfl, rfl⟩
  | cons top rest =>
    have he : s.myDialogStack.isEmpty = false := by rw [hs]; rfl
    have ht : stackTop s.myDialogStack = some top := by rw [hs]; rfl
    cases op with
    | updateTime time =>
      obtain ⟨e1, e2, e3, e4, v1, v2, v3, v4, hu, p1, p2, p3, p4⟩ :=
        updateTime_cons_eq g time s top rest hs
      rw [if_neg (htick time rfl)] at p1
      refine ⟨_, _, hu, rfl, p1.2, rfl, ?_⟩
      rw [p1.1]
      unfold keyDownCalls
      simp only [List.nil_append, List.filter_append]
      have q2 : e2.filter Call.isKeyDown = [] := by
        split_ifs at p2 <;> rw [p2.1] <;> rfl
      have q3 : e3.filter Call.isKeyDown = [] := by
        split_ifs at p3 <;> rw [p3.1] <;> rfl
      have q4 : e4.filter Call.isKeyDown = [] := by
        split_ifs at p4 <;> rw [p4.1] <;> rfl
      rw [q2, q3, q4]
      rfl
    | draw full =>
      cases full with
      | true =>
        refine ⟨_, _, rfl, rfl, rfl, rfl, ?_⟩
        unfold keyDownCalls
        generalize s.myDialogStack.reverse = l
        induction l with
        | nil => rfl
        | cons d l ih => exact ih
      | false =>
        refine ⟨{ s with calls := s.calls ++ [Call.drawDialog top.id] }, _, ?_, rfl, rfl, rfl, rfl⟩
        simp only [applyOp, DialogContainer.draw, he, ht, Bool.false_eq_true, if_false,
          not_false_eq_true, if_true, Option.bind_eq_bind, Option.some_bind, Option.pure_def]
    | addDialog d => exact ⟨_, _, rfl, rfl, rfl, rfl, rfl⟩
    | removeDialog =>
      refine ⟨{ s with myDialogStack := rest, calls := s.calls ++ [Call.refresh] },
        [Call.refresh], ?_, rfl, rfl, rfl, rfl⟩
      simp only [applyOp, removeDialog_cons s top rest hs]
    | reStack => exact absurd hop (by decide)
    | handleKeyEvent ascii key mod state => simp [Op.leavesKeyHold] at hop
    | handleMouseMotionEvent x y button =>
      simp only [applyOp, handleMouseMotionEvent, he, ht, Bool.false_eq_true, if_false,
        Option.bind_eq_bind, Option.some_bind, Option.pure_def]
      exact ⟨_, _, rfl, rfl, rfl, rfl, rfl⟩
    | handleMouseButtonEvent b x y state =>
      simp only [applyOp, handleMouseButtonEvent, he, ht, Bool.false_eq_true, if_false,
        Option.bind_eq_bind, Option.some_bind, Option.pure_def]
      split_ifs <;> exact ⟨_, _, rfl, rfl, rfl, rfl, rfl⟩
    | handleJoyEvent stick button state =>
      simp only [applyOp, handleJoyEvent, he, ht, Bool.false_eq_true, if_false,
        Option.bind_eq_bind, Option.some_bind, Option.pure_def]
      split_ifs <;> exact ⟨_, _, rfl, rfl, rfl, rfl, rfl⟩
    | handleJoyAxisEvent deadzone stick axis value =>
      simp only [applyOp, handleJoyAxisEvent, he, ht, Bool.false_eq_true, if_false,
        Option.bind_eq_bind, Option.some_bind, Option.pure_def]
      split_ifs <;> exact ⟨_, _, rfl, rfl, rfl, rfl, rfl⟩
    | handleJoyHatEvent stick hat value =>
      simp only [applyOp, handleJoyHatEvent, he, ht, Bool.false_eq_true, if_false,
        Option.bind_eq_bind, Option.some_bind, Option.pure_def]
      exact ⟨_, _, rfl, rfl, rfl, rfl, rfl⟩
    | handleResizeEvent => exact ⟨_, _, rfl, rfl, rfl, rfl, rfl⟩


theorem tickTime_toInt32 (time : Nat) (h : time < 4294967296) :
    toInt32 ((time / 1000 : Nat) : Int) = tickTime time := by
  unfold tickTime
  apply toInt32_of_bounds <;> omega

theorem runOps_keeps_key_hold (g : GuiConsts) (ops : List Op) :
    ∀ (s : DialogContainer) (K : KeyDown) (R : Int),
      s.myCurrentKeyDown = K → s.myKeyRepeatTime = R →
      (∀ op ∈ ops, op.leavesKeyHold = true ∧ ∀ time, op = Op.updateTime time →
        ¬ (K.keycode ≠ 0 ∧ R < toInt32 ((time / 1000 : Nat) : Int))) →
      ∃ r e, runOps g ops s = some r ∧ r.myCurrentKeyDown = K ∧ r.myKeyRepeatTime = R ∧
        r.calls = s.calls ++ e ∧ keyDownCalls e = [] := by
  induction ops with
  | nil =>
    intro s K R hK hR _
    exact ⟨s, [], rfl, hK, hR, (List.append_nil _).symm, rfl⟩
  | cons op ops ih =>
    intro s K R hK hR hops
    have h1 := hops op (List.mem_cons_self _ _)
    obtain ⟨r1, e1, ha, hK1, hR1, hc1, hk1⟩ := applyOp_keeps_key_hold g op s h1.1
      (by rw [hK, hR]; exact h1.2)
    obtain ⟨r, e, hrun, hK2, hR2, hc2, hk2⟩ := ih r1 K R (hK1.trans hK) (hR1.trans hR)
      (fun o ho => hops o (List.mem_cons_of_mem _ ho))
    refine ⟨r, e1 ++ e, ?_, hK2, hR2, ?_, ?_⟩
    · show (applyOp g op s).bind (runOps g ops) = some r
      rw [ha]
      exact hrun
    · rw [hc2, hc1, List.append_assoc]
    · unfold keyDownCalls at *
      rw [List.filter_append, hk1, hk2]
      rfl

/-- C21: repeat cadence before the initial delay.  A key-down dispatched to the active
frame when the time is t0 stores the key as held with nextRepeatDue = t0 + I
(I = kRepeatInitialDelay).  After it, through every sequence of calls without a key
event (and without reStack) in which every tick has a time of at most t0 + I - 1, no
key-down is delivered to any frame, and the held key and its nextRepeatDue = t0 + I are
unchanged. -/
theorem no_repeat_before_initial_delay (g : GuiConsts) (s : DialogContainer) (top : Dialog)
    (rest : List Dialog) (ascii key mod : Int) (ops : List Op)
    (hs : s.myDialogStack = top :: rest)
    (ht0 : 0 ≤ s.myTime) (hI : 0 ≤ g.kRepeatInitialDelay)
    (hfit : s.myTime + g.kRepeatInitialDelay < 2147483648)
    (hops : ∀ op ∈ ops, op.leavesKeyHold = true ∧ ∀ time, op = Op.updateTime time →
      time < 4294967296 ∧ tickTime time ≤ s.myTime + g.kRepeatInitialDelay - 1) :
    ∃ s1, handleKeyEvent g ascii key mod 1 s = some s1 ∧
      s1.myCurrentKeyDown = { ascii := ascii, keycode := key, flags := mod } ∧
      s1.myKeyRepeatTime = s.myTime + g.kRepeatInitialDelay ∧
      ∃ r, runOps g ops s1 = some r ∧
        keyDownCalls (newCalls s1 r) = [] ∧
        r.myCurrentKeyDown = { ascii := ascii, keycode := key, flags := mod } ∧
        r.myKeyRepeatTime = s.myTime + g.kRepeatInitialDelay := by
  have hR : toInt32 (s.myTime + g.kRepeatInitialDelay) = s.myTime + g.kRepeatInitialDelay :=
    toInt32_of_bounds (by omega) hfit
  refine ⟨_, handleKeyEvent_down g ascii key mod s top rest hs, rfl, hR, ?_⟩
  obtain ⟨r, e, hrun, hK, hR2, hc, hk⟩ := runOps_keeps_key_hold g ops
    { s with
      myCurrentKeyDown := { ascii := ascii, keycode := key, flags := mod }
      myKeyRepeatTime := toInt32 (s.myTime + g.kRepeatInitialDelay)
      calls := s.calls ++ [Call.handleKeyDown top.id ascii key mod] }
    { ascii := ascii, keycode := key, flags := mod } (s.myTime + g.kRepeatInitialDelay) rfl hR
    (by
      intro op hop
      refine ⟨(hops op hop).1, ?_⟩
      intro time htime hcon
      have h2 := (hops op hop).2 time htime
      rw [tickTime_toInt32 time h2.1] at hcon
      omega)
  refine ⟨r, hrun, ?_, hK, hR2⟩
  rw [newCalls_of_append _ r e hc]
  exact hk

/-- C21, witness: on the sample container at time 2000 the key 97 is pressed; ticks at
2100 and 2399 milliseconds with a mouse move between them deliver no key-down. -/
theorem no_repeat_before_initial_delay_witness :
    ∃ s1, handleKeyEvent sampleGui 97 97 0 1 sampleAtTwo = some s1 ∧
      s1.myCurrentKeyDown = { ascii := 97, keycode := 97, flags := 0 } ∧
      s1.myKeyRepeatTime = sampleAtTwo.myTime + sampleGui.kRepeatInitialDelay ∧
      ∃ r, runOps sampleGui [Op.updateTime 2100000, Op.handleMouseMotionEvent 3 4 0,
          Op.updateTime 2399999] s1 = some r ∧
        keyDownCalls (newCalls s1 r) = [] ∧
        r.myCurrentKeyDown = { ascii := 97, keycode := 97, flags := 0 } ∧
        r.myKeyRepeatTime = sampleAtTwo.myTime + sampleGui.kRepeatInitialDelay :=
  no_repeat_before_initial_delay sampleGui sampleAtTwo sampleBase [] 97 97 0
    [Op.updateTime 2100000, Op.handleMouseMotionEvent 3 4 0, Op.updateTime 2399999]
    rfl (by decide) (by decide) (by decide)
    (by
      intro op hop
      simp only [List.mem_cons, List.mem_singleton, List.not_mem_nil, or_false] at hop
      rcases hop with h | h | h <;> subst h <;> refine ⟨rfl, ?_⟩ <;> intro time htime
      · cases htime
        decide
      · cases htime
      · cases htime
        decide)

/-- The key part of a tick on a stack with `top` above `rest`. -/
theorem updateTime_key (g : GuiConsts) (time : Nat) (s : DialogContainer) (top : Dialog)
    (rest : List Dialog) (hs : s.myDialogStack = top :: rest) :
    ∃ r, updateTime g time s = some r ∧
      r.myTime = toInt32 ((time / 1000 : Nat) : Int) ∧
      r.myDialogStack = s.myDialogStack ∧
      r.myCurrentKeyDown = s.myCurrentKeyDown ∧
      (if s.myCurrentKeyDown.keycode ≠ 0
          ∧ s.myKeyRepeatTime < toInt32 ((time / 1000 : Nat) : Int) then
        keyDownCalls (newCalls s r) = [Call.handleKeyDown top.id s.myCurrentKeyDown.ascii
          s.myCurrentKeyDown.keycode s.myCurrentKeyDown.flags] ∧
        r.myKeyRepeatTime
          = toInt32 (toInt32 ((time / 1000 : Nat) : Int) + g.kRepeatSustainDelay)
      else keyDownCalls (newCalls s r) = [] ∧ r.myKeyRepeatTime = s.myKeyRepeatTime) := by
  obtain ⟨e1, e2, e3, e4, v1, v2, v3, v4, hu, p1, p2, p3, p4⟩ :=
    updateTime_cons_eq g time s top rest hs
  refine ⟨_, hu, rfl, rfl, rfl, ?_⟩
  rw [newCalls_of_append s _ (e1 ++ (e2 ++ (e3 ++ e4))) rfl]
  have q2 : e2.filter Call.isKeyDown = [] := by
    split_ifs at p2 <;> rw [p2.1] <;> rfl
  have q3 : e3.filter Call.isKeyDown = [] := by
    split_ifs at p3 <;> rw [p3.1] <;> rfl
  have q4 : e4.filter Call.isKeyDown = [] := by
    split_ifs at p4 <;> rw [p4.1] <;> rfl
  have q : keyDownCalls (e1 ++ (e2 ++ (e3 ++ e4))) = e1.filter Call.isKeyDown := by
    unfold keyDownCalls
    rw [List.filter_append, List.filter_append, List.filter_append, q2, q3, q4]
    simp only [List.append_nil]
  rw [q]
  split_ifs at p1 ⊢
  · rw [p1.1]
    exact ⟨rfl, p1.2⟩
  · rw [p1.1]
    exact ⟨rfl, p1.2⟩

/-- The axis part of a tick on a stack with `top` above `rest`. -/
theorem updateTime_axis (g : GuiConsts) (time : Nat) (s : DialogContainer) (top : Dialog)
    (rest : List Dialog) (hs : s.myDialogStack = top :: rest) :
    ∃ r, updateTime g time s = some r ∧
      r.myDialogStack = s.myDialogStack ∧
      r.myCurrentAxisDown = s.myCurrentAxisDown ∧
      (if s.myCurrentAxisDown.stick ≠ -1
          ∧ s.myAxisRepeatTime < toInt32 ((time / 1000 : Nat) : Int) then
        joyAxisCalls (newCalls s r) = [Call.handleJoyAxis top.id s.myCurrentAxisDown.stick
          s.myCurrentAxisDown.axis s.myCurrentAxisDown.value] ∧
        r.myAxisRepeatTime
          = toInt32 (toInt32 ((time / 1000 : Nat) : Int) + g.kRepeatSustainDelay)
      else joyAxisCalls (newCalls s r) = [] ∧ r.myAxisRepeatTime = s.myAxisRepeatTime) := by
  obtain ⟨e1, e2, e3, e4, v1, v2, v3, v4, hu, p1, p2, p3, p4⟩ :=
    updateTime_cons_eq g time s top rest hs
  refine ⟨_, hu, rfl, rfl, ?_⟩
  rw [newCalls_of_append s _ (e1 ++ (e2 ++ (e3 ++ e4))) rfl]
  have q1 : e1.filter Call.isJoyAxis = [] := by
    split_ifs at p1 <;> rw [p1.1] <;> rfl
  have q2 : e2.filter Call.isJoyAxis = [] := by
    split_ifs at p2 <;> rw [p2.1] <;> rfl
  have q3 : e3.filter Call.isJoyAxis = [] := by
    split_ifs at p3 <;> rw [p3.1] <;> rfl
  have q : joyAxisCalls (e1 ++ (e2 ++ (e3 ++ e4))) = e4.filter Call.isJoyAxis := by
    unfold joyAxisCalls
    rw [List.filter_append, List.filter_append, List.filter_append, q1, q2, q3]
    simp only [List.nil_append]
  rw [q]
  split_ifs at p4 ⊢
  · rw [p4.1]
    exact ⟨rfl, p4.2⟩
  · rw [p4.1]
    exact ⟨rfl, p4.2⟩


theorem handleKeyEvent_up (g : GuiConsts) (ascii key mod : Int) (state : Nat)
    (s : DialogContainer) (top : Dialog) (rest : List Dialog)
    (hs : s.myDialogStack = top :: rest) (hstate : state ≠ 1) :
    handleKeyEvent g ascii key mod state s = some
      (if key = s.myCurrentKeyDown.keycode then
        { s with
          calls := s.calls ++ [Call.handleKeyUp top.id ascii key mod]
          myCurrentKeyDown := { s.myCurrentKeyDown with keycode := 0 } }
      else { s with calls := s.calls ++ [Call.handleKeyUp top.id ascii key mod] }) := by
  unfold handleKeyEvent
  have he : s.myDialogStack.isEmpty = false := by rw [hs]; rfl
  have ht : stackTop s.myDialogStack = some top := by rw [hs]; rfl
  simp only [he, ht, Bool.false_eq_true, if_false, Option.bind_eq_bind, Option.some_bind,
    Option.pure_def, hstate]
  split_ifs <;> rfl

/-- C23: key release is matched by identity.  A key-up dispatched to the active frame is
forwarded as one key-up call and leaves nextRepeatDue as it is; it clears the key hold
(keycode 0) when its keycode equals the held keycode, and a key-up for any other key
leaves the held key unchanged, so with a key held the hold is cleared exactly when the
keycodes are equal.  After a key-up for another key the held key keeps auto-repeating:
a tick past its nextRepeatDue delivers it to the active frame again.  After the key-up
of the held key no tick delivers a key-down. -/
theorem key_release_matched_by_keycode (g : GuiConsts) (ascii key mod : Int) (state : Nat)
    (s : DialogContainer) (top : Dialog) (rest : List Dialog)
    (hs : s.myDialogStack = top :: rest) (hstate : state ≠ 1) :
    ∃ r, handleKeyEvent g ascii key mod state s = some r ∧
      newCalls s r = [Call.handleKeyUp top.id ascii key mod] ∧
      r.myKeyRepeatTime = s.myKeyRepeatTime ∧
      (key = s.myCurrentKeyDown.keycode →
        r.myCurrentKeyDown = { s.myCurrentKeyDown with keycode := 0 }) ∧
      (key ≠ s.myCurrentKeyDown.keycode → r.myCurrentKeyDown = s.myCurrentKeyDown) ∧
      (s.myCurrentKeyDown.keycode ≠ 0 →
        (r.myCurrentKeyDown.keycode = 0 ↔ key = s.myCurrentKeyDown.keycode)) ∧
      (key ≠ s.myCurrentKeyDown.keycode → s.myCurrentKeyDown.keycode ≠ 0 →
        ∀ time, s.myKeyRepeatTime < toInt32 ((time / 1000 : Nat) : Int) →
          ∃ r2, updateTime g time r = some r2 ∧
            keyDownCalls (newCalls r r2) = [Call.handleKeyDown top.id s.myCurrentKeyDown.ascii
              s.myCurrentKeyDown.keycode s.myCurrentKeyDown.flags]) ∧
      (key = s.myCurrentKeyDown.keycode →
        ∀ time, ∃ r2, updateTime g time r = some r2 ∧ keyDownCalls (newCalls r r2) = []) := by
  refine ⟨_, handleKeyEvent_up g ascii key mod state s top rest hs hstate, ?_, ?_, ?_, ?_, ?_,
    ?_, ?_⟩
  · split_ifs <;> exact newCalls_of_append _ _ _ rfl
  · split_ifs <;> rfl
  · intro h
    rw [if_pos h]
  · intro h
    rw [if_neg h]
  · intro h0
    by_cases h : key = s.myCurrentKeyDown.keycode
    · rw [if_pos h]
      exact ⟨fun _ => h, fun _ => rfl⟩
    · rw [if_neg h]
      exact ⟨fun h1 => absurd h1 h0, fun h1 => absurd h1 h⟩
  · intro h h0 time hlt
    rw [if_neg h]
    obtain ⟨r2, hu, _, _, _, hk⟩ := updateTime_key g time
      { s with calls := s.calls ++ [Call.handleKeyUp top.id ascii key mod] } top rest hs
    dsimp only at hk
    rw [if_pos ⟨h0, hlt⟩] at hk
    exact ⟨r2, hu, hk.1⟩
  · intro h time
    rw [if_pos h]
    obtain ⟨r2, hu, _, _, _, hk⟩ := updateTime_key g time
      { s with
        calls := s.calls ++ [Call.handleKeyUp top.id ascii key mod]
        myCurrentKeyDown := { s.myCurrentKeyDown with keycode := 0 } } top rest hs
    dsimp only at hk
    rw [if_neg (by simp)] at hk
    exact ⟨r2, hu, hk.1⟩

/-- C23, witness: on the sample container the key 97 is held with nextRepeatDue = 2400;
the key-up of key 98 leaves the hold unchanged, and the key-up of key 97 clears it. -/
theorem key_release_matched_by_keycode_witness :
    (∃ r, handleKeyEvent sampleGui 98 98 0 0 sampleKeyHeld = some r ∧
      r.myKeyRepeatTime = sampleKeyHeld.myKeyRepeatTime ∧
      r.myCurrentKeyDown = sampleKeyHeld.myCurrentKeyDown) ∧
    (∃ r, handleKeyEvent sampleGui 97 97 0 0 sampleKeyHeld = some r ∧
      r.myCurrentKeyDown.keycode = 0) := by
  obtain ⟨r, h1, _, h3, _, h5, _⟩ :=
    key_release_matched_by_keycode sampleGui 98 98 0 0 sampleKeyHeld sampleBase [] rfl
      (by decide)
  obtain ⟨r2, k1, _, _, _, _, k6, _⟩ :=
    key_release_matched_by_keycode sampleGui 97 97 0 0 sampleKeyHeld sampleBase [] rfl
      (by decide)
  exact ⟨⟨r, h1, h3, h5 (by decide)⟩, ⟨r2, k1, (k6 (by decide)).mpr rfl⟩⟩

/-! ## Joystick buttons and axes -/

/-- C24: what the code does where it departs from the claim.  On the sample container
button 1 of joystick 0 is pressed and held with nextRepeatDue = 2400.  The release of
button 2 of the same joystick clears the hold of button 1 (stick and button become -1),
because `handleJoyEvent` compares the stick only; the tick at 2401 milliseconds then
delivers no joystick-button-down, where the hold of button 1, left in place, is repeated
by that tick. -/
theorem joy_release_of_other_button_clears_hold :
    handleJoyEvent sampleGui 0 1 1 sampleAtTwo = some sampleButtonHeld ∧
      sampleButtonHeld.myCurrentButtonDown = { stick := 0, button := 1 } ∧
      handleJoyEvent sampleGui 0 2 0 sampleButtonHeld = some sampleButtonReleased ∧
      sampleButtonReleased.myCurrentButtonDown = { stick := -1, button := -1 } ∧
      (updateTime sampleGui 2401000 sampleButtonReleased).map
          (fun r => joyDownCalls (newCalls sampleButtonReleased r)) = some [] ∧
      (updateTime sampleGui 2401000 sampleButtonHeld).map
          (fun r => joyDownCalls (newCalls sampleButtonHeld r))
        = some [Call.handleJoyDown 0 0 1] := by
  refine ⟨by rfl, by rfl, by rfl, by rfl, by rfl, by rfl⟩


theorem handleJoyAxisEvent_cons (g : GuiConsts) (deadzone stick axis value : Int)
    (s : DialogContainer) (top : Dialog) (rest : List Dialog)
    (hs : s.myDialogStack = top :: rest) :
    handleJoyAxisEvent g deadzone stick axis value s = some
      (if s.myCurrentAxisDown.stick = stick ∧ deadzoneFilter deadzone value = 0 then
        { s with
          myCurrentAxisDown := { s.myCurrentAxisDown with stick := -1, axis := -1 }
          calls := s.calls
            ++ [Call.handleJoyAxis top.id stick axis (deadzoneFilter deadzone value)] }
      else
        { s with
          myCurrentAxisDown :=
            { stick := stick, axis := axis, value := deadzoneFilter deadzone value }
          myAxisRepeatTime := toInt32 (s.myTime + g.kRepeatInitialDelay)
          calls := s.calls
            ++ [Call.handleJoyAxis top.id stick axis (deadzoneFilter deadzone value)] }) := by
  unfold handleJoyAxisEvent
  have he : s.myDialogStack.isEmpty = false := by rw [hs]; rfl
  have ht : stackTop s.myDialogStack = some top := by rw [hs]; rfl
  simp only [he, ht, Bool.false_eq_true, if_false, Option.bind_eq_bind, Option.some_bind,
    Option.pure_def]
  have e : (if value > deadzone then toInt32 (value - deadzone)
      else if value < toInt32 (-deadzone) then toInt32 (value + deadzone) else 0)
      = deadzoneFilter deadzone value := rfl
  rw [e]
  split_ifs <;> rfl

/-- The value of the deadzone filter for values of type `int`. -/
theorem deadzoneFilter_eq (d v : Int) (hd0 : 0 ≤ d) (hd1 : d < 2147483648)
    (hv0 : -2147483648 ≤ v) (hv1 : v < 2147483648) :
    deadzoneFilter d v = if d < v then v - d else if v < -d then v + d else 0 := by
  unfold deadzoneFilter
  have e1 : toInt32 (-d) = -d := toInt32_of_bounds (by omega) (by omega)
  rw [e1]
  by_cases h1 : v > d
  · rw [if_pos h1, if_pos h1]
    exact toInt32_of_bounds (by omega) (by omega)
  · rw [if_neg h1, if_neg h1]
    by_cases h2 : v < -d
    · rw [if_pos h2, if_pos h2]
      exact toInt32_of_bounds (by omega) (by omega)
    · rw [if_neg h2, if_neg h2]

/-- C25: the deadzone filter value.  For every deadzone d >= 0 and raw axis value v of
type `int`, an axis event dispatched to the active frame forwards one axis call, with
the value v - d if v > d, v + d if v < -d, and 0 otherwise; the forwarded value is 0
exactly when -d <= v <= d, and otherwise has the sign of v and the magnitude |v| - d. -/
theorem deadzone_filter_value (g : GuiConsts) (d stick axis v : Int)
    (s : DialogContainer) (top : Dialog) (rest : List Dialog)
    (hs : s.myDialogStack = top :: rest)
    (hd0 : 0 ≤ d) (hd1 : d < 2147483648)
    (hv0 : -2147483648 ≤ v) (hv1 : v < 2147483648) :
    ∃ r fwd, handleJoyAxisEvent g d stick axis v s = some r ∧
      newCalls s r = [Call.handleJoyAxis top.id stick axis fwd] ∧
      (d < v → fwd = v - d) ∧
      (v < -d → fwd = v + d) ∧
      (-d ≤ v → v ≤ d → fwd = 0) ∧
      (fwd = 0 ↔ -d ≤ v ∧ v ≤ d) ∧
      (fwd ≠ 0 → Int.sign fwd = Int.sign v ∧ |fwd| = |v| - d) := by
  have hf := deadzoneFilter_eq d v hd0 hd1 hv0 hv1
  refine ⟨_, deadzoneFilter d v, handleJoyAxisEvent_cons g d stick axis v s top rest hs, ?_, ?_,
    ?_, ?_, ?_, ?_⟩
  · split_ifs <;> exact newCalls_of_append _ _ _ rfl
  · intro h
    rw [hf, if_pos h]
  · intro h
    rw [hf, if_neg (by omega), if_pos h]
  · intro h1 h2
    rw [hf, if_neg (by omega), if_neg (by omega)]
  · rw [hf]
    split_ifs <;> constructor <;> intro h <;> omega
  · rw [hf]
    split_ifs with h1 h2
    · intro _
      rw [Int.sign_eq_one_of_pos (by omega), Int.sign_eq_one_of_pos (by omega),
        abs_of_pos (by omega), abs_of_pos (by omega)]
      exact ⟨rfl, rfl⟩
    · intro _
      rw [Int.sign_eq_neg_one_of_neg (by omega), Int.sign_eq_neg_one_of_neg (by omega),
        abs_of_neg (by omega), abs_of_neg (by omega)]
      exact ⟨rfl, by omega⟩
    · intro h
      exact absurd rfl h

/-- C25, witness: with a deadzone of 3200 the raw value 8000 on the sample container is
forwarded as 4800. -/
theorem deadzone_filter_value_witness :
    ∃ r fwd, handleJoyAxisEvent sampleGui 3200 0 1 8000 sampleAtTwo = some r ∧
      newCalls sampleAtTwo r = [Call.handleJoyAxis sampleBase.id 0 1 fwd] ∧
      fwd = 8000 - 3200 := by
  obtain ⟨r, fwd, h1, h2, h3, _⟩ :=
    deadzone_filter_value sampleGui 3200 0 1 8000 sampleAtTwo sampleBase [] rfl
      (by decide) (by decide) (by decide) (by decide)
  exact ⟨r, fwd, h1, h2, h3 (by decide)⟩


theorem updateTime_calls (g : GuiConsts) (time : Nat) (s r : DialogContainer)
    (h : updateTime g time s = some r) : r.calls = s.calls ++ newCalls s r := by
  cases hs : s.myDialogStack with
  | nil =>
    rw [updateTime_nil g time s hs] at h
    rw [← Option.some.inj h]
    simp [newCalls]
  | cons top rest =>
    obtain ⟨e1, e2, e3, e4, v1, v2, v3, v4, hu, _⟩ := updateTime_cons_eq g time s top rest hs
    rw [hu] at h
    rw [← Option.some.inj h]
    simp [newCalls]

/-- A tick with no axis held leaves the axis hold as it is and delivers no axis call. -/
theorem updateTime_axis_clear (g : GuiConsts) (time : Nat) (s : DialogContainer)
    (hclear : s.myCurrentAxisDown.stick = -1) :
    ∃ r e, updateTime g time s = some r ∧ r.myCurrentAxisDown = s.myCurrentAxisDown ∧
      r.calls = s.calls ++ e ∧ joyAxisCalls e = [] := by
  cases hs : s.myDialogStack with
  | nil =>
    exact ⟨_, [], updateTime_nil g time s hs, rfl, (List.append_nil _).symm, rfl⟩
  | cons top rest =>
    obtain ⟨r, hu, _, hA, ha⟩ := updateTime_axis g time s top rest hs
    rw [if_neg (fun h => h.1 hclear)] at ha
    exact ⟨r, newCalls s r, hu, hA, updateTime_calls g time s r hu, ha.1⟩

theorem runTicks_axis_clear (g : GuiConsts) (times : List Nat) :
    ∀ (s : DialogContainer), s.myCurrentAxisDown.stick = -1 →
      ∃ r e, runOps g (times.map Op.updateTime) s = some r ∧
        r.myCurrentAxisDown = s.myCurrentAxisDown ∧
        r.calls = s.calls ++ e ∧ joyAxisCalls e = [] := by
  induction times with
  | nil =>
    intro s _
    exact ⟨s, [], rfl, rfl, (List.append_nil _).symm, rfl⟩
  | cons time times ih =>
    intro s hclear
    obtain ⟨r1, e1, hu, hA1, hc1, hj1⟩ := updateTime_axis_clear g time s hclear
    obtain ⟨r, e, hrun, hA, hc, hj⟩ := ih r1 (by rw [hA1]; exact hclear)
    refine ⟨r, e1 ++ e, ?_, hA.trans hA1, ?_, ?_⟩
    · show (updateTime g time s).bind (runOps g (times.map Op.updateTime)) = some r
      rw [hu]
      exact hrun
    · rw [hc, hc1, List.append_assoc]
    · unfold joyAxisCalls at *
      rw [List.filter_append, hj1, hj]
      rfl

/-- The branch of `handleJoyAxisEvent` that clears the axis hold.  Every axis event whose
raw value lies in [-deadzone, deadzone] collapses to zero: the value forwarded to the
active frame is 0.  When the stick of the event is the stick recorded in the axis hold,
the event clears the hold: immediately afterwards no axis is held (stick and axis -1),
and through every later sequence of ticks no axis call is delivered and the hold stays
cleared. -/
theorem deadzone_clears_hold_of_same_stick (g : GuiConsts) (d stick axis v : Int)
    (s : DialogContainer) (top : Dialog) (rest : List Dialog) (times : List Nat)
    (hs : s.myDialogStack = top :: rest)
    (hd0 : 0 ≤ d) (hd1 : d < 2147483648) (hlo : -d ≤ v) (hhi : v ≤ d) :
    ∃ r, handleJoyAxisEvent g d stick axis v s = some r ∧
      newCalls s r = [Call.handleJoyAxis top.id stick axis 0] ∧
      (s.myCurrentAxisDown.stick = stick →
        r.myCurrentAxisDown.stick = -1 ∧ r.myCurrentAxisDown.axis = -1 ∧
        ∃ r2, runOps g (times.map Op.updateTime) r = some r2 ∧
          joyAxisCalls (newCalls r r2) = [] ∧
          r2.myCurrentAxisDown.stick = -1 ∧ r2.myCurrentAxisDown.axis = -1) := by
  have hf : deadzoneFilter d v = 0 := by
    rw [deadzoneFilter_eq d v hd0 hd1 (by omega) (by omega), if_neg (by omega),
      if_neg (by omega)]
  have hc := handleJoyAxisEvent_cons g d stick axis v s top rest hs
  rw [hf] at hc
  refine ⟨_, hc, ?_, ?_⟩
  · split_ifs <;> exact newCalls_of_append _ _ _ rfl
  · intro hstick
    rw [if_pos ⟨hstick, rfl⟩]
    refine ⟨rfl, rfl, ?_⟩
    obtain ⟨r2, e, hrun, hA, hcalls, hj⟩ := runTicks_axis_clear g times
      { s with
        myCurrentAxisDown := { s.myCurrentAxisDown with stick := -1, axis := -1 }
        calls := s.calls ++ [Call.handleJoyAxis top.id stick axis 0] } rfl
    refine ⟨r2, hrun, ?_, ?_, ?_⟩
    · rw [newCalls_of_append _ r2 e hcalls]
      exact hj
    · rw [hA]
    · rw [hA]

/-- An instance of the clearing branch: on the sample container axis 1 of joystick 0 is
held; an event of joystick 0 with the raw value -100 inside the deadzone of 3200 clears
the hold, and the ticks at 2401 and 3000 milliseconds deliver no axis call. -/
theorem deadzone_clears_hold_of_same_stick_witness :
    ∃ r, handleJoyAxisEvent sampleGui 3200 0 1 (-100) sampleAxisHeld = some r ∧
      newCalls sampleAxisHeld r = [Call.handleJoyAxis sampleBase.id 0 1 0] ∧
      r.myCurrentAxisDown.stick = -1 ∧
      ∃ r2, runOps sampleGui ([2401000, 3000000].map Op.updateTime) r = some r2 ∧
        joyAxisCalls (newCalls r r2) = [] := by
  obtain ⟨r, h1, h2, h3⟩ :=
    deadzone_clears_hold_of_same_stick sampleGui 3200 0 1 (-100) sampleAxisHeld sampleBase []
      [2401000, 3000000] rfl (by decide) (by decide) (by decide) (by decide)
  obtain ⟨h4, _, r2, h5, h6, _⟩ := h3 rfl
  exact ⟨r, h1, h2, h4, r2, h5, h6⟩

/-- C26: what the code does where it departs from the claim.  On the sample container
no axis is held (stick -1).  An axis event of joystick 0, axis 1, with the raw value 100
inside the deadzone of 3200 is forwarded as 0, and instead of leaving no axis held it is
recorded as the held axis (stick 0, value 0): `handleJoyAxisEvent` clears the hold only
when the stick of the event is the one held, and every other event, a zero among them,
takes the branch that starts a hold.  The tick at 2401 milliseconds then delivers a
synthetic axis call with the value 0, the autofire that the FIXME of the method calls
inadvertent. -/
theorem deadzone_event_on_idle_axis_starts_hold :
    sampleAtTwo.myCurrentAxisDown.stick = -1 ∧
      handleJoyAxisEvent sampleGui 3200 0 1 100 sampleAtTwo = some sampleAxisZero ∧
      sampleAxisZero.myCurrentAxisDown = { stick := 0, axis := 1, value := 0 } ∧
      sampleAxisZero.myCurrentAxisDown.stick ≠ -1 ∧
      (updateTime sampleGui 2401000 sampleAxisZero).map
          (fun r => joyAxisCalls (newCalls sampleAxisZero r))
        = some [Call.handleJoyAxis 0 0 1 0] := by
  refine ⟨by rfl, by rfl, by rfl, by decide, by rfl⟩

/-! ## The multi-click gesture -/

theorem handleMouseButtonEvent_down (g : GuiConsts) (b : MouseButton) (x y : Int) (state : Nat)
    (s : DialogContainer) (top : Dialog) (rest : List Dialog)
    (hs : s.myDialogStack = top :: rest) (hb : b.isDown = true) :
    handleMouseButtonEvent g b x y state s = some { s with
      myLastClick := clickUpdate g s.myTime (top.translateCoords x y).1
        (top.translateCoords x y).2 s.myLastClick
      myCurrentMouseDown :=
        { x := (top.translateCoords x y).1, y := (top.translateCoords x y).2,
          button := if b = MouseButton.EVENT_LBUTTONDOWN ∨ b = MouseButton.EVENT_LBUTTONUP
            then 1 else 2 }
      myClickRepeatTime := toInt32 (s.myTime + g.kRepeatInitialDelay)
      calls := s.calls ++ [Call.handleMouseDown top.id
        (toInt32 ((top.translateCoords x y).1 - top._x))
        (toInt32 ((top.translateCoords x y).2 - top._y))
        (if b = MouseButton.EVENT_LBUTTONDOWN ∨ b = MouseButton.EVENT_LBUTTONUP then 1 else 2)
        (clickUpdate g s.myTime (top.translateCoords x y).1 (top.translateCoords x y).2
          s.myLastClick).count] } := by
  have he : s.myDialogStack.isEmpty = false := by rw [hs]; rfl
  have ht : stackTop s.myDialogStack = some top := by rw [hs]; rfl
  have hd : b = MouseButton.EVENT_LBUTTONDOWN ∨ b = MouseButton.EVENT_RBUTTONDOWN := by
    cases b <;> simp [MouseButton.isDown] at hb ⊢
  unfold handleMouseButtonEvent clickUpdate
  by_cases h2 : s.myLastClick.count = 2
  · simp only [he, ht, Bool.false_eq_true, if_false, Option.bind_eq_bind, Option.some_bind,
      Option.pure_def, hd, if_true, h2, ne_eq, not_true_eq_false, false_and]
  · simp only [he, ht, Bool.false_eq_true, if_false, Option.bind_eq_bind, Option.some_bind,
      Option.pure_def, hd, if_true, h2]
    split_ifs <;> rfl


theorem BSPF_abs_toInt32 (v : Int) (h1 : -2147483648 < v) (h2 : v < 2147483648) :
    BSPF_abs (toInt32 v) = |v| := by
  rw [toInt32_of_bounds (by omega) h2]
  unfold BSPF_abs
  split_ifs with h
  · rw [toInt32_of_bounds (by omega) (by omega), abs_of_neg h]
  · rw [abs_of_nonneg (by omega)]

/-- The click-count block on a stored count of 1, without overflow. -/
theorem clickUpdate_one (g : GuiConsts) (now x y : Int) (c : LastClick) (hc : c.count = 1)
    (hT1 : -2147483648 ≤ c.time + g.kDoubleClickDelay)
    (hT2 : c.time + g.kDoubleClickDelay < 2147483648)
    (hX1 : -2147483648 < c.x - x) (hX2 : c.x - x < 2147483648)
    (hY1 : -2147483648 < c.y - y) (hY2 : c.y - y < 2147483648) :
    clickUpdate g now x y c =
      if |x - c.x| < 3 ∧ |y - c.y| < 3 ∧ now < c.time + g.kDoubleClickDelay then
        { x := c.x, y := c.y, time := now, count := 2 }
      else { x := x, y := y, time := now, count := 1 } := by
  unfold clickUpdate
  have h2 : ¬ c.count = 2 := by rw [hc]; decide
  have h0 : c.count ≠ 0 := by rw [hc]; decide
  simp only [h2, if_false]
  rw [toInt32_of_bounds hT1 hT2, BSPF_abs_toInt32 _ hX1 hX2, BSPF_abs_toInt32 _ hY1 hY2,
    abs_sub_comm c.x x, abs_sub_comm c.y y, hc]
  by_cases hq : |x - c.x| < 3 ∧ |y - c.y| < 3 ∧ now < c.time + g.kDoubleClickDelay
  · rw [if_pos hq, if_pos ⟨by decide, hq.2.2, hq.1, hq.2.1⟩]
    rfl
  · rw [if_neg hq, if_neg (fun h => hq ⟨h.2.2.1, h.2.2.2, h.2.1⟩)]

/-- C27: the multi-click rule.  On a mouse button-down (left or right) dispatched to the
active frame at time t, at the point (x, y) that the frame's surface translates the
event to, when the stored click count is 1: if |x - lastX| < 3, |y - lastY| < 3 and
t < lastTime + kDoubleClickDelay then the count becomes 2 and the anchor point stays,
otherwise the count resets to 1 and the anchor point becomes (x, y); in both cases
lastTime becomes t, and the resulting count is the one forwarded to the active frame
with the button-down, the only call made. -/
theorem multi_click_rule (g : GuiConsts) (b : MouseButton) (x0 y0 : Int) (state : Nat)
    (s : DialogContainer) (top : Dialog) (rest : List Dialog) (x y : Int)
    (hs : s.myDialogStack = top :: rest) (hb : b.isDown = true)
    (hxy : top.translateCoords x0 y0 = (x, y))
    (hc : s.myLastClick.count = 1)
    (hT1 : -2147483648 ≤ s.myLastClick.time + g.kDoubleClickDelay)
    (hT2 : s.myLastClick.time + g.kDoubleClickDelay < 2147483648)
    (hX1 : -2147483648 < s.myLastClick.x - x) (hX2 : s.myLastClick.x - x < 2147483648)
    (hY1 : -2147483648 < s.myLastClick.y - y) (hY2 : s.myLastClick.y - y < 2147483648) :
    ∃ r, handleMouseButtonEvent g b x0 y0 state s = some r ∧
      (|x - s.myLastClick.x| < 3 ∧ |y - s.myLastClick.y| < 3
          ∧ s.myTime < s.myLastClick.time + g.kDoubleClickDelay →
        r.myLastClick
          = { x := s.myLastClick.x, y := s.myLastClick.y, time := s.myTime, count := 2 }) ∧
      (¬ (|x - s.myLastClick.x| < 3 ∧ |y - s.myLastClick.y| < 3
          ∧ s.myTime < s.myLastClick.time + g.kDoubleClickDelay) →
        r.myLastClick = { x := x, y := y, time := s.myTime, count := 1 }) ∧
      r.myLastClick.time = s.myTime ∧
      newCalls s r = [Call.handleMouseDown top.id (toInt32 (x - top._x)) (toInt32 (y - top._y))
        (if b = MouseButton.EVENT_LBUTTONDOWN ∨ b = MouseButton.EVENT_LBUTTONUP then 1 else 2)
        r.myLastClick.count] := by
  have hd := handleMouseButtonEvent_down g b x0 y0 state s top rest hs hb
  rw [hxy] at hd
  dsimp only at hd
  have hu := clickUpdate_one g s.myTime x y s.myLastClick hc hT1 hT2 hX1 hX2 hY1 hY2
  refine ⟨_, hd, ?_, ?_, ?_, newCalls_of_append _ _ _ rfl⟩
  · intro hq
    show clickUpdate g s.myTime x y s.myLastClick = _
    rw [hu, if_pos hq]
  · intro hq
    show clickUpdate g s.myTime x y s.myLastClick = _
    rw [hu, if_neg hq]
  · show (clickUpdate g s.myTime x y s.myLastClick).time = _
    rw [hu]
    split_ifs <;> rfl

/-- C27, witness: on the sample container after one click at (5, 5) at time 2000, a
second left click at (6, 4) at the same time makes the count 2. -/
theorem multi_click_rule_witness :
    ∃ r, handleMouseButtonEvent sampleGui MouseButton.EVENT_LBUTTONDOWN 6 4 1 sampleClicked
        = some r ∧
      r.myLastClick = { x := 5, y := 5, time := 2000, count := 2 } := by
  obtain ⟨r, h1, h2, _⟩ :=
    multi_click_rule sampleGui MouseButton.EVENT_LBUTTONDOWN 6 4 1 sampleClicked sampleBase []
      6 4 rfl rfl rfl rfl (by decide) (by decide) (by decide) (by decide) (by decide)
      (by decide)
  exact ⟨r, h1, h2 (by decide)⟩


theorem clickUpdate_reset (g : GuiConsts) (now x y : Int) (c : LastClick)
    (hc : c.count = 0 ∨ c.count = 2) :
    clickUpdate g now x y c = { x := x, y := y, time := now, count := 1 } := by
  obtain ⟨cx, cy, ct, cc⟩ := c
  dsimp only at hc
  rcases hc with h | h <;> subst h <;> rfl

theorem clickUpdate_count (g : GuiConsts) (now x y : Int) (c : LastClick)
    (h0 : 0 ≤ c.count) (h2 : c.count ≤ 2) :
    (clickUpdate g now x y c).count = 1 ∨ (clickUpdate g now x y c).count = 2 := by
  by_cases hr : c.count = 0 ∨ c.count = 2
  · rw [clickUpdate_reset g now x y c hr]
    exact Or.inl rfl
  · have h1 : c.count = 1 := by omega
    unfold clickUpdate
    have hn : ¬ c.count = 2 := by rw [h1]; decide
    simp only [hn, if_false]
    split_ifs
    · right
      show toInt32 (c.count + 1) = 2
      rw [h1]
      rfl
    · left
      rfl

theorem clickInv_of (s r : DialogContainer) (h : ClickInv s)
    (hl : r.myLastClick = s.myLastClick) (e : List Call) (hc : r.calls = s.calls ++ e)
    (he : ∀ c ∈ mouseDownCounts e, c = 1 ∨ c = 2) : ClickInv r := by
  constructor
  · rw [hl]
    exact h.1
  · intro c hmem
    rw [hc] at hmem
    have hmem2 : c ∈ mouseDownCounts s.calls ++ mouseDownCounts e := by
      unfold mouseDownCounts at hmem ⊢
      rw [List.filterMap_append] at hmem
      exact hmem
    rcases List.mem_append.mp hmem2 with h1 | h1
    · exact h.2 c h1
    · exact he c h1

theorem applyOp_clickInv (g : GuiConsts) (op : Op) (s r : DialogContainer)
    (h : ClickInv s) (hr : applyOp g op s = some r) : ClickInv r := by
  have hnone : ∀ (e : List Call), mouseDownCounts e = [] →
      ∀ c ∈ mouseDownCounts e, c = 1 ∨ c = 2 := by
    intro e he c hc
    rw [he] at hc
    cases hc
  cases hs : s.myDialogStack with
  | nil =>
    have he : s.myDialogStack.isEmpty = true := by rw [hs]; rfl
    cases op with
    | updateTime time =>
      rw [show applyOp g (Op.updateTime time) s = updateTime g time s from rfl,
        updateTime_nil g time s hs] at hr
      rw [← Option.some.inj hr]
      exact clickInv_of s _ h rfl [] (List.append_nil _).symm (hnone _ rfl)
    | draw full =>
      cases full with
      | true =>
        rw [← Option.some.inj hr]
        exact clickInv_of s _ h rfl _ rfl (hnone _ (by rw [hs]; rfl))
      | false =>
        simp only [applyOp, DialogContainer.draw, he, Bool.false_eq_true, if_false,
          not_true_eq_false] at hr
        rw [← Option.some.inj hr]
        exact h
    | addDialog d =>
      rw [← Option.some.inj hr]
      exact clickInv_of s _ h rfl _ rfl (hnone _ rfl)
    | removeDialog =>
      simp only [applyOp, removeDialog_nil s hs] at hr
      rw [← Option.some.inj hr]
      exact h
    | reStack =>
      rw [← Option.some.inj hr]
      refine ⟨⟨le_refl _, by show (0 : Int) ≤ 2; decide⟩, ?_⟩
      exact (clickInv_of s { s with calls := s.calls ++ [Call.openDialog s.myBaseDialog.id,
        Call.refresh] } h rfl _ rfl (hnone _ rfl)).2
    | handleKeyEvent ascii key mod state =>
      simp only [applyOp, handleKeyEvent, he, if_true] at hr
      rw [← Option.some.inj hr]
      exact h
    | handleMouseMotionEvent x y button =>
      simp only [applyOp, handleMouseMotionEvent, he, if_true] at hr
      rw [← Option.some.inj hr]
      exact h
    | handleMouseButtonEvent b x y state =>
      simp only [applyOp, handleMouseButtonEvent, he, if_true] at hr
      rw [← Option.some.inj hr]
      exact h
    | handleJoyEvent stick button state =>
      simp only [applyOp, handleJoyEvent, he, if_true] at hr
      rw [← Option.some.inj hr]
      exact h
    | handleJoyAxisEvent deadzone stick axis value =>
      simp only [applyOp, handleJoyAxisEvent, he, if_true] at hr
      rw [← Option.some.inj hr]
      exact h
    | handleJoyHatEvent stick hat value =>
      simp only [applyOp, handleJoyHatEvent, he, if_true] at hr
      rw [← Option.some.inj hr]
      exact h
    | handleResizeEvent =>
      rw [← Option.some.inj hr]
      exact clickInv_of s _ h rfl _ rfl (hnone _ rfl)
  | cons top rest =>
    have he : s.myDialogStack.isEmpty = false := by rw [hs]; rfl
    have ht : stackTop s.myDialogStack = some top := by rw [hs]; rfl
    cases op with
    | updateTime time =>
      obtain ⟨e1, e2, e3, e4, v1, v2, v3, v4, hu, p1, p2, p3, p4⟩ :=
        updateTime_cons_eq g time s top rest hs
      rw [show applyOp g (Op.updateTime time) s = updateTime g time s from rfl, hu] at hr
      rw [← Option.some.inj hr]
      refine clickInv_of s _ h rfl _ rfl ?_
      have q1 : mouseDownCounts e1 = [] := by
        split_ifs at p1 <;> rw [p1.1] <;> rfl
      have q3 : mouseDownCounts e3 = [] := by
        split_ifs at p3 <;> rw [p3.1] <;> rfl
      have q4 : mouseDownCounts e4 = [] := by
        split_ifs at p4 <;> rw [p4.1] <;> rfl
      have q2 : mouseDownCounts e2 = [1] ∨ mouseDownCounts e2 = [] := by
        split_ifs at p2
        · left; rw [p2.1]; rfl
        · right; rw [p2.1]; rfl
      intro c hc
      unfold mouseDownCounts at hc q1 q2 q3 q4
      rw [List.filterMap_append, List.filterMap_append, List.filterMap_append, q1, q3, q4,
        List.nil_append, List.append_nil] at hc
      rcases q2 with q | q
      · rw [q] at hc
        exact Or.inl (List.mem_singleton.mp hc)
      · rw [q] at hc
        cases hc
    | draw full =>
      cases full with
      | true =>
        rw [← Option.some.inj hr]
        refine clickInv_of s _ h rfl _ rfl (hnone _ ?_)
        unfold mouseDownCounts
        generalize s.myDialogStack.reverse = l
        induction l with
        | nil => rfl
        | cons d l ih => exact ih
      | false =>
        simp only [applyOp, DialogContainer.draw, he, ht, Bool.false_eq_true, if_false,
          not_false_eq_true, if_true, Option.bind_eq_bind, Option.some_bind,
          Option.pure_def] at hr
        rw [← Option.some.inj hr]
        exact clickInv_of s _ h rfl _ rfl (hnone _ rfl)
    | addDialog d =>
      rw [← Option.some.inj hr]
      exact clickInv_of s _ h rfl _ rfl (hnone _ rfl)
    | removeDialog =>
      simp only [applyOp, removeDialog_cons s top rest hs] at hr
      rw [← Option.some.inj hr]
      exact clickInv_of s _ h rfl _ rfl (hnone _ rfl)
    | reStack =>
      rw [← Option.some.inj hr]
      refine ⟨⟨le_refl _, by show (0 : Int) ≤ 2; decide⟩, ?_⟩
      exact (clickInv_of s { s with calls := s.calls ++ [Call.openDialog s.myBaseDialog.id,
        Call.refresh] } h rfl _ rfl (hnone _ rfl)).2
    | handleKeyEvent ascii key mod state =>
      simp only [applyOp, handleKeyEvent, he, ht, Bool.false_eq_true, if_false,
        Option.bind_eq_bind, Option.some_bind, Option.pure_def] at hr
      split_ifs at hr <;> rw [← Option.some.inj hr] <;>
        exact clickInv_of s _ h rfl _ rfl (hnone _ rfl)
    | handleMouseMotionEvent x y button =>
      simp only [applyOp, handleMouseMotionEvent, he, ht, Bool.false_eq_true, if_false,
        Option.bind_eq_bind, Option.some_bind, Option.pure_def] at hr
      rw [← Option.some.inj hr]
      exact clickInv_of s _ h rfl _ rfl (hnone _ rfl)
    | handleMouseButtonEvent b x y state =>
      by_cases hb : b.isDown = true
      · rw [show applyOp g (Op.handleMouseButtonEvent b x y state) s
            = handleMouseButtonEvent g b x y state s from rfl,
          handleMouseButtonEvent_down g b x y state s top rest hs hb] at hr
        rw [← Option.some.inj hr]
        have hcount := clickUpdate_count g s.myTime (top.translateCoords x y).1
          (top.translateCoords x y).2 s.myLastClick h.1.1 h.1.2
        refine ⟨?_, ?_⟩
        · show 0 ≤ (clickUpdate g s.myTime (top.translateCoords x y).1
            (top.translateCoords x y).2 s.myLastClick).count ∧ _ ≤ 2
          rcases hcount with hq | hq <;> rw [hq] <;> decide
        · intro c hc
          have hmem2 : c ∈ mouseDownCounts s.calls ++
              [(clickUpdate g s.myTime (top.translateCoords x y).1
                (top.translateCoords x y).2 s.myLastClick).count] := by
            unfold mouseDownCounts at hc ⊢
            rw [List.filterMap_append] at hc
            exact hc
          rcases List.mem_append.mp hmem2 with h1 | h1
          · exact h.2 c h1
          · rw [List.mem_singleton.mp h1]
            exact hcount
      · have hd : ¬ (b = MouseButton.EVENT_LBUTTONDOWN ∨ b = MouseButton.EVENT_RBUTTONDOWN) := by
          cases b <;> simp [MouseButton.isDown] at hb ⊢
        simp only [applyOp, handleMouseButtonEvent, he, ht, Bool.false_eq_true, if_false,
          Option.bind_eq_bind, Option.some_bind, Option.pure_def, hd] at hr
        split_ifs at hr <;> rw [← Option.some.inj hr] <;>
          exact clickInv_of s _ h rfl _ rfl (hnone _ rfl)
    | handleJoyEvent stick button state =>
      simp only [applyOp, handleJoyEvent, he, ht, Bool.false_eq_true, if_false,
        Option.bind_eq_bind, Option.some_bind, Option.pure_def] at hr
      split_ifs at hr <;> rw [← Option.some.inj hr] <;>
        exact clickInv_of s _ h rfl _ rfl (hnone _ rfl)
    | handleJoyAxisEvent deadzone stick axis value =>
      simp only [applyOp, handleJoyAxisEvent, he, ht, Bool.false_eq_true, if_false,
        Option.bind_eq_bind, Option.some_bind, Option.pure_def] at hr
      split_ifs at hr <;> rw [← Option.some.inj hr] <;>
        exact clickInv_of s _ h rfl _ rfl (hnone _ rfl)
    | handleJoyHatEvent stick hat value =>
      simp only [applyOp, handleJoyHatEvent, he, ht, Bool.false_eq_true, if_false,
        Option.bind_eq_bind, Option.some_bind, Option.pure_def] at hr
      rw [← Option.some.inj hr]
      exact clickInv_of s _ h rfl _ rfl (hnone _ rfl)
    | handleResizeEvent =>
      rw [← Option.some.inj hr]
      exact clickInv_of s _ h rfl _ rfl (hnone _ rfl)

theorem reachable_clickInv (g : GuiConsts) (s : DialogContainer)
    (h : ReachableFromReset g s) : ClickInv s := by
  induction h with
  | start s0 hlog =>
    refine ⟨⟨le_refl _, by show (0 : Int) ≤ 2; decide⟩, ?_⟩
    intro c hc
    have e : (DialogContainer.reset s0).calls = [] := hlog
    rw [e] at hc
    cases hc
  | step op s1 r1 _ hr ih => exact applyOp_clickInv g op s1 r1 ih hr


theorem alternating_succ_one (n : Nat) : alternating (n + 1) 1 = 1 :: alternating n 2 := rfl

theorem alternating_succ_two (n : Nat) : alternating (n + 1) 2 = 2 :: alternating n 1 := rfl

/-- A second click at the point and time of the first one makes the count 2. -/
theorem clickUpdate_same (g : GuiConsts) (t x y : Int) (hD : 0 < g.kDoubleClickDelay)
    (ht1 : -2147483648 ≤ t) (ht2 : t + g.kDoubleClickDelay < 2147483648) :
    clickUpdate g t x y { x := x, y := y, time := t, count := 1 }
      = { x := x, y := y, time := t, count := 2 } := by
  rw [clickUpdate_one g t x y { x := x, y := y, time := t, count := 1 } rfl
    (by dsimp only; omega) ht2 (by dsimp only; omega) (by dsimp only; omega)
    (by dsimp only; omega) (by dsimp only; omega)]
  dsimp only
  rw [if_pos ⟨by rw [sub_self]; decide, by rw [sub_self]; decide, by omega⟩]

/-- Successive button-downs at one point without a tick between them forward the counts
1, 2, 1, 2, ... when the stored count is 0 or 2 at the start, and 2, 1, 2, 1, ... when
the first of them follows a click counted 1 at that point and time. -/
theorem clicks_alternate (g : GuiConsts) (top : Dialog) (rest : List Dialog) (x0 y0 t : Int)
    (hD : 0 < g.kDoubleClickDelay)
    (ht1 : -2147483648 ≤ t) (ht2 : t + g.kDoubleClickDelay < 2147483648)
    (bs : List MouseButton) :
    ∀ (s : DialogContainer), (∀ b ∈ bs, b.isDown = true) → s.myDialogStack = top :: rest →
      s.myTime = t →
      ((s.myLastClick.count = 0 ∨ s.myLastClick.count = 2) →
        ∃ r e, runOps g (bs.map (fun b => Op.handleMouseButtonEvent b x0 y0 1)) s = some r ∧
          r.calls = s.calls ++ e ∧ mouseDownCounts e = alternating bs.length 1) ∧
      (s.myLastClick = ⟨(top.translateCoords x0 y0).1, (top.translateCoords x0 y0).2, t, 1⟩ →
        ∃ r e, runOps g (bs.map (fun b => Op.handleMouseButtonEvent b x0 y0 1)) s = some r ∧
          r.calls = s.calls ++ e ∧ mouseDownCounts e = alternating bs.length 2) := by
  induction bs with
  | nil =>
    intro s _ _ _
    exact ⟨fun _ => ⟨s, [], rfl, (List.append_nil _).symm, rfl⟩,
      fun _ => ⟨s, [], rfl, (List.append_nil _).symm, rfl⟩⟩
  | cons b bs ih =>
    intro s hbs hs hst
    have hb : b.isDown = true := hbs b (List.mem_cons_self _ _)
    have hd := handleMouseButtonEvent_down g b x0 y0 1 s top rest hs hb
    rw [hst] at hd
    have hrest : ∀ b' ∈ bs, b'.isDown = true := fun b' hb' => hbs b' (List.mem_cons_of_mem _ hb')
    constructor
    · intro hc
      rw [clickUpdate_reset g t _ _ s.myLastClick hc] at hd
      obtain ⟨r1, hr1, hs1, ht1', hl1, call, hc1, hcount1⟩ :
          ∃ r1, handleMouseButtonEvent g b x0 y0 1 s = some r1 ∧
            r1.myDialogStack = s.myDialogStack ∧ r1.myTime = t ∧
            r1.myLastClick = ⟨(top.translateCoords x0 y0).1, (top.translateCoords x0 y0).2, t, 1⟩ ∧
            ∃ call, r1.calls = s.calls ++ [call] ∧ call.mouseDownCount = some 1 :=
        ⟨_, hd, rfl, rfl, rfl, _, rfl, rfl⟩
      obtain ⟨r, e, hrun, hcalls, hcounts⟩ :=
        (ih r1 hrest (hs1.trans hs) ht1').2 hl1
      refine ⟨r, call :: e, ?_, ?_, ?_⟩
      · show (handleMouseButtonEvent g b x0 y0 1 s).bind _ = some r
        rw [hr1]
        exact hrun
      · rw [hcalls, hc1]
        simp only [List.append_assoc, List.singleton_append]
      · rw [List.length_cons, alternating_succ_one, ← hcounts]
        unfold mouseDownCounts
        rw [List.filterMap_cons, hcount1]
    · intro hc
      rw [hc, clickUpdate_same g t _ _ hD ht1 ht2] at hd
      obtain ⟨r1, hr1, hs1, ht1', hl1, call, hc1, hcount1⟩ :
          ∃ r1, handleMouseButtonEvent g b x0 y0 1 s = some r1 ∧
            r1.myDialogStack = s.myDialogStack ∧ r1.myTime = t ∧
            r1.myLastClick.count = 2 ∧
            ∃ call, r1.calls = s.calls ++ [call] ∧ call.mouseDownCount = some 2 :=
        ⟨_, hd, rfl, rfl, rfl, _, rfl, rfl⟩
      obtain ⟨r, e, hrun, hcalls, hcounts⟩ :=
        (ih r1 hrest (hs1.trans hs) ht1').1 (Or.inr hl1)
      refine ⟨r, call :: e, ?_, ?_, ?_⟩
      · show (handleMouseButtonEvent g b x0 y0 1 s).bind _ = some r
        rw [hr1]
        exact hrun
      · rw [hcalls, hc1]
        simp only [List.append_assoc, List.singleton_append]
      · rw [List.length_cons, alternating_succ_two, ← hcounts]
        unfold mouseDownCounts
        rw [List.filterMap_cons, hcount1]

/-- C28: the gesture cap.  In every state reachable from a state just after reset()
through any sequence of dispatches, ticks and stack operations, the stored click count
is in [0, 2] and every count forwarded with a button-down so far is 1 or 2.  When the
stored count is 2, the next button-down, at any point and time, forwards 1 and stores 1.
Successive button-downs at one point with no tick between them, starting from a stored
count of 0 or 2, forward 1, 2, 1, 2, ... -/
theorem click_count_capped (g : GuiConsts) :
    (∀ s, ReachableFromReset g s →
      (0 ≤ s.myLastClick.count ∧ s.myLastClick.count ≤ 2) ∧
      ∀ c ∈ mouseDownCounts s.calls, c = 1 ∨ c = 2) ∧
    (∀ (s : DialogContainer) (top : Dialog) (rest : List Dialog) (b : MouseButton)
        (x y : Int) (state : Nat),
      s.myDialogStack = top :: rest → b.isDown = true → s.myLastClick.count = 2 →
      ∃ r, handleMouseButtonEvent g b x y state s = some r ∧
        mouseDownCounts (newCalls s r) = [1] ∧ r.myLastClick.count = 1) ∧
    (∀ (s : DialogContainer) (top : Dialog) (rest : List Dialog) (bs : List MouseButton)
        (x y : Int),
      s.myDialogStack = top :: rest → (∀ b ∈ bs, b.isDown = true) →
      0 < g.kDoubleClickDelay → -2147483648 ≤ s.myTime →
      s.myTime + g.kDoubleClickDelay < 2147483648 →
      (s.myLastClick.count = 0 ∨ s.myLastClick.count = 2) →
      ∃ r, runOps g (bs.map (fun b => Op.handleMouseButtonEvent b x y 1)) s = some r ∧
        mouseDownCounts (newCalls s r) = alternating bs.length 1) := by
  refine ⟨fun s hs => reachable_clickInv g s hs, ?_, ?_⟩
  · intro s top rest b x y state hs hb hc
    have hd := handleMouseButtonEvent_down g b x y state s top rest hs hb
    rw [clickUpdate_reset g _ _ _ s.myLastClick (Or.inr hc)] at hd
    refine ⟨_, hd, ?_, rfl⟩
    rw [newCalls_of_append s _ _ rfl]
    rfl
  · intro s top rest bs x y hs hbs hD ht1 ht2 hc
    obtain ⟨r, e, hrun, hcalls, hcounts⟩ :=
      (clicks_alternate g top rest x y s.myTime hD ht1 ht2 bs s hbs hs rfl).1 hc
    refine ⟨r, hrun, ?_⟩
    rw [newCalls_of_append s r e hcalls]
    exact hcounts

/-- C28, witness: the sample container as constructed is a state just after reset();
with its base dialog on the stack, five left clicks at (5, 5) forward 1, 2, 1, 2, 1. -/
theorem click_count_capped_witness :
    ((0 ≤ sampleContainer.myLastClick.count ∧ sampleContainer.myLastClick.count ≤ 2) ∧
      ∀ c ∈ mouseDownCounts sampleContainer.calls, c = 1 ∨ c = 2) ∧
    (∃ r, runOps sampleGui ((List.replicate 5 MouseButton.EVENT_LBUTTONDOWN).map
        (fun b => Op.handleMouseButtonEvent b 5 5 1)) sampleAtTwo = some r ∧
      mouseDownCounts (newCalls sampleAtTwo r) = [1, 2, 1, 2, 1]) :=
  ⟨(click_count_capped sampleGui).1 sampleContainer (ReachableFromReset.start _ rfl),
   (click_count_capped sampleGui).2.2 sampleAtTwo sampleBase []
      (List.replicate 5 MouseButton.EVENT_LBUTTONDOWN) 5 5 rfl
      (by decide) (by decide) (by decide) (by decide) (Or.inl rfl)⟩

/-! ## A widget id outside the enumeration -/

theorem sendKeyEvent_not_down (c : Consts) (key : Nat) (state : Int) (s : FrameBuffer)
    (hstate : state ≠ 1) : sendKeyEvent c key state s = s := by
  unfold sendKeyEvent
  rw [if_pos (Or.inr hstate)]

theorem sendJoyEvent_not_down (c : Consts) (stick code : Nat) (state : Int) (s : FrameBuffer)
    (hstate : state ≠ 1) : sendJoyEvent c stick code state s = s := by
  unfold sendJoyEvent
  rw [if_pos (Or.inr hstate)]

/-- C29 (as amended): a widget id outside the enumeration draws no menu and selects no
menu action.  When myCurrentWidget is none of W_NONE, MAIN_MENU, REMAP_MENU and INFO_MENU,
sendKeyEvent and sendJoyEvent with state 1 set the menu-changed flag and change nothing
else (no cursor, no binding table, no widget change), and with any other state they
change nothing at all; update() draws no menu: in menu mode it draws the media source
alone when a dirty flag is set, clearing both flags, and draws nothing when neither is
set. -/
theorem garbage_widget_only_marks_menu_changed (c : Consts) (s : FrameBuffer) (n : Nat)
    (hw : s.myCurrentWidget = Widget.invalid n) (key stick code : Nat) (state : Int) :
    sendKeyEvent c key 1 s = { s with theMenuChangedIndicator := true } ∧
      sendJoyEvent c stick code 1 s = { s with theMenuChangedIndicator := true } ∧
      (state ≠ 1 → sendKeyEvent c key state s = s ∧ sendJoyEvent c stick code state s = s) ∧
      drawCurrentWidget s = [] ∧
      (s.myMenuMode = true →
        (s.theMenuChangedIndicator = true ∨ s.theRedrawEntireFrameIndicator = true →
          update s = ({ s with
              theMenuChangedIndicator := false, theRedrawEntireFrameIndicator := false },
            [DrawOp.preFrameUpdate, DrawOp.drawMediaSource, DrawOp.postFrameUpdate])) ∧
        (s.theMenuChangedIndicator = false → s.theRedrawEntireFrameIndicator = false →
          update s = (s, [DrawOp.preFrameUpdate, DrawOp.postFrameUpdate]))) := by
  have hd : drawCurrentWidget s = [] := by
    unfold drawCurrentWidget
    rw [hw]
  refine ⟨sendKeyEvent_invalid c key s n hw, sendJoyEvent_other c stick code s (Or.inr ⟨n, hw⟩),
    fun h => ⟨sendKeyEvent_not_down c key state s h, sendJoyEvent_not_down c stick code state s h⟩,
    hd, ?_⟩
  intro hm
  constructor
  · intro hf
    unfold update
    simp only [hm, not_true_eq_false, if_false, hf, if_true, hd]
    rfl
  · intro h1 h2
    unfold update
    simp only [hm, not_true_eq_false, if_false, h1, h2, Bool.false_eq_true, or_self]
    rfl

/-- C29, witness of the amended statement: the sample display with the widget id 7. -/
theorem garbage_widget_only_marks_menu_changed_witness :
    sendKeyEvent sampleConsts KCODE_UP 1 sampleGarbage
        = { sampleGarbage with theMenuChangedIndicator := true } ∧
      drawCurrentWidget sampleGarbage = [] :=
  ⟨(garbage_widget_only_marks_menu_changed sampleConsts sampleGarbage 7 rfl KCODE_UP 0 0 1).1,
   (garbage_widget_only_marks_menu_changed sampleConsts sampleGarbage 7 rfl KCODE_UP 0 0
      1).2.2.2.1⟩

/-- C29, counterexample to the claim as stated: on the sample display with the widget id
7 and both dirty flags clear, a key-down sets the menu-changed flag, and so does a
joystick event, where in Off (W_NONE) the same key-down changes nothing; the next
update() then draws the media source, where without the key-down it draws nothing. -/
theorem garbage_widget_input_sets_dirty_flag :
    sampleGarbage.myCurrentWidget = Widget.invalid 7 ∧
      sampleGarbage.theMenuChangedIndicator = false ∧
      (sendKeyEvent sampleConsts KCODE_UP 1 sampleGarbage).theMenuChangedIndicator = true ∧
      (sendJoyEvent sampleConsts 0 JAXIS_UP 1 sampleGarbage).theMenuChangedIndicator = true ∧
      sendKeyEvent sampleConsts KCODE_UP 1 sampleGarbage ≠ sampleGarbage ∧
      (sendKeyEvent sampleConsts KCODE_UP 1
        { sampleGarbage with myCurrentWidget := Widget.W_NONE }).theMenuChangedIndicator
        = false ∧
      (update sampleGarbage).2 = [DrawOp.preFrameUpdate, DrawOp.postFrameUpdate] ∧
      (update (sendKeyEvent sampleConsts KCODE_UP 1 sampleGarbage)).2
        = [DrawOp.preFrameUpdate, DrawOp.drawMediaSource, DrawOp.postFrameUpdate] := by
  refine ⟨by rfl, by rfl, by rfl, by rfl, ?_, by rfl, by rfl, by rfl⟩
  intro h
  have h1 := congrArg FrameBuffer.theMenuChangedIndicator h
  have h2 : (sendKeyEvent sampleConsts KCODE_UP 1 sampleGarbage).theMenuChangedIndicator
      = true := by rfl
  have h3 : sampleGarbage.theMenuChangedIndicator = false := by rfl
  rw [h2, h3] at h1
  exact absurd h1 (by decide)


/-! ## The scroll move as clamp and slide -/

/-- C30 (as amended): the scroll move equals the clamp-and-slide reference.  For every
remap-menu state satisfying the window invariant with N items and window size
W = min(N, P), and every amount a with 0 <= a and a + N < 2^31, moveCursorDown(a) sets the
index to min(index + a, N - 1) and the window low end to max(low, newIndex - W + 1);
moveCursorUp(a) sets the index to max(index - a, 0) and the low end to min(low, newIndex);
in both cases high = low + W.  The arrow keys and the page keys of the remap menu in
Browse phase are these moves with a = 1 and a = 4. -/
theorem scroll_move_is_clamp_and_slide (c : Consts) (N P : Int) (a : Nat) (s : FrameBuffer)
    (hw : s.myCurrentWidget = Widget.REMAP_MENU) (hN : s.myRemapMenuItems = N)
    (ha : (a : Int) + N < 2147483648) (h : WindowInv N P s) :
    (moveCursorDown a s).myRemapMenuIndex = min (s.myRemapMenuIndex + a) (N - 1) ∧
      (moveCursorDown a s).myRemapMenuLowIndex
        = max s.myRemapMenuLowIndex ((moveCursorDown a s).myRemapMenuIndex - min N P + 1) ∧
      (moveCursorDown a s).myRemapMenuHighIndex
        = (moveCursorDown a s).myRemapMenuLowIndex + min N P ∧
      (moveCursorUp a s).myRemapMenuIndex = max (s.myRemapMenuIndex - a) 0 ∧
      (moveCursorUp a s).myRemapMenuLowIndex
        = min s.myRemapMenuLowIndex (moveCursorUp a s).myRemapMenuIndex ∧
      (moveCursorUp a s).myRemapMenuHighIndex
        = (moveCursorUp a s).myRemapMenuLowIndex + min N P ∧
      (s.myRemapEventSelectedFlag = false →
        sendKeyEvent c KCODE_DOWN 1 s
          = moveCursorDown 1 { s with theMenuChangedIndicator := true } ∧
        sendKeyEvent c KCODE_UP 1 s
          = moveCursorUp 1 { s with theMenuChangedIndicator := true } ∧
        sendKeyEvent c KCODE_PAGEDOWN 1 s
          = moveCursorDown 4 { s with theMenuChangedIndicator := true } ∧
        sendKeyEvent c KCODE_PAGEUP 1 s
          = moveCursorUp 4 { s with theMenuChangedIndicator := true }) := by
  have hdown : (moveCursorDown a s).myRemapMenuIndex = min (s.myRemapMenuIndex + a) (N - 1) ∧
      (moveCursorDown a s).myRemapMenuLowIndex
        = max s.myRemapMenuLowIndex ((moveCursorDown a s).myRemapMenuIndex - min N P + 1) ∧
      (moveCursorDown a s).myRemapMenuHighIndex
        = (moveCursorDown a s).myRemapMenuLowIndex + min N P := by
    unfold WindowInv at h
    have hW1 : min N P ≤ N := min_le_left N P
    generalize min N P = W at *
    unfold moveCursorDown
    rw [hw]
    dsimp only
    split_ifs <;> dsimp only at * <;>
      (try simp (disch := omega) only [toInt32_of_bounds] at *) <;>
      refine ⟨?_, ?_, ?_⟩ <;> omega
  have hup : (moveCursorUp a s).myRemapMenuIndex = max (s.myRemapMenuIndex - a) 0 ∧
      (moveCursorUp a s).myRemapMenuLowIndex
        = min s.myRemapMenuLowIndex (moveCursorUp a s).myRemapMenuIndex ∧
      (moveCursorUp a s).myRemapMenuHighIndex
        = (moveCursorUp a s).myRemapMenuLowIndex + min N P := by
    unfold WindowInv at h
    have hW1 : min N P ≤ N := min_le_left N P
    generalize min N P = W at *
    unfold moveCursorUp
    rw [hw]
    dsimp only
    split_ifs <;> dsimp only at * <;>
      (try simp (disch := omega) only [toInt32_of_bounds] at *) <;>
      (try simp (disch := omega) only [toInt32_of_bounds] at *) <;>
      refine ⟨?_, ?_, ?_⟩ <;> omega
  refine ⟨hdown.1, hdown.2.1, hdown.2.2, hup.1, hup.2.1, hup.2.2, ?_⟩
  intro hf
  have hb := sendKeyEvent_remap_browse c
  refine ⟨?_, ?_, ?_, ?_⟩
  · rw [hb KCODE_DOWN s hw hf]
    rfl
  · rw [hb KCODE_UP s hw hf]
    rfl
  · rw [hb KCODE_PAGEDOWN s hw hf]
    rfl
  · rw [hb KCODE_PAGEUP s hw hf]
    rfl

theorem sampleRemap_windowInv : WindowInv 57 10 sampleRemap := by
  have h := sampleRemap_start
  unfold WindowInv
  rw [h.2.2.1, h.2.2.2.1, h.2.2.2.2.1]
  decide

/-- C30, witness of the amended statement: a page move down by 4 and an arrow move up by
1 in the sample remap menu (57 rows, 10 visible, index 0). -/
theorem scroll_move_is_clamp_and_slide_witness :
    (moveCursorDown 4 sampleRemap).myRemapMenuIndex
        = min (sampleRemap.myRemapMenuIndex + (4 : Nat)) (57 - 1) ∧
      (moveCursorUp 1 sampleRemap).myRemapMenuIndex
        = max (sampleRemap.myRemapMenuIndex - (1 : Nat)) 0 :=
  ⟨(scroll_move_is_clamp_and_slide sampleConsts 57 10 4 sampleRemap sampleRemap_start.1
      sampleRemap_start.2.1 (by decide) sampleRemap_windowInv).1,
   (scroll_move_is_clamp_and_slide sampleConsts 57 10 1 sampleRemap sampleRemap_start.1
      sampleRemap_start.2.1 (by decide) sampleRemap_windowInv).2.2.2.1⟩

/-- C30, counterexample to the claim as stated (every amount a >= 0): in the sample remap
menu (57 rows, 10 visible, index 0, window from 0 to 10, which satisfies the window
invariant) the call moveCursorUp(4294967295) leaves the index at 1, not at
max(0 - 4294967295, 0) = 0: the amount is a uInt32 and is subtracted from the Int32 index
with wrap-around. -/
theorem scroll_up_wraps_for_large_amount :
    sampleRemap.myCurrentWidget = Widget.REMAP_MENU ∧
      WindowInv 57 10 sampleRemap ∧
      sampleRemap.myRemapMenuIndex = 0 ∧
      (moveCursorUp 4294967295 sampleRemap).myRemapMenuIndex = 1 ∧
      max (sampleRemap.myRemapMenuIndex - (4294967295 : Nat)) 0 = 0 ∧
      (moveCursorUp 4294967295 sampleRemap).myRemapMenuIndex
        ≠ max (sampleRemap.myRemapMenuIndex - (4294967295 : Nat)) 0 := by
  have hidx : (moveCursorUp 4294967295 sampleRemap).myRemapMenuIndex = 1 := by rfl
  have h0 : sampleRemap.myRemapMenuIndex = 0 := sampleRemap_start.2.2.1
  have hmax : max (sampleRemap.myRemapMenuIndex - (4294967295 : Nat)) 0 = 0 := by
    rw [h0]
    decide
  refine ⟨sampleRemap_start.1, sampleRemap_windowInv, h0, hidx, hmax, ?_⟩
  rw [hidx, hmax]
  decide

/-! ## The sustained repeat -/

/-- A tick makes at most one call for each device class, in the order key, mouse
button, joystick button, joystick axis, and no other call. -/
theorem updateTime_one_per_class (g : GuiConsts) (time : Nat) (s : DialogContainer) :
    ∃ r, updateTime g time s = some r ∧
      (keyDownCalls (newCalls s r)).length ≤ 1 ∧
      (mouseDownCounts (newCalls s r)).length ≤ 1 ∧
      (joyDownCalls (newCalls s r)).length ≤ 1 ∧
      (joyAxisCalls (newCalls s r)).length ≤ 1 ∧
      (newCalls s r).length
        = (keyDownCalls (newCalls s r)).length + (mouseDownCounts (newCalls s r)).length
          + (joyDownCalls (newCalls s r)).length + (joyAxisCalls (newCalls s r)).length := by
  cases hs : s.myDialogStack with
  | nil =>
    refine ⟨_, updateTime_nil g time s hs, ?_⟩
    rw [newCalls_of_append s { s with myTime := toInt32 ((time / 1000 : Nat) : Int) } []
      (List.append_nil _).symm]
    exact ⟨Nat.zero_le _, Nat.zero_le _, Nat.zero_le _, Nat.zero_le _, rfl⟩
  | cons top rest =>
    obtain ⟨e1, e2, e3, e4, v1, v2, v3, v4, hu, p1, p2, p3, p4⟩ :=
      updateTime_cons_eq g time s top rest hs
    refine ⟨_, hu, ?_⟩
    rw [newCalls_of_append s _ (e1 ++ (e2 ++ (e3 ++ e4))) rfl]
    have q1 : e1 = [] ∨ ∃ a k f, e1 = [Call.handleKeyDown top.id a k f] := by
      split_ifs at p1
      · exact Or.inr ⟨_, _, _, p1.1⟩
      · exact Or.inl p1.1
    have q2 : e2 = [] ∨ ∃ x y b n, e2 = [Call.handleMouseDown top.id x y b n] := by
      split_ifs at p2
      · exact Or.inr ⟨_, _, _, _, p2.1⟩
      · exact Or.inl p2.1
    have q3 : e3 = [] ∨ ∃ a b, e3 = [Call.handleJoyDown top.id a b] := by
      split_ifs at p3
      · exact Or.inr ⟨_, _, p3.1⟩
      · exact Or.inl p3.1
    have q4 : e4 = [] ∨ ∃ a b v, e4 = [Call.handleJoyAxis top.id a b v] := by
      split_ifs at p4
      · exact Or.inr ⟨_, _, _, p4.1⟩
      · exact Or.inl p4.1
    rcases q1 with h1 | ⟨a1, k1, f1, h1⟩ <;> rcases q2 with h2 | ⟨x2, y2, b2, n2, h2⟩ <;>
      rcases q3 with h3 | ⟨a3, b3, h3⟩ <;> rcases q4 with h4 | ⟨a4, b4, w4, h4⟩ <;>
      subst h1 h2 h3 h4 <;>
      (refine ⟨?_, ?_, ?_, ?_, by rfl⟩ <;> first | exact Nat.zero_le 1 | exact Nat.le_refl 1)

/-- C34: the sustained repeat cadence.  Whenever a key is held (keycode other than 0)
with a frame on the stack and a tick is called at a time now strictly later than
nextRepeatDue, exactly one key-down carrying the held key's ascii, keycode and modifier
flags is delivered to the top frame, nextRepeatDue becomes now + kRepeatSustainDelay, and
the key stays held.  A single tick, in any state, delivers at most one repeat per device
class (key, mouse button, joystick button, joystick axis) and makes no other call. -/
theorem sustained_repeat_cadence (g : GuiConsts) (time : Nat) (s : DialogContainer)
    (top : Dialog) (rest : List Dialog) (time2 : Nat) (s2 : DialogContainer)
    (hs : s.myDialogStack = top :: rest) (hkey : s.myCurrentKeyDown.keycode ≠ 0)
    (htime : time < 4294967296) (hlate : s.myKeyRepeatTime < tickTime time)
    (hS : 0 ≤ g.kRepeatSustainDelay)
    (hfit : tickTime time + g.kRepeatSustainDelay < 2147483648) :
    (∃ r, updateTime g time s = some r ∧
      keyDownCalls (newCalls s r) = [Call.handleKeyDown top.id s.myCurrentKeyDown.ascii
        s.myCurrentKeyDown.keycode s.myCurrentKeyDown.flags] ∧
      r.myKeyRepeatTime = tickTime time + g.kRepeatSustainDelay ∧
      r.myCurrentKeyDown = s.myCurrentKeyDown ∧ r.myTime = tickTime time) ∧
    (∃ r2, updateTime g time2 s2 = some r2 ∧
      (keyDownCalls (newCalls s2 r2)).length ≤ 1 ∧
      (mouseDownCounts (newCalls s2 r2)).length ≤ 1 ∧
      (joyDownCalls (newCalls s2 r2)).length ≤ 1 ∧
      (joyAxisCalls (newCalls s2 r2)).length ≤ 1 ∧
      (newCalls s2 r2).length
        = (keyDownCalls (newCalls s2 r2)).length + (mouseDownCounts (newCalls s2 r2)).length
          + (joyDownCalls (newCalls s2 r2)).length + (joyAxisCalls (newCalls s2 r2)).length) := by
  refine ⟨?_, updateTime_one_per_class g time2 s2⟩
  obtain ⟨r, hu, hT, _, hK, hk⟩ := updateTime_key g time s top rest hs
  have hTe := tickTime_toInt32 time htime
  have hT0 : 0 ≤ tickTime time := by unfold tickTime; omega
  rw [hTe] at hk hT
  rw [if_pos ⟨hkey, hlate⟩, toInt32_of_bounds (by omega) hfit] at hk
  exact ⟨r, hu, hk.1, hk.2, hK, hT⟩

/-- C34, witness: on the sample container the key 97 is held with nextRepeatDue = 2400;
the tick at 2600 milliseconds delivers it once and schedules the next repeat for 2650. -/
theorem sustained_repeat_cadence_witness :
    ∃ r, updateTime sampleGui 2600000 sampleKeyHeld = some r ∧
      keyDownCalls (newCalls sampleKeyHeld r) = [Call.handleKeyDown sampleBase.id 97 97 0] ∧
      r.myKeyRepeatTime = tickTime 2600000 + sampleGui.kRepeatSustainDelay := by
  obtain ⟨⟨r, h1, h2, h3, _⟩, _⟩ :=
    sustained_repeat_cadence sampleGui 2600000 sampleKeyHeld sampleBase [] 0 sampleContainer
      rfl (by decide) (by decide) (by decide) (by decide) (by decide)
  exact ⟨r, h1, h2, h3⟩

/-! ## The joystick slot of a binding -/

theorem colonList_injective (c : Consts) (t1 t2 : Nat → EventType) (n : Nat)
    (h : colonList c t1 n = colonList c t2 n) :
    ∀ i, i < n → c.ord (t1 i) = c.ord (t2 i) := by
  intro i hi
  have h1 := colonFields_colonList c t1 (List.range n)
  have h2 := colonFields_colonList c t2 (List.range n)
  unfold colonList at h
  rw [h, h2] at h1
  have h3 := congrArg (fun (l : List (List Char)) => (l.map parseDecimal)[i]?) h1
  simp only [List.map_map, List.getElem?_map, List.getElem?_range hi, Option.map_some',
    Function.comp_apply, parseDecimal_decimal] at h3
  exact (Option.some.inj h3).symm

/-- C36: serialization is injective.  For any two key tables written over the LastKCODE
key slots (and likewise two joystick tables over the LastJSTICK * LastJCODE joystick
slots), if the colon-terminated decimal strings that loadRemapMenu stores under "keymap"
(under "joymap") are equal, then the tables hold the same event ordinal in every slot,
and so, the ordinal of an event being its identity, the same event: no two distinct
tables persist to the same string.  The same holds for the strings written over any
number n of slots. -/
theorem serialization_injective (c : Consts) (s1 s2 : FrameBuffer)
    (t1 t2 : Nat → EventType) (n : Nat) :
    ((loadRemapMenu c s1).settings "keymap" = (loadRemapMenu c s2).settings "keymap" →
      ∀ i, i < LastKCODE → c.ord (s1.myKeyTable i) = c.ord (s2.myKeyTable i)) ∧
    ((loadRemapMenu c s1).settings "joymap" = (loadRemapMenu c s2).settings "joymap" →
      ∀ j, j < c.LastJSTICK * c.LastJCODE →
        c.ord (s1.myJoyTable j) = c.ord (s2.myJoyTable j)) ∧
    (mapBuffer c t1 n = mapBuffer c t2 n → ∀ i, i < n → c.ord (t1 i) = c.ord (t2 i)) ∧
    ((∀ e1 e2, c.ord e1 = c.ord e2 → e1 = e2) →
      ((loadRemapMenu c s1).settings "keymap" = (loadRemapMenu c s2).settings "keymap" →
        ∀ i, i < LastKCODE → s1.myKeyTable i = s2.myKeyTable i) ∧
      ((loadRemapMenu c s1).settings "joymap" = (loadRemapMenu c s2).settings "joymap" →
        ∀ j, j < c.LastJSTICK * c.LastJCODE → s1.myJoyTable j = s2.myJoyTable j) ∧
      (mapBuffer c t1 n = mapBuffer c t2 n → ∀ i, i < n → t1 i = t2 i)) := by
  have hk : (loadRemapMenu c s1).settings "keymap" = (loadRemapMenu c s2).settings "keymap" →
      ∀ i, i < LastKCODE → c.ord (s1.myKeyTable i) = c.ord (s2.myKeyTable i) := by
    intro h
    rw [(loadRemapMenu_settings c s1).1, (loadRemapMenu_settings c s2).1] at h
    exact colonList_injective c _ _ _ h
  have hj : (loadRemapMenu c s1).settings "joymap" = (loadRemapMenu c s2).settings "joymap" →
      ∀ j, j < c.LastJSTICK * c.LastJCODE →
        c.ord (s1.myJoyTable j) = c.ord (s2.myJoyTable j) := by
    intro h
    rw [(loadRemapMenu_settings c s1).2, (loadRemapMenu_settings c s2).2] at h
    exact colonList_injective c _ _ _ h
  have hm : mapBuffer c t1 n = mapBuffer c t2 n → ∀ i, i < n → c.ord (t1 i) = c.ord (t2 i) := by
    intro h
    rw [mapBuffer_eq_colonList, mapBuffer_eq_colonList] at h
    exact colonList_injective c _ _ _ h
  refine ⟨hk, hj, hm, ?_⟩
  intro hinj
  exact ⟨fun h i hi => hinj _ _ (hk h i hi), fun h j hj2 => hinj _ _ (hj h j hj2),
    fun h i hi => hinj _ _ (hm h i hi)⟩

/-- C36, witness: the sample display persists its key table under "keymap"; equal
strings give the same ordinal in slot 0.  Conversely the sample key table and the
unbound table, which differ in slot 0, are written to different strings. -/
theorem serialization_injective_witness :
    sampleConsts.ord (sampleDisplay.myKeyTable 0) = sampleConsts.ord (sampleDisplay.myKeyTable 0) ∧
      mapBuffer sampleConsts sampleKeyTable 3
        ≠ mapBuffer sampleConsts (fun _ => EventType.NoType) 3 :=
  ⟨(serialization_injective sampleConsts sampleDisplay sampleDisplay sampleKeyTable
      sampleKeyTable 3).1 rfl 0 (by decide),
   fun h => absurd
    ((serialization_injective sampleConsts sampleDisplay sampleDisplay sampleKeyTable
      (fun _ => EventType.NoType) 3).2.2.1 h 0 (by decide))
    (by decide)⟩

/-! ## The drawing of the remap menu -/

/-- The calls of `drawRemapMenu` in the order made: the box, two texts for each row of
the window, the two marks of the current line, and the up and down arrows under their
tests. -/
theorem drawRemapMenu_eq (s : FrameBuffer) :
    drawRemapMenu s
      = [DrawOp.drawBoundedBox (toUInt32 (remapX s - 2)) (toUInt32 (remapY s - 2))
          (toUInt32 (remapWidth s + 3)) (toUInt32 (remapHeight s + 3))]
        ++ (List.range (s.myRemapMenuHighIndex - s.myRemapMenuLowIndex).toNat).flatMap
            (remapRowOps s)
        ++ remapMarkOps s
        ++ (if toInt32 (s.myRemapMenuHighIndex - s.myMaxRows) > 0 then
            [DrawOp.drawChar (toUInt32 ((remapWidth s / 2 : Nat) - 4)) (remapY s) UPARROW]
          else [])
        ++ (if toInt32 (s.myRemapMenuLowIndex + s.myMaxRows) < s.myRemapMenuItems then
            [DrawOp.drawChar (toUInt32 ((remapWidth s / 2 : Nat) - 4))
              (toUInt32 (remapHeight s - 4)) DOWNARROW]
          else []) := by
  rfl

theorem remapRows_no_char (s : FrameBuffer) (k : Nat) (x y g : Nat) :
    DrawOp.drawChar x y g ∉ (List.range k).flatMap (remapRowOps s) := by
  intro h
  rw [List.mem_flatMap] at h
  obtain ⟨n, _, hn⟩ := h
  unfold remapRowOps at hn
  simp only [List.mem_cons, List.mem_singleton, List.not_mem_nil, or_false] at hn
  rcases hn with hn | hn <;> cases hn

theorem remapMarks_glyph (s : FrameBuffer) (x y g : Nat)
    (h : DrawOp.drawChar x y g ∈ remapMarkOps s) :
    g = LEFTARROW ∨ g = RIGHTARROW ∨ g = LEFTMARKER ∨ g = RIGHTMARKER := by
  unfold remapMarkOps at h
  dsimp only at h
  split_ifs at h <;>
    simp only [List.mem_cons, List.mem_singleton, List.not_mem_nil, or_false,
      DrawOp.drawChar.injEq] at h
  · rcases h with h | h
    · exact Or.inr (Or.inr (Or.inl h.2.2))
    · exact Or.inr (Or.inr (Or.inr h.2.2))
  · rcases h with h | h
    · exact Or.inl h.2.2
    · exact Or.inr (Or.inl h.2.2)

/-- The up-arrow is among the calls of `drawRemapMenu` exactly when its test holds, and
likewise the down-arrow. -/
theorem drawRemapMenu_arrows (s : FrameBuffer) :
    (drawsUpArrow (drawRemapMenu s) ↔ toInt32 (s.myRemapMenuHighIndex - s.myMaxRows) > 0) ∧
      (drawsDownArrow (drawRemapMenu s)
        ↔ toInt32 (s.myRemapMenuLowIndex + s.myMaxRows) < s.myRemapMenuItems) := by
  have hmark : ∀ x y g, g = UPARROW ∨ g = DOWNARROW →
      DrawOp.drawChar x y g ∉ remapMarkOps s := by
    intro x y g hg hmem
    have h := remapMarks_glyph s x y g hmem
    unfold UPARROW DOWNARROW at hg
    unfold LEFTARROW RIGHTARROW LEFTMARKER RIGHTMARKER at h
    omega
  constructor
  · unfold drawsUpArrow
    rw [drawRemapMenu_eq]
    constructor
    · rintro ⟨x, y, h⟩
      simp only [List.mem_append, List.mem_singleton] at h
      rcases h with (((h | h) | h) | h) | h
      · cases h
      · exact absurd h (remapRows_no_char s _ x y _)
      · exact absurd h (hmark x y _ (Or.inl rfl))
      · by_contra hc
        rw [if_neg hc] at h
        cases h
      · split_ifs at h
        · rw [List.mem_singleton] at h
          have h3 := (DrawOp.drawChar.injEq _ _ _ _ _ _).mp h
          exact absurd h3.2.2 (by decide)
        · cases h
    · intro hc
      refine ⟨toUInt32 ((remapWidth s / 2 : Nat) - 4), remapY s, ?_⟩
      rw [if_pos hc]
      simp only [List.mem_append, List.mem_singleton, true_or, or_true]
  · unfold drawsDownArrow
    rw [drawRemapMenu_eq]
    constructor
    · rintro ⟨x, y, h⟩
      simp only [List.mem_append, List.mem_singleton] at h
      rcases h with (((h | h) | h) | h) | h
      · cases h
      · exact absurd h (remapRows_no_char s _ x y _)
      · exact absurd h (hmark x y _ (Or.inr rfl))
      · split_ifs at h
        · rw [List.mem_singleton] at h
          have h3 := (DrawOp.drawChar.injEq _ _ _ _ _ _).mp h
          exact absurd h3.2.2 (by decide)
        · cases h
      · by_contra hc
        rw [if_neg hc] at h
        cases h
    · intro hc
      refine ⟨toUInt32 ((remapWidth s / 2 : Nat) - 4), toUInt32 (remapHeight s - 4), ?_⟩
      rw [if_pos hc]
      simp only [List.mem_append, List.mem_singleton, or_true]

/-- C31: the more-above and more-below indicators.  In every remap-menu state satisfying
the window invariant for N >= 1 items and page size myMaxRows >= 1 (N below myMaxRows
included), drawRemapMenu draws the up-arrow if and only if windowLow > 0 and the
down-arrow if and only if windowHigh < N: the tests of the code, high - myMaxRows > 0 and
low + myMaxRows < N, are equivalent to those two conditions. -/
theorem more_indicators (N P : Int) (s : FrameBuffer)
    (hN : s.myRemapMenuItems = N) (hP : s.myMaxRows = P)
    (h1 : 1 ≤ N) (hP1 : 1 ≤ P) (hN2 : N < 2147483648) (hP2 : P < 2147483648)
    (h : WindowInv N P s) :
    (drawsUpArrow (drawRemapMenu s) ↔ 0 < s.myRemapMenuLowIndex) ∧
      (drawsDownArrow (drawRemapMenu s) ↔ s.myRemapMenuHighIndex < N) ∧
      (toInt32 (s.myRemapMenuHighIndex - s.myMaxRows) > 0 ↔ 0 < s.myRemapMenuLowIndex) ∧
      (toInt32 (s.myRemapMenuLowIndex + s.myMaxRows) < s.myRemapMenuItems
        ↔ s.myRemapMenuHighIndex < N) := by
  have ha := drawRemapMenu_arrows s
  unfold WindowInv at h
  rw [hN, hP] at ha ⊢
  have hup : toInt32 (s.myRemapMenuHighIndex - P) > 0 ↔ 0 < s.myRemapMenuLowIndex := by
    rw [toInt32_of_bounds (by omega) (by omega)]
    constructor <;> intro hh <;> omega
  have hdown : toInt32 (s.myRemapMenuLowIndex + P) < N ↔ s.myRemapMenuHighIndex < N := by
    rw [toInt32_of_bounds (by omega) (by omega)]
    constructor <;> intro hh <;> omega
  exact ⟨ha.1.trans hup, ha.2.trans hdown, hup, hdown⟩

/-- C31, witness: the sample remap menu (57 rows, 10 visible, window from 0 to 10) draws
the down-arrow and no up-arrow. -/
theorem more_indicators_witness :
    ¬ drawsUpArrow (drawRemapMenu sampleRemap) ∧ drawsDownArrow (drawRemapMenu sampleRemap) := by
  have h := more_indicators 57 10 sampleRemap sampleRemap_start.2.1
    sampleRemap_start.2.2.2.2.2 (by decide) (by decide) (by decide) (by decide)
    sampleRemap_windowInv
  have hlow : sampleRemap.myRemapMenuLowIndex = 0 := sampleRemap_start.2.2.2.1
  have hhigh : sampleRemap.myRemapMenuHighIndex = 10 := sampleRemap_start.2.2.2.2.1
  constructor
  · rw [h.1, hlow]
    decide
  · rw [h.2.1, hhigh]
    decide

theorem remapKeyText_length (c : Consts) (s : FrameBuffer) (e : EventType)
    (hlen : 4 ≤ keyBudget s) : (remapKeyText c s e).length ≤ keyBudget s := by
  unfold remapKeyText
  dsimp only
  have h3 : toUInt32 ((keyBudget s : Int) - 3) = keyBudget s - 3 := by
    unfold toUInt32
    have := keyBudget_lt s
    omega
  split_ifs with h1 h2
  · rw [String.length_append, substr_zero_length, h3]
    have hd : ("..." : String).length = 3 := by decide
    rw [hd]
    omega
  · omega
  · have hn : ("None" : String).length = 4 := by decide
    rw [hn]
    exact hlen

theorem ourRemapMenu_action_length (i : Nat) :
    (ourRemapMenu.getD i ⟨EventType.NoType, "", ""⟩).action.length ≤ 19 := by
  have hall : ∀ r ∈ ourRemapMenu, r.action.length ≤ 19 := by decide
  by_cases hi : i < ourRemapMenu.length
  · rw [List.getD_eq_getElem _ _ hi]
    exact hall _ (List.getElem_mem hi)
  · rw [List.getD_eq_default _ _ (by omega)]
    decide

theorem remapRowOps_mem (s : FrameBuffer) (n : Nat)
    (hn : n < (s.myRemapMenuHighIndex - s.myRemapMenuLowIndex).toNat) :
    ∀ op ∈ remapRowOps s n, op ∈ drawRemapMenu s := by
  intro op hop
  rw [drawRemapMenu_eq]
  simp only [List.mem_append]
  refine Or.inl (Or.inl (Or.inl (Or.inr ?_)))
  rw [List.mem_flatMap]
  exact ⟨n, List.mem_range.mpr hn, hop⟩

/-- C32 (as amended): the columns of the remap menu do not overlap on a display at least
224 pixels wide.  For every display width w with 224 <= w (28 columns or more), with
myMaxColumns as initDisplay computes it from w, every binding table, and every entry i
whose cached description is the one loadRemapMenu computes from the tables (as it is
after loadRemapMenu, for all 57 entries): the x-coordinate at which drawRemapMenu starts
the description, width - 8 * len(description), is at or beyond the x-coordinate at which
the event name ends, x + XBOXOFFSET + 8 * len(name); names have at most 19 characters and
descriptions at most myMaxColumns - 21.  When the entry is the n-th row of the window,
drawRemapMenu draws the whole event name of ourRemapMenu and the cached description at
these coordinates. -/
theorem remap_columns_do_not_overlap (c : Consts) (s s0 : FrameBuffer) (w i n : Nat)
    (hw : s.myWidth = w) (hwide : 224 ≤ w) (hw32 : w < 4294967296)
    (hcols : s.myMaxColumns = toInt32 ((w / 8 : Nat) - 3))
    (hkey : s.ourRemapMenuKey i
      = remapKeyText c s (ourRemapMenu.getD i ⟨EventType.NoType, "", ""⟩).event) :
    (remapNameX s : Int)
          + 8 * (ourRemapMenu.getD i ⟨EventType.NoType, "", ""⟩).action.length
        ≤ remapKeyX s i ∧
      (remapKeyX s i : Int) = remapWidth s - 8 * (s.ourRemapMenuKey i).length ∧
      (remapNameX s : Int) = remapX s + XBOXOFFSET ∧
      (ourRemapMenu.getD i ⟨EventType.NoType, "", ""⟩).action.length ≤ 19 ∧
      ((s.ourRemapMenuKey i).length : Int) ≤ s.myMaxColumns - 21 ∧
      (n < (s.myRemapMenuHighIndex - s.myRemapMenuLowIndex).toNat →
        (s.myRemapMenuLowIndex + n).toNat = i →
        DrawOp.drawText (remapNameX s) (remapRowY s n)
            (ourRemapMenu.getD i ⟨EventType.NoType, "", ""⟩).action ∈ drawRemapMenu s ∧
          DrawOp.drawText (remapKeyX s i) (remapRowY s n) (s.ourRemapMenuKey i)
            ∈ drawRemapMenu s) ∧
      ((i : Int) < s0.myRemapMenuItems →
        (loadRemapMenu c s0).ourRemapMenuKey i
          = remapKeyText c (loadRemapMenu c s0)
              (ourRemapMenu.getD i ⟨EventType.NoType, "", ""⟩).event) := by
  have hname := ourRemapMenu_action_length i
  have hc : s.myMaxColumns = (w / 8 : Nat) - 3 := by
    rw [hcols]
    exact toInt32_of_bounds (by omega) (by omega)
  have hbud : (keyBudget s : Int) = s.myMaxColumns - 21 := by
    unfold keyBudget
    have h1 : toInt32 (s.myMaxColumns - 19) = s.myMaxColumns - 19 :=
      toInt32_of_bounds (by omega) (by omega)
    rw [h1, toInt32_of_bounds (by omega) (by omega)]
    unfold toUInt32
    omega
  have hlen := remapKeyText_length c s
    (ourRemapMenu.getD i ⟨EventType.NoType, "", ""⟩).event (by omega)
  rw [← hkey] at hlen
  have hwidth : (remapWidth s : Int) = 8 * (w / 8 : Nat) - 16 := by
    unfold remapWidth FONTWIDTH toUInt32
    rw [hw]
    omega
  have hx : (remapX s : Int) = (w / 2 : Nat) - 4 * (w / 8 : Nat) + 8 := by
    unfold remapX toUInt32
    rw [hw]
    omega
  have hnx : (remapNameX s : Int) = remapX s + XBOXOFFSET := by
    unfold remapNameX XBOXOFFSET toUInt32
    omega
  have hkx : (remapKeyX s i : Int) = remapWidth s - 8 * (s.ourRemapMenuKey i).length := by
    unfold remapKeyX FONTWIDTH toUInt32
    omega
  refine ⟨?_, hkx, hnx, hname, by omega, ?_, ?_⟩
  · rw [hkx, hnx, hwidth, hx]
    unfold XBOXOFFSET
    omega
  · intro hn hi
    have hmem := remapRowOps_mem s n hn
    unfold remapRowOps at hmem
    rw [hi] at hmem
    exact ⟨hmem _ (List.mem_cons_self _ _),
      hmem _ (List.mem_cons_of_mem _ (List.mem_cons_self _ _))⟩
  · intro hi
    rw [loadRemapMenu_key c s0 i hi, loadRemapMenu_eq]
    rfl

set_option maxRecDepth 10000 in
theorem remap_columns_do_not_overlap_witness :
    sampleRemap.myWidth = 256 ∧
      sampleRemap.myMaxColumns = toInt32 ((256 / 8 : Nat) - 3) ∧
      sampleRemap.ourRemapMenuKey 17
        = remapKeyText sampleConsts sampleRemap
            (ourRemapMenu.getD 17 ⟨EventType.NoType, "", ""⟩).event ∧
      (remapNameX sampleRemap : Int)
          + 8 * (ourRemapMenu.getD 17 ⟨EventType.NoType, "", ""⟩).action.length
        ≤ remapKeyX sampleRemap 17 :=
  ⟨rfl, rfl, by decide,
    (remap_columns_do_not_overlap sampleConsts sampleRemap sampleRemap 256 17 0 rfl
      (by decide) (by decide) rfl (by decide)).1⟩

set_option maxRecDepth 10000 in
/-- C32 (counterexample): on a display 160 pixels wide (17 columns) the columns overlap.
In the remap menu of sampleSmall the row of entry 6, "Right Diff. B" (13 characters),
starts at x = 16 and so ends at x = 120, while its description "None" starts at
x = 112; both texts are drawn by drawRemapMenu on the same line, and the cached
description is the one loadRemapMenu computes from the tables. -/
theorem remap_columns_overlap_on_narrow_display :
    sampleSmall.myWidth = 160 ∧
      sampleSmall.ourRemapMenuKey 6
        = remapKeyText sampleConsts sampleSmall
            (ourRemapMenu.getD 6 ⟨EventType.NoType, "", ""⟩).event ∧
      DrawOp.drawText 16 70 "Right Diff. B" ∈ drawRemapMenu sampleSmall ∧
      DrawOp.drawText 112 70 "None" ∈ drawRemapMenu sampleSmall ∧
      (ourRemapMenu.getD 6 ⟨EventType.NoType, "", ""⟩).action = "Right Diff. B" ∧
      sampleSmall.ourRemapMenuKey 6 = "None" ∧
      remapNameX sampleSmall = 16 ∧
      remapKeyX sampleSmall 6 = 112 ∧
      ¬ ((remapNameX sampleSmall : Int)
            + 8 * (ourRemapMenu.getD 6 ⟨EventType.NoType, "", ""⟩).action.length
          ≤ remapKeyX sampleSmall 6) := by
  refine ⟨rfl, by decide, ?_, ?_, by decide, by decide, by decide, by decide, by decide⟩
  · exact remapRowOps_mem sampleSmall 6 (by decide) _ (by decide)
  · exact remapRowOps_mem sampleSmall 6 (by decide) _ (by decide)

/-! ## The capture invariant -/

theorem moveCursorUp_frame (a : Nat) (s : FrameBuffer) :
    (moveCursorUp a s).myRemapEventSelectedFlag = s.myRemapEventSelectedFlag ∧
      (moveCursorUp a s).mySelectedEvent = s.mySelectedEvent ∧
      (moveCursorUp a s).myMaxRows = s.myMaxRows ∧
      (moveCursorUp a s).myRemapMenuItems = s.myRemapMenuItems ∧
      (moveCursorUp a s).myCurrentWidget = s.myCurrentWidget ∧
      (s.myCurrentWidget ≠ Widget.REMAP_MENU →
        (moveCursorUp a s).myRemapMenuIndex = s.myRemapMenuIndex ∧
          (moveCursorUp a s).myRemapMenuLowIndex = s.myRemapMenuLowIndex ∧
          (moveCursorUp a s).myRemapMenuHighIndex = s.myRemapMenuHighIndex) := by
  unfold moveCursorUp
  split
  · split_ifs <;> exact ⟨rfl, rfl, rfl, rfl, rfl, fun _ => ⟨rfl, rfl, rfl⟩⟩
  · next hw =>
    dsimp only
    split_ifs <;> exact ⟨rfl, rfl, rfl, rfl, rfl, fun h => absurd hw h⟩
  · exact ⟨rfl, rfl, rfl, rfl, rfl, fun _ => ⟨rfl, rfl, rfl⟩⟩

theorem moveCursorDown_frame (a : Nat) (s : FrameBuffer) :
    (moveCursorDown a s).myRemapEventSelectedFlag = s.myRemapEventSelectedFlag ∧
      (moveCursorDown a s).mySelectedEvent = s.mySelectedEvent ∧
      (moveCursorDown a s).myMaxRows = s.myMaxRows ∧
      (moveCursorDown a s).myRemapMenuItems = s.myRemapMenuItems ∧
      (moveCursorDown a s).myCurrentWidget = s.myCurrentWidget ∧
      (s.myCurrentWidget ≠ Widget.REMAP_MENU →
        (moveCursorDown a s).myRemapMenuIndex = s.myRemapMenuIndex ∧
          (moveCursorDown a s).myRemapMenuLowIndex = s.myRemapMenuLowIndex ∧
          (moveCursorDown a s).myRemapMenuHighIndex = s.myRemapMenuHighIndex) := by
  unfold moveCursorDown
  split
  · split_ifs <;> exact ⟨rfl, rfl, rfl, rfl, rfl, fun _ => ⟨rfl, rfl, rfl⟩⟩
  · next hw =>
    dsimp only
    split_ifs <;> exact ⟨rfl, rfl, rfl, rfl, rfl, fun h => absurd hw h⟩
  · exact ⟨rfl, rfl, rfl, rfl, rfl, fun _ => ⟨rfl, rfl, rfl⟩⟩

theorem loadRemapMenu_frame (c : Consts) (s : FrameBuffer) :
    (loadRemapMenu c s).myRemapMenuIndex = s.myRemapMenuIndex ∧
      (loadRemapMenu c s).myRemapMenuLowIndex = s.myRemapMenuLowIndex ∧
      (loadRemapMenu c s).myRemapMenuHighIndex = s.myRemapMenuHighIndex ∧
      (loadRemapMenu c s).myRemapMenuItems = s.myRemapMenuItems ∧
      (loadRemapMenu c s).myMaxRows = s.myMaxRows ∧
      (loadRemapMenu c s).myRemapEventSelectedFlag = s.myRemapEventSelectedFlag ∧
      (loadRemapMenu c s).mySelectedEvent = s.mySelectedEvent ∧
      (loadRemapMenu c s).myCurrentWidget = s.myCurrentWidget := by
  rw [loadRemapMenu_eq]
  exact ⟨rfl, rfl, rfl, rfl, rfl, rfl, rfl, rfl⟩

/-- The capture invariant only reads the cursor, the window, the item count, the row
count, the flag, the widget and the selected event. -/
theorem captureInv_of_eq (s r : FrameBuffer) (h : CaptureInv s)
    (hi : r.myRemapMenuIndex = s.myRemapMenuIndex)
    (hl : r.myRemapMenuLowIndex = s.myRemapMenuLowIndex)
    (hh : r.myRemapMenuHighIndex = s.myRemapMenuHighIndex)
    (hN : r.myRemapMenuItems = s.myRemapMenuItems)
    (hP : r.myMaxRows = s.myMaxRows)
    (hf : r.myRemapEventSelectedFlag = true →
      s.myRemapEventSelectedFlag = true ∧ r.myCurrentWidget = s.myCurrentWidget ∧
        r.mySelectedEvent = s.mySelectedEvent) :
    CaptureInv r := by
  unfold CaptureInv WindowInv currentSelectedEvent at *
  rw [hi, hl, hh, hN, hP]
  refine ⟨h.1, h.2.1, h.2.2.1, ?_⟩
  intro hr
  obtain ⟨hs, hw, he⟩ := hf hr
  rw [hw, he]
  exact h.2.2.2 hs

theorem captureInv_move (s r : FrameBuffer) (h : CaptureInv s)
    (hs : s.myRemapEventSelectedFlag = false)
    (hf : r.myRemapEventSelectedFlag = s.myRemapEventSelectedFlag)
    (hP : r.myMaxRows = s.myMaxRows)
    (hwin : WindowInv 57 s.myMaxRows r ∧ r.myCurrentWidget = Widget.REMAP_MENU ∧
      r.myRemapMenuItems = 57) : CaptureInv r := by
  unfold CaptureInv at *
  rw [hP]
  refine ⟨hwin.2.2, h.2.1, hwin.1, ?_⟩
  intro hr
  rw [hf, hs] at hr
  exact absurd hr (by decide)

theorem currentSelectedEvent_ne_NoType (s : FrameBuffer) (h : CaptureInv s) :
    currentSelectedEvent s ≠ EventType.NoType ∧
      currentSelectedEvent s
        = (ourRemapMenu.getD s.myRemapMenuIndex.toNat ⟨EventType.NoType, "", ""⟩).event ∧
      0 ≤ s.myRemapMenuIndex ∧ s.myRemapMenuIndex < 57 := by
  unfold CaptureInv WindowInv at h
  obtain ⟨hN, _, ⟨h1, h2, _, h4, h5⟩, _⟩ := h
  have hr : s.myRemapMenuIndex ≥ 0 ∧ s.myRemapMenuIndex < s.myRemapMenuItems := by
    rw [hN]
    constructor <;> omega
  unfold currentSelectedEvent
  rw [if_pos hr]
  refine ⟨ourRemapMenu_event_ne_NoType _ (by omega), rfl, by omega, by omega⟩

theorem captureInv_flag_false (s : FrameBuffer) (h : CaptureInv s)
    (hw : s.myCurrentWidget ≠ Widget.REMAP_MENU) : s.myRemapEventSelectedFlag = false := by
  cases hf : s.myRemapEventSelectedFlag with
  | false => rfl
  | true => exact absurd (h.2.2.2 hf).1 hw

theorem moveCursorUp_captureInv (a : Nat) (s : FrameBuffer) (ha : (a : Int) + 57 < 2147483648)
    (hs : s.myRemapEventSelectedFlag = false) (h : CaptureInv s) :
    CaptureInv (moveCursorUp a s) := by
  obtain ⟨f1, f2, f3, f4, f5, f6⟩ := moveCursorUp_frame a s
  by_cases hw : s.myCurrentWidget = Widget.REMAP_MENU
  · exact captureInv_move s _ h hs f1 f3
      (moveCursorUp_windowInv 57 s.myMaxRows a s hw h.1 (by decide) h.2.1 ha h.2.2.1)
  · obtain ⟨g1, g2, g3⟩ := f6 hw
    exact captureInv_of_eq s _ h g1 g2 g3 f4 f3 (fun hr => ⟨f1 ▸ hr, f5, f2⟩)

theorem moveCursorDown_captureInv (a : Nat) (s : FrameBuffer)
    (ha : (a : Int) + 57 < 2147483648)
    (hs : s.myRemapEventSelectedFlag = false) (h : CaptureInv s) :
    CaptureInv (moveCursorDown a s) := by
  obtain ⟨f1, f2, f3, f4, f5, f6⟩ := moveCursorDown_frame a s
  by_cases hw : s.myCurrentWidget = Widget.REMAP_MENU
  · exact captureInv_move s _ h hs f1 f3
      (moveCursorDown_windowInv 57 s.myMaxRows a s hw h.1 (by decide) h.2.1 ha h.2.2.1)
  · obtain ⟨g1, g2, g3⟩ := f6 hw
    exact captureInv_of_eq s _ h g1 g2 g3 f4 f3 (fun hr => ⟨f1 ▸ hr, f5, f2⟩)

theorem captureInv_changed (s : FrameBuffer) (h : CaptureInv s) :
    CaptureInv { s with theMenuChangedIndicator := true } :=
  captureInv_of_eq s _ h rfl rfl rfl rfl rfl (fun hr => ⟨hr, rfl, rfl⟩)

theorem sendKeyEvent_captureInv (c : Consts) (key : Nat) (state : Int) (s : FrameBuffer)
    (h : CaptureInv s) : CaptureInv (sendKeyEvent c key state s) := by
  have hc := captureInv_changed s h
  by_cases hst : state = 1
  · subst hst
    cases hw : s.myCurrentWidget with
    | W_NONE => rw [sendKeyEvent_off c key 1 s (Or.inl hw)]; exact h
    | MAIN_MENU =>
      have hf : s.myRemapEventSelectedFlag = false :=
        captureInv_flag_false s h (by rw [hw]; decide)
      rw [sendKeyEvent_main c key s hw]
      split_ifs
      · exact captureInv_of_eq s _ h rfl rfl rfl rfl rfl
          (fun hr => absurd (hf ▸ hr : false = true) Bool.false_ne_true)
      · exact moveCursorUp_captureInv 1 _ (by decide) hf hc
      · exact moveCursorDown_captureInv 1 _ (by decide) hf hc
      · exact hc
    | REMAP_MENU =>
      cases hf : s.myRemapEventSelectedFlag with
      | true =>
        rw [sendKeyEvent_remap_capture c key s hw hf]
        split_ifs
        · obtain ⟨g1, g2, g3, g4, g5, _, _, _⟩ := loadRemapMenu_frame c
            { { { s with theMenuChangedIndicator := true } with
                myKeyTable := clearEvent s.mySelectedEvent s.myKeyTableSize s.myKeyTable } with
              myJoyTable := clearEvent s.mySelectedEvent s.myJoyTableSize s.myJoyTable }
          exact captureInv_of_eq s _ h g1 g2 g3 g4 g5
            (fun hr => absurd (hr : false = true) Bool.false_ne_true)
        · obtain ⟨g1, g2, g3, g4, g5, _, _, _⟩ := loadRemapMenu_frame c
            { { s with theMenuChangedIndicator := true } with
              myKeyTable := Function.update s.myKeyTable key s.mySelectedEvent }
          exact captureInv_of_eq s _ h g1 g2 g3 g4 g5
            (fun hr => absurd (hr : false = true) Bool.false_ne_true)
      | false =>
        rw [sendKeyEvent_remap_browse c key s hw hf]
        split_ifs
        · have hne := currentSelectedEvent_ne_NoType s h
          unfold CaptureInv at h ⊢
          exact ⟨h.1, h.2.1, h.2.2.1, fun _ => ⟨hw, rfl, hne.1⟩⟩
        · exact moveCursorUp_captureInv 1 _ (by decide) hf hc
        · exact moveCursorDown_captureInv 1 _ (by decide) hf hc
        · exact moveCursorUp_captureInv 4 _ (by decide) hf hc
        · exact moveCursorDown_captureInv 4 _ (by decide) hf hc
        · exact captureInv_of_eq s _ h rfl rfl rfl rfl rfl
            (fun hr => absurd (hf ▸ hr : false = true) Bool.false_ne_true)
        · exact hc
    | INFO_MENU =>
      have hf : s.myRemapEventSelectedFlag = false :=
        captureInv_flag_false s h (by rw [hw]; decide)
      rw [sendKeyEvent_info c key s hw]
      split_ifs
      · exact captureInv_of_eq s _ h rfl rfl rfl rfl rfl
          (fun hr => absurd (hf ▸ hr : false = true) Bool.false_ne_true)
      · exact hc
    | invalid n =>
      rw [sendKeyEvent_invalid c key s n hw]
      exact hc
  · rw [sendKeyEvent_off c key state s (Or.inr hst)]
    exact h

theorem sendJoyEvent_captureInv (c : Consts) (stick code : Nat) (state : Int)
    (s : FrameBuffer) (h : CaptureInv s) : CaptureInv (sendJoyEvent c stick code state s) := by
  have hc := captureInv_changed s h
  by_cases hst : state = 1
  · subst hst
    cases hw : s.myCurrentWidget with
    | W_NONE => rw [sendJoyEvent_off c stick code 1 s (Or.inl hw)]; exact h
    | MAIN_MENU =>
      have hf : s.myRemapEventSelectedFlag = false :=
        captureInv_flag_false s h (by rw [hw]; decide)
      rw [sendJoyEvent_main c stick code s hw]
      split_ifs
      · exact moveCursorUp_captureInv 1 _ (by decide) hf hc
      · exact moveCursorDown_captureInv 1 _ (by decide) hf hc
      · exact hc
    | REMAP_MENU =>
      rw [sendJoyEvent_remap c stick code s hw]
      split_ifs with hf
      · obtain ⟨g1, g2, g3, g4, g5, _, _, _⟩ := loadRemapMenu_frame c
          { { s with theMenuChangedIndicator := true } with
            myJoyTable := Function.update s.myJoyTable (stick * c.LastJCODE + code)
              s.mySelectedEvent }
        exact captureInv_of_eq s _ h g1 g2 g3 g4 g5
          (fun hr => absurd (hr : false = true) Bool.false_ne_true)
      · have hf2 : s.myRemapEventSelectedFlag = false := by
          cases hx : s.myRemapEventSelectedFlag with
          | false => rfl
          | true => exact absurd hx hf
        exact moveCursorUp_captureInv 1 _ (by decide) hf2 hc
      · have hf2 : s.myRemapEventSelectedFlag = false := by
          cases hx : s.myRemapEventSelectedFlag with
          | false => rfl
          | true => exact absurd hx hf
        exact moveCursorDown_captureInv 1 _ (by decide) hf2 hc
      · exact hc
    | INFO_MENU =>
      rw [sendJoyEvent_other c stick code s (Or.inl hw)]
      exact hc
    | invalid n =>
      rw [sendJoyEvent_other c stick code s (Or.inr ⟨n, hw⟩)]
      exact hc
  · rw [sendJoyEvent_off c stick code state s (Or.inr hst)]
    exact h

theorem update_frame (s : FrameBuffer) :
    (update s).1.myRemapMenuIndex = s.myRemapMenuIndex ∧
      (update s).1.myRemapMenuLowIndex = s.myRemapMenuLowIndex ∧
      (update s).1.myRemapMenuHighIndex = s.myRemapMenuHighIndex ∧
      (update s).1.myRemapMenuItems = s.myRemapMenuItems ∧
      (update s).1.myMaxRows = s.myMaxRows ∧
      (update s).1.myRemapEventSelectedFlag = s.myRemapEventSelectedFlag ∧
      (update s).1.mySelectedEvent = s.mySelectedEvent ∧
      (update s).1.myCurrentWidget = s.myCurrentWidget := by
  unfold update
  dsimp only
  split_ifs <;> exact ⟨rfl, rfl, rfl, rfl, rfl, rfl, rfl, rfl⟩

theorem applyInput_captureInv (c : Consts) (i : Input) (s : FrameBuffer) (h : CaptureInv s) :
    CaptureInv (applyInput c i s) := by
  cases i with
  | showMenu b =>
    exact captureInv_of_eq s _ h rfl rfl rfl rfl rfl
      (fun hr => absurd (hr : false = true) Bool.false_ne_true)
  | key k st => exact sendKeyEvent_captureInv c k st s h
  | joy stick code st => exact sendJoyEvent_captureInv c stick code st s h
  | update =>
    obtain ⟨g1, g2, g3, g4, g5, g6, g7, g8⟩ := update_frame s
    exact captureInv_of_eq s _ h g1 g2 g3 g4 g5 (fun hr => ⟨g6 ▸ hr, g8, g7⟩)

theorem runInputs_captureInv (c : Consts) (inputs : List Input) (s : FrameBuffer)
    (h : CaptureInv s) : CaptureInv (runInputs c inputs s) := by
  induction inputs generalizing s with
  | nil => exact h
  | cons i rest ih => exact ih (applyInput c i s) (applyInput_captureInv c i s h)

theorem initDisplay_fields (c : Consts) (props : String → String)
    (keyTable : Nat → EventType) (keyTableSize : Nat)
    (joyTable : Nat → EventType) (joyTableSize : Nat)
    (frameRate : Int) (width height : Nat) :
    (fun st : FrameBuffer =>
      st.myRemapMenuItems = 57 ∧ st.myRemapMenuIndex = 0 ∧ st.myRemapMenuLowIndex = 0 ∧
        ((57 : Int) > st.myMaxRows → st.myRemapMenuHighIndex = st.myMaxRows) ∧
        (¬ (57 : Int) > st.myMaxRows → st.myRemapMenuHighIndex = 57) ∧
        st.myRemapEventSelectedFlag = false)
      (initDisplay c props keyTable keyTableSize joyTable joyTableSize frameRate
        width height FrameBuffer.new) := by
  unfold initDisplay
  obtain ⟨g1, g2, g3, g4, g5, g6, _, _⟩ := loadRemapMenu_frame c
    (forLoop 9
      (fun i st =>
        if (st.ourPropertiesInfo i).length > toUInt32 st.myInfoMenuWidth then
          let st : FrameBuffer :=
            { st with myInfoMenuWidth := toInt32 (st.ourPropertiesInfo i).length }
          if st.myInfoMenuWidth > st.myMaxColumns then
            { st with
              myInfoMenuWidth := st.myMaxColumns
              ourPropertiesInfo := Function.update st.ourPropertiesInfo i
                (substr (st.ourPropertiesInfo i) 0 (toSizeT (toInt32 (st.myMaxColumns - 3)))
                  ++ "...") }
          else st
        else st)
      _)
  dsimp only at g1 g2 g3 g4 g5 g6 ⊢
  rw [g1, g2, g3, g4, g5, g6]
  apply forLoop_preserves
    (fun st : FrameBuffer =>
      st.myRemapMenuItems = 57 ∧ st.myRemapMenuIndex = 0 ∧ st.myRemapMenuLowIndex = 0 ∧
        ((57 : Int) > st.myMaxRows → st.myRemapMenuHighIndex = st.myMaxRows) ∧
        (¬ (57 : Int) > st.myMaxRows → st.myRemapMenuHighIndex = 57) ∧
        st.myRemapEventSelectedFlag = false)
  · intro i st hst
    dsimp only at hst ⊢
    split_ifs <;> exact hst
  · dsimp only
    refine ⟨rfl, rfl, rfl, ?_, ?_, rfl⟩
    · intro hc
      exact if_pos hc
    · intro hc
      exact if_neg hc

theorem initDisplay_captureInv (c : Consts) (props : String → String)
    (keyTable : Nat → EventType) (keyTableSize : Nat)
    (joyTable : Nat → EventType) (joyTableSize : Nat)
    (frameRate : Int) (width height : Nat)
    (hrows : 1 ≤ (initDisplay c props keyTable keyTableSize joyTable joyTableSize frameRate
      width height FrameBuffer.new).myMaxRows) :
    CaptureInv (initDisplay c props keyTable keyTableSize joyTable joyTableSize frameRate
      width height FrameBuffer.new) := by
  have hf := initDisplay_fields c props keyTable keyTableSize joyTable joyTableSize frameRate
    width height
  generalize initDisplay c props keyTable keyTableSize joyTable joyTableSize frameRate
    width height FrameBuffer.new = r at *
  obtain ⟨h1, h2, h3, h4, h5, h6⟩ := hf
  unfold CaptureInv WindowInv
  rw [h1, h2, h3, h6]
  by_cases hc : (57 : Int) > r.myMaxRows
  · rw [h4 hc, min_eq_right (by omega)]
    refine ⟨rfl, hrows, ⟨le_refl _, by omega, by omega, le_refl _, by omega⟩, ?_⟩
    intro hr
    exact absurd hr Bool.false_ne_true
  · rw [h5 hc, min_eq_left (by omega)]
    refine ⟨rfl, hrows, ⟨le_refl _, by omega, by omega, le_refl _, by omega⟩, ?_⟩
    intro hr
    exact absurd hr Bool.false_ne_true

theorem applyInput_cursor_fixed (c : Consts) (i : Input) (s : FrameBuffer)
    (hf : s.myRemapEventSelectedFlag = true) (hw : s.myCurrentWidget = Widget.REMAP_MENU) :
    (applyInput c i s).myRemapMenuIndex = s.myRemapMenuIndex ∧
      (applyInput c i s).myRemapMenuLowIndex = s.myRemapMenuLowIndex ∧
      (applyInput c i s).myRemapMenuHighIndex = s.myRemapMenuHighIndex := by
  cases i with
  | showMenu b => exact ⟨rfl, rfl, rfl⟩
  | key k st =>
    show (sendKeyEvent c k st s).myRemapMenuIndex = s.myRemapMenuIndex ∧
      (sendKeyEvent c k st s).myRemapMenuLowIndex = s.myRemapMenuLowIndex ∧
      (sendKeyEvent c k st s).myRemapMenuHighIndex = s.myRemapMenuHighIndex
    by_cases hst : st = 1
    · subst hst
      rw [sendKeyEvent_remap_capture c k s hw hf]
      split_ifs
      · obtain ⟨g1, g2, g3, _⟩ := loadRemapMenu_frame c
          { { { s with theMenuChangedIndicator := true } with
              myKeyTable := clearEvent s.mySelectedEvent s.myKeyTableSize s.myKeyTable } with
            myJoyTable := clearEvent s.mySelectedEvent s.myJoyTableSize s.myJoyTable }
        exact ⟨g1, g2, g3⟩
      · obtain ⟨g1, g2, g3, _⟩ := loadRemapMenu_frame c
          { { s with theMenuChangedIndicator := true } with
            myKeyTable := Function.update s.myKeyTable k s.mySelectedEvent }
        exact ⟨g1, g2, g3⟩
    · rw [sendKeyEvent_off c k st s (Or.inr hst)]
      exact ⟨rfl, rfl, rfl⟩
  | joy stick code st =>
    show (sendJoyEvent c stick code st s).myRemapMenuIndex = s.myRemapMenuIndex ∧
      (sendJoyEvent c stick code st s).myRemapMenuLowIndex = s.myRemapMenuLowIndex ∧
      (sendJoyEvent c stick code st s).myRemapMenuHighIndex = s.myRemapMenuHighIndex
    by_cases hst : st = 1
    · subst hst
      rw [sendJoyEvent_remap c stick code s hw, if_pos hf]
      obtain ⟨g1, g2, g3, _⟩ := loadRemapMenu_frame c
        { { s with theMenuChangedIndicator := true } with
          myJoyTable := Function.update s.myJoyTable (stick * c.LastJCODE + code)
            s.mySelectedEvent }
      exact ⟨g1, g2, g3⟩
    · rw [sendJoyEvent_off c stick code st s (Or.inr hst)]
      exact ⟨rfl, rfl, rfl⟩
  | update =>
    obtain ⟨g1, g2, g3, _⟩ := update_frame s
    exact ⟨g1, g2, g3⟩

/-- C35: the capture-phase invariant.  Let s be the state after initDisplay on a
constructed FrameBuffer, with at least one visible row (myMaxRows >= 1), followed by any
finite sequence of showMenu, sendKeyEvent, sendJoyEvent and update calls.  If
myRemapEventSelectedFlag is set in s, then the current widget is REMAP_MENU, the cursor
is on one of the 57 entries, mySelectedEvent is the event of the entry of ourRemapMenu
under the cursor (the value of currentSelectedEvent), and it is not NoType; and whatever
call comes next, it leaves the cursor myRemapMenuIndex and the window
myRemapMenuLowIndex, myRemapMenuHighIndex where they are. -/
theorem capture_invariant (c : Consts) (props : String → String)
    (keyTable : Nat → EventType) (keyTableSize : Nat)
    (joyTable : Nat → EventType) (joyTableSize : Nat)
    (frameRate : Int) (width height : Nat) (inputs : List Input) (next : Input)
    (s : FrameBuffer)
    (hrows : 1 ≤ (initDisplay c props keyTable keyTableSize joyTable joyTableSize frameRate
      width height FrameBuffer.new).myMaxRows)
    (hs : s = runInputs c inputs
      (initDisplay c props keyTable keyTableSize joyTable joyTableSize frameRate
        width height FrameBuffer.new))
    (hflag : s.myRemapEventSelectedFlag = true) :
    s.myCurrentWidget = Widget.REMAP_MENU ∧
      0 ≤ s.myRemapMenuIndex ∧ s.myRemapMenuIndex < 57 ∧
      s.mySelectedEvent = currentSelectedEvent s ∧
      s.mySelectedEvent
        = (ourRemapMenu.getD s.myRemapMenuIndex.toNat ⟨EventType.NoType, "", ""⟩).event ∧
      s.mySelectedEvent ≠ EventType.NoType ∧
      (applyInput c next s).myRemapMenuIndex = s.myRemapMenuIndex ∧
      (applyInput c next s).myRemapMenuLowIndex = s.myRemapMenuLowIndex ∧
      (applyInput c next s).myRemapMenuHighIndex = s.myRemapMenuHighIndex := by
  have hinv : CaptureInv s := by
    rw [hs]
    exact runInputs_captureInv c inputs _
      (initDisplay_captureInv c props keyTable keyTableSize joyTable joyTableSize frameRate
        width height hrows)
  obtain ⟨hw, he, hne⟩ := hinv.2.2.2 hflag
  obtain ⟨_, hcur, h0, h57⟩ := currentSelectedEvent_ne_NoType s hinv
  obtain ⟨g1, g2, g3⟩ := applyInput_cursor_fixed c next s hflag hw
  exact ⟨hw, h0, h57, he, he.trans hcur, hne, g1, g2, g3⟩

set_option maxRecDepth 10000 in
theorem capture_invariant_witness :
    1 ≤ sampleDisplay.myMaxRows ∧
      sampleCapture
        = runInputs sampleConsts
            [Input.showMenu true, Input.key KCODE_RETURN 1, Input.key KCODE_PAGEDOWN 1,
              Input.key KCODE_PAGEDOWN 1, Input.key KCODE_PAGEDOWN 1,
              Input.key KCODE_PAGEDOWN 1, Input.key KCODE_DOWN 1, Input.key KCODE_RETURN 1]
            sampleDisplay ∧
      sampleCapture.myRemapEventSelectedFlag = true ∧
      sampleCapture.myCurrentWidget = Widget.REMAP_MENU ∧
      sampleCapture.mySelectedEvent
        = (ourRemapMenu.getD sampleCapture.myRemapMenuIndex.toNat
            ⟨EventType.NoType, "", ""⟩).event ∧
      sampleCapture.mySelectedEvent ≠ EventType.NoType ∧
      (applyInput sampleConsts (Input.key KCODE_DOWN 1) sampleCapture).myRemapMenuIndex
        = sampleCapture.myRemapMenuIndex :=
  have h := capture_invariant sampleConsts (fun _ => "") sampleKeyTable LastKCODE
    sampleJoyTable 96 60 256 120
    [Input.showMenu true, Input.key KCODE_RETURN 1, Input.key KCODE_PAGEDOWN 1,
      Input.key KCODE_PAGEDOWN 1, Input.key KCODE_PAGEDOWN 1,
      Input.key KCODE_PAGEDOWN 1, Input.key KCODE_DOWN 1, Input.key KCODE_RETURN 1]
    (Input.key KCODE_DOWN 1) sampleCapture (by decide) rfl (by decide)
  ⟨by decide, rfl, by decide, h.1, h.2.2.2.2.1, h.2.2.2.2.2.1, h.2.2.2.2.2.2.1⟩

/-! ## The redraw policy: what update() draws -/

/-- The calls of `drawMainMenu` for the two entries of `ourMainMenu`, in the order made:
the box, the two titles, and the arrows on the line of the cursor. -/
theorem drawMainMenu_eq (s : FrameBuffer) (x y : Nat)
    (hx : x = toUInt32 ((s.myWidth / 2 : Nat) - 72))
    (hy : y = toUInt32 ((s.myHeight / 2 : Nat) - 18))
    (hitems : s.myMainMenuItems = 2) :
    drawMainMenu s
      = [DrawOp.drawBoundedBox (toUInt32 (x - 2)) (toUInt32 (y - 2)) 147 39,
          DrawOp.drawText (toUInt32 (x + 8)) (toUInt32 (y + 8)) "Event Remapping",
          DrawOp.drawText (toUInt32 (x + 8)) (toUInt32 (10 + y + 8)) "Game Information",
          DrawOp.drawChar x (toUInt32 (toInt32 (10 * s.myMainMenuIndex) + y + 8)) LEFTARROW,
          DrawOp.drawChar (toUInt32 (x + 144 - 8))
            (toUInt32 (toInt32 (10 * s.myMainMenuIndex) + y + 8)) RIGHTARROW] := by
  have h2 : toUInt32 (2 : Int) = 2 := by decide
  have hw : toUInt32 (16 * FONTWIDTH + 16) = 144 := by decide
  have hh : toUInt32 (toInt32 (toInt32 (2 * LINEOFFSET) + 16)) = 36 := by decide
  have hr : List.range 2 = [0, 1] := by decide
  unfold drawMainMenu
  rw [hitems]
  dsimp only
  rw [h2, hw, hh, hr]
  have e72 : ((144 / 2 : Nat) : Int) = 72 := by decide
  have e18 : ((36 / 2 : Nat) : Int) = 18 := by decide
  rw [e72, e18, ← hx, ← hy]
  have e0 : LINEOFFSET * ((0 : Nat) : Int) + (y : Int) + YBOXOFFSET = y + 8 := by
    unfold LINEOFFSET YBOXOFFSET
    omega
  have e1 : LINEOFFSET * ((1 : Nat) : Int) + (y : Int) + YBOXOFFSET = 10 + y + 8 := by
    unfold LINEOFFSET YBOXOFFSET
    omega
  simp only [List.map_cons, List.map_nil, e0, e1]
  rfl

/-- The calls of `drawInfoMenu` in the order made: the box and the nine lines of
`ourPropertiesInfo`. -/
theorem drawInfoMenu_eq (s : FrameBuffer) (width x y : Nat)
    (hwidth : width = toUInt32 (toInt32 (toInt32 (s.myInfoMenuWidth * 8) + 16)))
    (hx : x = toUInt32 ((s.myWidth / 2 : Nat) - (width / 2 : Nat)))
    (hy : y = toUInt32 ((s.myHeight / 2 : Nat) - 53)) :
    drawInfoMenu s
      = [DrawOp.drawBoundedBox x y width 106]
        ++ (List.range 9).map (fun (i : Nat) =>
            DrawOp.drawText (toUInt32 (x + 8)) (toUInt32 (10 * (i : Int) + y + 8))
              (s.ourPropertiesInfo i)) := by
  subst hwidth hx hy
  rfl

theorem update_menu_drawn (s : FrameBuffer) (hm : s.myMenuMode = true)
    (hflag : s.theMenuChangedIndicator = true ∨ s.theRedrawEntireFrameIndicator = true) :
    update s
      = ({ s with theMenuChangedIndicator := false, theRedrawEntireFrameIndicator := false },
          [DrawOp.preFrameUpdate, DrawOp.drawMediaSource] ++ drawCurrentWidget s
            ++ [DrawOp.postFrameUpdate]) := by
  unfold update
  dsimp only
  rw [if_neg (by rw [hm]; simp), if_pos hflag]
  rfl

theorem update_menu_idle (s : FrameBuffer) (hm : s.myMenuMode = true)
    (hflag : ¬ (s.theMenuChangedIndicator = true ∨ s.theRedrawEntireFrameIndicator = true)) :
    update s = (s, [DrawOp.preFrameUpdate, DrawOp.postFrameUpdate]) := by
  unfold update
  dsimp only
  rw [if_neg (by rw [hm]; simp), if_neg hflag]
  rfl

/-- C16: redraw policy.  In menu mode update() draws the overlay if and only if the
menu-changed flag or the redraw-entire-frame flag is set, and then clears exactly these
two flags.  The overlay is the media source followed by the current menu: between the
frame hooks of the derived class the calls are drawMediaSource and then those of
drawMainMenu, drawRemapMenu or drawInfoMenu for the current widget (none for W_NONE or
an unknown widget), and these are, primitive by primitive: for the main menu the box,
the two titles and the two arrows on the line of the cursor; for the remap menu the box,
the name and the description of every row of the window, the marks of the current line
and the up and down arrows under their tests; for the info menu the box and the nine
property lines.  When neither flag is set update() makes no drawing call (only the frame
hooks run) and returns the state unchanged; after every update() in menu mode both flags
are false. -/
theorem update_redraw_policy (s : FrameBuffer) (hm : s.myMenuMode = true) :
    (DrawOp.drawMediaSource ∈ (update s).2 ↔
        (s.theMenuChangedIndicator = true ∨ s.theRedrawEntireFrameIndicator = true)) ∧
      ((s.theMenuChangedIndicator = true ∨ s.theRedrawEntireFrameIndicator = true) →
        (update s).2
            = [DrawOp.preFrameUpdate, DrawOp.drawMediaSource] ++ drawCurrentWidget s
              ++ [DrawOp.postFrameUpdate] ∧
          (update s).1
            = { s with theMenuChangedIndicator := false, theRedrawEntireFrameIndicator := false } ∧
          (s.myCurrentWidget = Widget.W_NONE →
            (update s).2
              = [DrawOp.preFrameUpdate, DrawOp.drawMediaSource, DrawOp.postFrameUpdate]) ∧
          (∀ n, s.myCurrentWidget = Widget.invalid n →
            (update s).2
              = [DrawOp.preFrameUpdate, DrawOp.drawMediaSource, DrawOp.postFrameUpdate]) ∧
          (s.myCurrentWidget = Widget.MAIN_MENU →
            (update s).2
              = [DrawOp.preFrameUpdate, DrawOp.drawMediaSource] ++ drawMainMenu s
                ++ [DrawOp.postFrameUpdate]) ∧
          (s.myCurrentWidget = Widget.REMAP_MENU →
            (update s).2
              = [DrawOp.preFrameUpdate, DrawOp.drawMediaSource] ++ drawRemapMenu s
                ++ [DrawOp.postFrameUpdate]) ∧
          (s.myCurrentWidget = Widget.INFO_MENU →
            (update s).2
              = [DrawOp.preFrameUpdate, DrawOp.drawMediaSource] ++ drawInfoMenu s
                ++ [DrawOp.postFrameUpdate])) ∧
      ((s.theMenuChangedIndicator = false ∧ s.theRedrawEntireFrameIndicator = false) →
        (update s).2 = [DrawOp.preFrameUpdate, DrawOp.postFrameUpdate] ∧ (update s).1 = s) ∧
      (update s).1.theMenuChangedIndicator = false ∧
      (update s).1.theRedrawEntireFrameIndicator = false ∧
      (∀ x y : Nat, x = toUInt32 ((s.myWidth / 2 : Nat) - 72) →
        y = toUInt32 ((s.myHeight / 2 : Nat) - 18) → s.myMainMenuItems = 2 →
        drawMainMenu s
          = [DrawOp.drawBoundedBox (toUInt32 (x - 2)) (toUInt32 (y - 2)) 147 39,
              DrawOp.drawText (toUInt32 (x + 8)) (toUInt32 (y + 8)) "Event Remapping",
              DrawOp.drawText (toUInt32 (x + 8)) (toUInt32 (10 + y + 8)) "Game Information",
              DrawOp.drawChar x (toUInt32 (toInt32 (10 * s.myMainMenuIndex) + y + 8))
                LEFTARROW,
              DrawOp.drawChar (toUInt32 (x + 144 - 8))
                (toUInt32 (toInt32 (10 * s.myMainMenuIndex) + y + 8)) RIGHTARROW]) ∧
      drawRemapMenu s
        = [DrawOp.drawBoundedBox (toUInt32 (remapX s - 2)) (toUInt32 (remapY s - 2))
            (toUInt32 (remapWidth s + 3)) (toUInt32 (remapHeight s + 3))]
          ++ (List.range (s.myRemapMenuHighIndex - s.myRemapMenuLowIndex).toNat).flatMap
              (fun n =>
                [DrawOp.drawText (remapNameX s) (remapRowY s n)
                   (ourRemapMenu.getD (s.myRemapMenuLowIndex + n).toNat
                     ⟨EventType.NoType, "", ""⟩).action,
                 DrawOp.drawText (remapKeyX s (s.myRemapMenuLowIndex + n).toNat)
                   (remapRowY s n) (s.ourRemapMenuKey (s.myRemapMenuLowIndex + n).toNat)])
          ++ (if s.myRemapEventSelectedFlag = true then
              [DrawOp.drawChar
                 (toUInt32 (remapWidth s
                   - (s.ourRemapMenuKey s.myRemapMenuIndex.toNat).length * FONTWIDTH
                   - FONTWIDTH))
                 (toUInt32 (toInt32
                   (LINEOFFSET * toInt32 (s.myRemapMenuIndex - s.myRemapMenuLowIndex))
                   + remapY s + YBOXOFFSET)) LEFTMARKER,
               DrawOp.drawChar (toUInt32 (remapX s + remapWidth s - FONTWIDTH))
                 (toUInt32 (toInt32
                   (LINEOFFSET * toInt32 (s.myRemapMenuIndex - s.myRemapMenuLowIndex))
                   + remapY s + YBOXOFFSET)) RIGHTMARKER]
            else
              [DrawOp.drawChar (remapX s)
                 (toUInt32 (toInt32
                   (LINEOFFSET * toInt32 (s.myRemapMenuIndex - s.myRemapMenuLowIndex))
                   + remapY s + YBOXOFFSET)) LEFTARROW,
               DrawOp.drawChar (toUInt32 (remapX s + remapWidth s - FONTWIDTH))
                 (toUInt32 (toInt32
                   (LINEOFFSET * toInt32 (s.myRemapMenuIndex - s.myRemapMenuLowIndex))
                   + remapY s + YBOXOFFSET)) RIGHTARROW])
          ++ (if toInt32 (s.myRemapMenuHighIndex - s.myMaxRows) > 0 then
              [DrawOp.drawChar (toUInt32 ((remapWidth s / 2 : Nat) - 4)) (remapY s) UPARROW]
            else [])
          ++ (if toInt32 (s.myRemapMenuLowIndex + s.myMaxRows) < s.myRemapMenuItems then
              [DrawOp.drawChar (toUInt32 ((remapWidth s / 2 : Nat) - 4))
                (toUInt32 (remapHeight s - 4)) DOWNARROW]
            else []) ∧
      (∀ width x y : Nat,
        width = toUInt32 (toInt32 (toInt32 (s.myInfoMenuWidth * 8) + 16)) →
        x = toUInt32 ((s.myWidth / 2 : Nat) - (width / 2 : Nat)) →
        y = toUInt32 ((s.myHeight / 2 : Nat) - 53) →
        drawInfoMenu s
          = [DrawOp.drawBoundedBox x y width 106]
            ++ (List.range 9).map (fun (i : Nat) =>
                DrawOp.drawText (toUInt32 (x + 8)) (toUInt32 (10 * (i : Int) + y + 8))
                  (s.ourPropertiesInfo i))) := by
  have hmarks : remapMarkOps s
      = (if s.myRemapEventSelectedFlag = true then
          [DrawOp.drawChar
             (toUInt32 (remapWidth s
               - (s.ourRemapMenuKey s.myRemapMenuIndex.toNat).length * FONTWIDTH
               - FONTWIDTH))
             (toUInt32 (toInt32
               (LINEOFFSET * toInt32 (s.myRemapMenuIndex - s.myRemapMenuLowIndex))
               + remapY s + YBOXOFFSET)) LEFTMARKER,
           DrawOp.drawChar (toUInt32 (remapX s + remapWidth s - FONTWIDTH))
             (toUInt32 (toInt32
               (LINEOFFSET * toInt32 (s.myRemapMenuIndex - s.myRemapMenuLowIndex))
               + remapY s + YBOXOFFSET)) RIGHTMARKER]
        else
          [DrawOp.drawChar (remapX s)
             (toUInt32 (toInt32
               (LINEOFFSET * toInt32 (s.myRemapMenuIndex - s.myRemapMenuLowIndex))
               + remapY s + YBOXOFFSET)) LEFTARROW,
           DrawOp.drawChar (toUInt32 (remapX s + remapWidth s - FONTWIDTH))
             (toUInt32 (toInt32
               (LINEOFFSET * toInt32 (s.myRemapMenuIndex - s.myRemapMenuLowIndex))
               + remapY s + YBOXOFFSET)) RIGHTARROW]) := by
    unfold remapMarkOps
    dsimp only
    by_cases hf : s.myRemapEventSelectedFlag = true
    · rw [if_neg (not_not.mpr hf), if_pos hf]
    · rw [if_pos hf, if_neg hf]
  refine ⟨?_, ?_, ?_, ?_, ?_, fun x y hx hy hi => drawMainMenu_eq s x y hx hy hi, ?_,
    fun width x y hw hx hy => drawInfoMenu_eq s width x y hw hx hy⟩
  · by_cases hflag : s.theMenuChangedIndicator = true ∨ s.theRedrawEntireFrameIndicator = true
    · rw [update_menu_drawn s hm hflag]
      exact ⟨fun _ => hflag, fun _ => by simp⟩
    · rw [update_menu_idle s hm hflag]
      exact ⟨fun hmem => by simp at hmem, fun h => absurd h hflag⟩
  · intro hflag
    rw [update_menu_drawn s hm hflag]
    refine ⟨rfl, rfl, ?_, ?_, ?_, ?_, ?_⟩
    · intro hw
      unfold drawCurrentWidget
      rw [hw]
      rfl
    · intro n hw
      unfold drawCurrentWidget
      rw [hw]
      rfl
    · intro hw
      unfold drawCurrentWidget
      rw [hw]
    · intro hw
      unfold drawCurrentWidget
      rw [hw]
    · intro hw
      unfold drawCurrentWidget
      rw [hw]
  · rintro ⟨h1, h2⟩
    have hflag : ¬ (s.theMenuChangedIndicator = true ∨ s.theRedrawEntireFrameIndicator = true) := by
      rw [h1, h2]
      simp
    rw [update_menu_idle s hm hflag]
    exact ⟨rfl, rfl⟩
  · by_cases hflag : s.theMenuChangedIndicator = true ∨ s.theRedrawEntireFrameIndicator = true
    · rw [update_menu_drawn s hm hflag]
    · rw [update_menu_idle s hm hflag]
      cases hb : s.theMenuChangedIndicator with
      | false => rfl
      | true => exact absurd (Or.inl hb) hflag
  · by_cases hflag : s.theMenuChangedIndicator = true ∨ s.theRedrawEntireFrameIndicator = true
    · rw [update_menu_drawn s hm hflag]
    · rw [update_menu_idle s hm hflag]
      cases hb : s.theRedrawEntireFrameIndicator with
      | false => rfl
      | true => exact absurd (Or.inr hb) hflag
  · rw [drawRemapMenu_eq, hmarks]
    rfl

set_option maxRecDepth 100000 in
/-- C16, witness: on the sample display (256 by 120 pixels) the first update() after
showMenu(true) draws the media source and the main menu; after Return it draws the media
source and the remap menu with its first ten rows, the arrows on the first line and the
down arrow; in the info menu it draws the media source, the box and the nine property
lines.  The second update() of the remap menu makes no drawing call and changes
nothing. -/
theorem update_redraw_policy_witness :
    (update (showMenu true sampleDisplay)).2
        = [DrawOp.preFrameUpdate, DrawOp.drawMediaSource,
            DrawOp.drawBoundedBox 54 40 147 39,
            DrawOp.drawText 64 50 "Event Remapping",
            DrawOp.drawText 64 60 "Game Information",
            DrawOp.drawChar 56 50 26, DrawOp.drawChar 192 50 27,
            DrawOp.postFrameUpdate] ∧
      (update sampleRemap).2
        = [DrawOp.preFrameUpdate, DrawOp.drawMediaSource,
            DrawOp.drawBoundedBox 6 0 243 119,
            DrawOp.drawText 16 10 "Select", DrawOp.drawText 208 10 "None",
            DrawOp.drawText 16 20 "Reset", DrawOp.drawText 208 20 "None",
            DrawOp.drawText 16 30 "Color TV", DrawOp.drawText 208 30 "None",
            DrawOp.drawText 16 40 "B/W TV", DrawOp.drawText 208 40 "None",
            DrawOp.drawText 16 50 "Left Diff. B", DrawOp.drawText 208 50 "None",
            DrawOp.drawText 16 60 "Left Diff. A", DrawOp.drawText 208 60 "None",
            DrawOp.drawText 16 70 "Right Diff. B", DrawOp.drawText 208 70 "None",
            DrawOp.drawText 16 80 "Right Diff. A", DrawOp.drawText 208 80 "None",
            DrawOp.drawText 16 90 "Save State", DrawOp.drawText 208 90 "None",
            DrawOp.drawText 16 100 "Change State", DrawOp.drawText 208 100 "None",
            DrawOp.drawChar 8 10 26, DrawOp.drawChar 240 10 27,
            DrawOp.drawChar 116 112 25,
            DrawOp.postFrameUpdate] ∧
      (update sampleInfo).2
        = [DrawOp.preFrameUpdate, DrawOp.drawMediaSource,
            DrawOp.drawBoundedBox 64 7 128 106,
            DrawOp.drawText 72 15 "", DrawOp.drawText 72 25 "",
            DrawOp.drawText 72 35 "Manufacturer: ", DrawOp.drawText 72 45 "Model:        ",
            DrawOp.drawText 72 55 "Rarity:       ", DrawOp.drawText 72 65 "Type:         ",
            DrawOp.drawText 72 75 "", DrawOp.drawText 72 85 "MD5SUM:",
            DrawOp.drawText 72 95 "",
            DrawOp.postFrameUpdate] ∧
      (update (update sampleRemap).1).2 = [DrawOp.preFrameUpdate, DrawOp.postFrameUpdate] ∧
      (update (update sampleRemap).1).1 = (update sampleRemap).1 :=
  ⟨((update_redraw_policy (showMenu true sampleDisplay) rfl).2.1
      (Or.inr rfl)).2.2.2.2.1 rfl |>.trans (by decide),
   ((update_redraw_policy sampleRemap sampleRemap_flags.1).2.1
      (Or.inl sampleRemap_flags.2.1)).2.2.2.2.2.1 (by decide) |>.trans (by decide),
   ((update_redraw_policy sampleInfo rfl).2.1
      (Or.inl (by decide))).2.2.2.2.2.2 (by decide) |>.trans (by decide),
   ((update_redraw_policy (update sampleRemap).1 sampleRemap_flags.2.2.1).2.2.1
      ⟨sampleRemap_flags.2.2.2.1, sampleRemap_flags.2.2.2.2⟩).1,
   ((update_redraw_policy (update sampleRemap).1 sampleRemap_flags.2.2.1).2.2.1
      ⟨sampleRemap_flags.2.2.2.1, sampleRemap_flags.2.2.2.2⟩).2⟩

/-! ## Dialog routing: the call that the top frame receives -/

theorem handleKeyEvent_call (g : GuiConsts) (ascii key mod : Int) (state : Nat)
    (s : DialogContainer) (top : Dialog) (rest : List Dialog)
    (hs : s.myDialogStack = top :: rest) :
    DeliversCall
      (if state = 1 then Call.handleKeyDown top.id ascii key mod
        else Call.handleKeyUp top.id ascii key mod)
      s (handleKeyEvent g ascii key mod state s) := by
  unfold handleKeyEvent DeliversCall
  have he : s.myDialogStack.isEmpty = false := by rw [hs]; rfl
  have ht : stackTop s.myDialogStack = some top := by rw [hs]; rfl
  simp only [he, ht, Bool.false_eq_true, if_false, Option.bind_eq_bind, Option.some_bind,
    Option.pure_def]
  split_ifs <;> exact ⟨_, rfl, rfl, rfl⟩

theorem handleMouseMotionEvent_call (x y button : Int)
    (s : DialogContainer) (top : Dialog) (rest : List Dialog)
    (hs : s.myDialogStack = top :: rest) :
    DeliversCall
      (Call.handleMouseMoved top.id (toInt32 ((top.translateCoords x y).1 - top._x))
        (toInt32 ((top.translateCoords x y).2 - top._y)) button)
      s (handleMouseMotionEvent x y button s) := by
  unfold handleMouseMotionEvent DeliversCall
  have he : s.myDialogStack.isEmpty = false := by rw [hs]; rfl
  have ht : stackTop s.myDialogStack = some top := by rw [hs]; rfl
  simp only [he, ht, Bool.false_eq_true, if_false, Option.bind_eq_bind, Option.some_bind,
    Option.pure_def]
  exact ⟨_, rfl, rfl, rfl⟩

theorem handleMouseButtonEvent_call (g : GuiConsts) (b : MouseButton) (x y : Int)
    (state : Nat) (s : DialogContainer) (top : Dialog) (rest : List Dialog)
    (hs : s.myDialogStack = top :: rest) :
    DeliversCall
      (match b with
        | MouseButton.EVENT_LBUTTONDOWN =>
          Call.handleMouseDown top.id (toInt32 ((top.translateCoords x y).1 - top._x))
            (toInt32 ((top.translateCoords x y).2 - top._y)) 1
            (clickUpdate g s.myTime (top.translateCoords x y).1 (top.translateCoords x y).2
              s.myLastClick).count
        | MouseButton.EVENT_RBUTTONDOWN =>
          Call.handleMouseDown top.id (toInt32 ((top.translateCoords x y).1 - top._x))
            (toInt32 ((top.translateCoords x y).2 - top._y)) 2
            (clickUpdate g s.myTime (top.translateCoords x y).1 (top.translateCoords x y).2
              s.myLastClick).count
        | MouseButton.EVENT_LBUTTONUP =>
          Call.handleMouseUp top.id (toInt32 ((top.translateCoords x y).1 - top._x))
            (toInt32 ((top.translateCoords x y).2 - top._y)) 1 s.myLastClick.count
        | MouseButton.EVENT_RBUTTONUP =>
          Call.handleMouseUp top.id (toInt32 ((top.translateCoords x y).1 - top._x))
            (toInt32 ((top.translateCoords x y).2 - top._y)) 2 s.myLastClick.count
        | MouseButton.EVENT_WHEELUP =>
          Call.handleMouseWheel top.id (toInt32 ((top.translateCoords x y).1 - top._x))
            (toInt32 ((top.translateCoords x y).2 - top._y)) (-1)
        | MouseButton.EVENT_WHEELDOWN =>
          Call.handleMouseWheel top.id (toInt32 ((top.translateCoords x y).1 - top._x))
            (toInt32 ((top.translateCoords x y).2 - top._y)) 1)
      s (handleMouseButtonEvent g b x y state s) := by
  have he : s.myDialogStack.isEmpty = false := by rw [hs]; rfl
  have ht : stackTop s.myDialogStack = some top := by rw [hs]; rfl
  cases b with
  | EVENT_LBUTTONDOWN =>
    rw [handleMouseButtonEvent_down g MouseButton.EVENT_LBUTTONDOWN x y state s top rest hs rfl]
    exact ⟨_, rfl, rfl, rfl⟩
  | EVENT_RBUTTONDOWN =>
    rw [handleMouseButtonEvent_down g MouseButton.EVENT_RBUTTONDOWN x y state s top rest hs rfl]
    exact ⟨_, rfl, rfl, rfl⟩
  | EVENT_LBUTTONUP =>
    unfold handleMouseButtonEvent DeliversCall
    simp only [he, ht, Bool.false_eq_true, if_false, Option.bind_eq_bind, Option.some_bind,
      Option.pure_def, reduceCtorEq, or_self, or_true, true_or, if_true]
    split_ifs <;> exact ⟨_, rfl, rfl, rfl⟩
  | EVENT_RBUTTONUP =>
    unfold handleMouseButtonEvent DeliversCall
    simp only [he, ht, Bool.false_eq_true, if_false, Option.bind_eq_bind, Option.some_bind,
      Option.pure_def, reduceCtorEq, or_self, or_true, true_or, if_true]
    split_ifs <;> exact ⟨_, rfl, rfl, rfl⟩
  | EVENT_WHEELUP =>
    unfold handleMouseButtonEvent DeliversCall
    simp only [he, ht, Bool.false_eq_true, if_false, Option.bind_eq_bind, Option.some_bind,
      Option.pure_def, reduceCtorEq, or_self, or_true, true_or, if_true]
    exact ⟨_, rfl, rfl, rfl⟩
  | EVENT_WHEELDOWN =>
    unfold handleMouseButtonEvent DeliversCall
    simp only [he, ht, Bool.false_eq_true, if_false, Option.bind_eq_bind, Option.some_bind,
      Option.pure_def, reduceCtorEq, or_self, or_true, true_or, if_true]
    exact ⟨_, rfl, rfl, rfl⟩

theorem handleJoyEvent_call (g : GuiConsts) (stick button : Int) (state : Nat)
    (s : DialogContainer) (top : Dialog) (rest : List Dialog)
    (hs : s.myDialogStack = top :: rest) :
    DeliversCall
      (if state = 1 then Call.handleJoyDown top.id stick button
        else Call.handleJoyUp top.id stick button)
      s (handleJoyEvent g stick button state s) := by
  unfold handleJoyEvent DeliversCall
  have he : s.myDialogStack.isEmpty = false := by rw [hs]; rfl
  have ht : stackTop s.myDialogStack = some top := by rw [hs]; rfl
  simp only [he, ht, Bool.false_eq_true, if_false, Option.bind_eq_bind, Option.some_bind,
    Option.pure_def]
  split_ifs <;> exact ⟨_, rfl, rfl, rfl⟩

theorem handleJoyAxisEvent_call (g : GuiConsts) (deadzone stick axis value : Int)
    (s : DialogContainer) (top : Dialog) (rest : List Dialog)
    (hs : s.myDialogStack = top :: rest) :
    DeliversCall (Call.handleJoyAxis top.id stick axis (deadzoneFilter deadzone value))
      s (handleJoyAxisEvent g deadzone stick axis value s) := by
  rw [handleJoyAxisEvent_cons g deadzone stick axis value s top rest hs]
  unfold DeliversCall
  split_ifs <;> exact ⟨_, rfl, rfl, rfl⟩

theorem handleJoyHatEvent_call (stick hat value : Int)
    (s : DialogContainer) (top : Dialog) (rest : List Dialog)
    (hs : s.myDialogStack = top :: rest) :
    DeliversCall (Call.handleJoyHat top.id stick hat value)
      s (handleJoyHatEvent stick hat value s) := by
  unfold handleJoyHatEvent DeliversCall
  have he : s.myDialogStack.isEmpty = false := by rw [hs]; rfl
  have ht : stackTop s.myDialogStack = some top := by rw [hs]; rfl
  simp only [he, ht, Bool.false_eq_true, if_false, Option.bind_eq_bind, Option.some_bind,
    Option.pure_def]
  exact ⟨_, rfl, rfl, rfl⟩

/-- C17: dialog routing.  On a stack with `top` above `rest`, every dispatched event is
delivered to `top` as exactly one call, the one that carries the event, and the stack is
left as it is: a key event as handleKeyDown (state 1) or handleKeyUp with its ascii, key
and modifiers; a mouse motion as handleMouseMoved at the translated point relative to
the frame; a mouse button as handleMouseDown, handleMouseUp or handleMouseWheel with
button 1 or 2 and the click count; a joystick button as handleJoyDown or handleJoyUp; an
axis event as handleJoyAxis with the deadzone-filtered value; a hat event as
handleJoyHat.  A frame with another identity receives none of the calls made.  After
addDialog(A) then addDialog(B) a key event is delivered to B only, and after
removeDialog() a further key event is delivered to A. -/
theorem dispatch_goes_to_top (g : GuiConsts) (s : DialogContainer) (top : Dialog)
    (rest : List Dialog) (hs : s.myDialogStack = top :: rest)
    (ascii key mod x y button stick axis hat value deadzone : Int) (state : Nat)
    (b : MouseButton) (s0 : DialogContainer) (A B : Dialog) :
    DeliversCall
        (if state = 1 then Call.handleKeyDown top.id ascii key mod
          else Call.handleKeyUp top.id ascii key mod)
        s (handleKeyEvent g ascii key mod state s) ∧
      DeliversCall
        (Call.handleMouseMoved top.id (toInt32 ((top.translateCoords x y).1 - top._x))
          (toInt32 ((top.translateCoords x y).2 - top._y)) button)
        s (handleMouseMotionEvent x y button s) ∧
      DeliversCall
        (match b with
          | MouseButton.EVENT_LBUTTONDOWN =>
            Call.handleMouseDown top.id (toInt32 ((top.translateCoords x y).1 - top._x))
              (toInt32 ((top.translateCoords x y).2 - top._y)) 1
              (clickUpdate g s.myTime (top.translateCoords x y).1 (top.translateCoords x y).2
                s.myLastClick).count
          | MouseButton.EVENT_RBUTTONDOWN =>
            Call.handleMouseDown top.id (toInt32 ((top.translateCoords x y).1 - top._x))
              (toInt32 ((top.translateCoords x y).2 - top._y)) 2
              (clickUpdate g s.myTime (top.translateCoords x y).1 (top.translateCoords x y).2
                s.myLastClick).count
          | MouseButton.EVENT_LBUTTONUP =>
            Call.handleMouseUp top.id (toInt32 ((top.translateCoords x y).1 - top._x))
              (toInt32 ((top.translateCoords x y).2 - top._y)) 1 s.myLastClick.count
          | MouseButton.EVENT_RBUTTONUP =>
            Call.handleMouseUp top.id (toInt32 ((top.translateCoords x y).1 - top._x))
              (toInt32 ((top.translateCoords x y).2 - top._y)) 2 s.myLastClick.count
          | MouseButton.EVENT_WHEELUP =>
            Call.handleMouseWheel top.id (toInt32 ((top.translateCoords x y).1 - top._x))
              (toInt32 ((top.translateCoords x y).2 - top._y)) (-1)
          | MouseButton.EVENT_WHEELDOWN =>
            Call.handleMouseWheel top.id (toInt32 ((top.translateCoords x y).1 - top._x))
              (toInt32 ((top.translateCoords x y).2 - top._y)) 1)
        s (handleMouseButtonEvent g b x y state s) ∧
      DeliversCall
        (if state = 1 then Call.handleJoyDown top.id stick button
          else Call.handleJoyUp top.id stick button)
        s (handleJoyEvent g stick button state s) ∧
      DeliversCall (Call.handleJoyAxis top.id stick axis (deadzoneFilter deadzone value))
        s (handleJoyAxisEvent g deadzone stick axis value s) ∧
      DeliversCall (Call.handleJoyHat top.id stick hat value)
        s (handleJoyHatEvent stick hat value s) ∧
      DeliversOneTo top s (handleKeyEvent g ascii key mod state s) ∧
      DeliversOneTo top s (handleMouseMotionEvent x y button s) ∧
      DeliversOneTo top s (handleMouseButtonEvent g b x y state s) ∧
      DeliversOneTo top s (handleJoyEvent g stick button state s) ∧
      DeliversOneTo top s (handleJoyAxisEvent g deadzone stick axis value s) ∧
      DeliversOneTo top s (handleJoyHatEvent stick hat value s) ∧
      (∀ (r : Option DialogContainer) (s1 : DialogContainer) (d : Dialog),
        DeliversOneTo top s r → r = some s1 → d.id ≠ top.id →
        ∀ call ∈ newCalls s s1, call.receiver ≠ some d.id) ∧
      DeliversOneTo B (addDialog B (addDialog A s0))
        (handleKeyEvent g ascii key mod state (addDialog B (addDialog A s0))) ∧
      DeliversCall
        (if state = 1 then Call.handleKeyDown B.id ascii key mod
          else Call.handleKeyUp B.id ascii key mod)
        (addDialog B (addDialog A s0))
        (handleKeyEvent g ascii key mod state (addDialog B (addDialog A s0))) ∧
      (∀ s2, handleKeyEvent g ascii key mod state (addDialog B (addDialog A s0)) = some s2 →
        (A.id ≠ B.id → ∀ call ∈ newCalls (addDialog B (addDialog A s0)) s2,
          call.receiver ≠ some A.id) ∧
        (removeDialog s2).myDialogStack = A :: s0.myDialogStack ∧
        DeliversOneTo A (removeDialog s2)
          (handleKeyEvent g ascii key mod state (removeDialog s2)) ∧
        DeliversCall
          (if state = 1 then Call.handleKeyDown A.id ascii key mod
            else Call.handleKeyUp A.id ascii key mod)
          (removeDialog s2) (handleKeyEvent g ascii key mod state (removeDialog s2))) := by
  have hB : DeliversOneTo B (addDialog B (addDialog A s0))
      (handleKeyEvent g ascii key mod state (addDialog B (addDialog A s0))) :=
    handleKeyEvent_top g ascii key mod state _ B (A :: s0.myDialogStack) rfl
  refine ⟨handleKeyEvent_call g ascii key mod state s top rest hs,
    handleMouseMotionEvent_call x y button s top rest hs,
    handleMouseButtonEvent_call g b x y state s top rest hs,
    handleJoyEvent_call g stick button state s top rest hs,
    handleJoyAxisEvent_call g deadzone stick axis value s top rest hs,
    handleJoyHatEvent_call stick hat value s top rest hs,
    handleKeyEvent_top g ascii key mod state s top rest hs,
    handleMouseMotionEvent_top x y button s top rest hs,
    handleMouseButtonEvent_top g b x y state s top rest hs,
    handleJoyEvent_top g stick button state s top rest hs,
    handleJoyAxisEvent_top g deadzone stick axis value s top rest hs,
    handleJoyHatEvent_top stick hat value s top rest hs, ?_, hB,
    handleKeyEvent_call g ascii key mod state _ B (A :: s0.myDialogStack) rfl, ?_⟩
  · intro r s1 d hd hr hne call hcall hrec
    have h1 := deliversOneTo_newCalls top s s1 r hd hr call hcall
    rw [h1] at hrec
    exact hne (Option.some.inj hrec).symm
  · intro s2 h2
    have hstack : s2.myDialogStack = B :: A :: s0.myDialogStack := by
      obtain ⟨s3, _, h3, _, _, h4⟩ := hB
      rw [h2] at h3
      have e : s2 = s3 := Option.some.inj h3
      rw [e, h4]
      rfl
    have hrem : (removeDialog s2).myDialogStack = A :: s0.myDialogStack := by
      rw [removeDialog_cons s2 B (A :: s0.myDialogStack) hstack]
    refine ⟨?_, hrem, handleKeyEvent_top g ascii key mod state _ A s0.myDialogStack hrem,
      handleKeyEvent_call g ascii key mod state _ A s0.myDialogStack hrem⟩
    intro hne call hcall hrec
    have h1 := deliversOneTo_newCalls B _ s2 _ hB h2 call hcall
    rw [h1] at hrec
    exact hne (Option.some.inj hrec).symm

/-- C17, witness: on the sample container with dialog B (identity 2, at (30, 40), on a
surface scaled by two) above dialog A above the base dialog, a key-down of key 97 is the
call handleKeyDown(97, 97, 0) on B, a mouse motion to (100, 100) is handleMouseMoved(20,
10, 0) on B, and a hat event is handleJoyHat(0, 0, 1) on B. -/
theorem dispatch_goes_to_top_witness :
    (addDialog sampleB (addDialog sampleA sampleBaseOnly)).myDialogStack
        = [sampleB, sampleA, sampleBase] ∧
      DeliversCall (Call.handleKeyDown 2 97 97 0)
        (addDialog sampleB (addDialog sampleA sampleBaseOnly))
        (handleKeyEvent sampleGui 97 97 0 1 (addDialog sampleB (addDialog sampleA sampleBaseOnly))) ∧
      DeliversCall (Call.handleMouseMoved 2 20 10 0)
        (addDialog sampleB (addDialog sampleA sampleBaseOnly))
        (handleMouseMotionEvent 100 100 0 (addDialog sampleB (addDialog sampleA sampleBaseOnly))) ∧
      DeliversCall (Call.handleJoyHat 2 0 0 1)
        (addDialog sampleB (addDialog sampleA sampleBaseOnly))
        (handleJoyHatEvent 0 0 1 (addDialog sampleB (addDialog sampleA sampleBaseOnly))) ∧
      DeliversOneTo sampleB (addDialog sampleB (addDialog sampleA sampleBaseOnly))
        (handleKeyEvent sampleGui 97 97 0 1 (addDialog sampleB (addDialog sampleA sampleBaseOnly))) ∧
      DeliversOneTo sampleB (addDialog sampleB (addDialog sampleA sampleBaseOnly))
        (handleJoyHatEvent 0 0 1 (addDialog sampleB (addDialog sampleA sampleBaseOnly))) :=
  have h := dispatch_goes_to_top sampleGui (addDialog sampleB (addDialog sampleA sampleBaseOnly))
    sampleB [sampleA, sampleBase] rfl 97 97 0 100 100 0 0 0 0 1 0 1
    MouseButton.EVENT_LBUTTONDOWN sampleBaseOnly sampleA sampleB
  ⟨rfl, h.1, h.2.1, h.2.2.2.2.2.1, h.2.2.2.2.2.2.1, h.2.2.2.2.2.2.2.2.2.2.2.1⟩

end Stella
